import Mathlib

/-!
# Access verification and session issuance (156sr-dogs/blog)

Shallow embedding of the three serverless functions
`netilfy/functions/verify.js`, `netilfy/functions/download.js` and
`netilfy/functions/list-files.js`, of the client's fallback puzzle
`js/fallback-captcha.js` and of the client's verification flow
`js/verification.js` with `js/hcaptcha-integration.js`.

Conventions of the embedding

* `Date.now()` is an explicit argument `now : Nat` (milliseconds); one call of a
  function reads the clock as one instant, except `generateToken`, which reads
  it in two lines: its reads are `now` and `later`, and in the handler `later`
  is `w.nextNow now`.
* `Math.floor(Math.random() * n)` is an explicit argument of type `Fin n`.
* `undefined` is `none`; a JS string that may be absent is an `Option String`.
* The third-party libraries the code calls (`jsonwebtoken`,
  `rate-limiter-flexible`, `node-fetch`) and the Node modules `path`, `Buffer`
  and `fs` are not part of the repository.  `jsonwebtoken` and
  `RateLimiterMemory` are modelled by their documented behaviour in the
  namespace `Lib`, `path` (POSIX) and the UTF-8 and base64 conversions of
  `Buffer` in the namespaces `Path` and `Buffer`, `JSON.stringify` and
  `JSON.parse` in the namespace `Json`, and `btoa`; the keyed hash, the outbound
  HTTP call and the decoding of a puzzle token are fields of `World`, the file
  system is a `FileSystem`.  `Verify.decodeToken` is the decoding of a puzzle
  token through these models, for the tokens whose fields have the types the
  client writes.
* A time value of a `Date` lies within 8640000000000000 ms of 0; `toISOString`
  throws outside this range.
* Module state (`rateLimiter`, `attemptStore`, pending `setTimeout` callbacks)
  is threaded explicitly through `State`; the client's `verificationState` and
  the entries of `localStorage` it uses are the two fields of `Client`.
-/

namespace Blog

/-! ## JavaScript helpers -/

/-- Truthiness of a JS value that is a string or `undefined`. -/
def truthy : Option String → Bool
  | some s => s != ""
  | none => false

/-- The JS expression `a || b` on values that are strings or `undefined`. -/
def jsOr (a b : Option String) : Option String :=
  if truthy a then a else b

/-- Whether the list `p` starts the list `l`. -/
def startsWith : List Char → List Char → Bool
  | [], _ => true
  | _ :: _, [] => false
  | a :: p, b :: l => a == b && startsWith p l

/-- Whether `p` occurs somewhere in `l`. -/
def occursIn (p : List Char) : List Char → Bool
  | [] => startsWith p []
  | c :: l => startsWith p (c :: l) || occursIn p l

/-- The JS method `s.includes(pat)`. -/
def includes (s pat : String) : Bool :=
  occursIn pat.data s.data

/-- The JS conversion `ToInt32` (what `x & x` and `x << n` apply). -/
def toInt32 (x : Int) : Int :=
  (x + 2147483648) % 4294967296 - 2147483648

/-- UTF-16 code units of one character. -/
def utf16 (c : Char) : List Nat :=
  if c.toNat < 65536 then [c.toNat]
  else [55296 + (c.toNat - 65536) / 1024, 56320 + (c.toNat - 65536) % 1024]

/-- The values `str.charCodeAt(i)` for `i = 0 .. str.length - 1`. -/
def charCodes (s : String) : List Nat :=
  (s.data.map utf16).flatten

/-- The JS call `n.toString(16)` for a non-negative integer. -/
def toHex (n : Nat) : String :=
  String.mk (Nat.toDigits 16 n)

/-- The largest time value of a `Date`, in milliseconds: beyond it (on either
side of 0) `new Date(t)` is an invalid date and `toISOString()` throws a
`RangeError`. -/
def maxTimeValue : Nat := 8640000000000000

/-- The JS call `Math.ceil(ms / 1000)` for a non-negative integer `ms`. -/
def ceilSeconds (ms : Nat) : Nat :=
  (ms + 999) / 1000

/-! ## Data -/

/-- Payload of a session token (`generateToken` in verify.js). -/
structure Claims where
  sub : String
  ip : String
  iat : Nat
  exp : Nat
  verification_method : String
  deriving DecidableEq, Repr

/-- A three-part JSON web token: header algorithm, payload and signature. -/
structure Jwt where
  alg : String
  payload : Claims
  signature : Nat
  deriving DecidableEq, Repr

/-- A bearer token as a handler receives it: a string that does not split into a
header, a payload and a signature, or a three-part token. -/
inductive Token where
  | malformed (raw : String)
  | jwt (t : Jwt)
  deriving DecidableEq, Repr

/-- Fields of a decoded fallback puzzle token
(`const { problemId, answer, timestamp, type, sig } = decodedData`), as the
client builds them: strings for `problemId`, `type` and `sig`, integers for
`answer` and `timestamp`. -/
structure MathToken where
  problemId : String
  answer : Int
  timestamp : Int
  type : String
  sig : String
  deriving DecidableEq, Repr

/-- The environment values and constants of `CONFIG`. -/
structure Config where
  ACCESS_KEY_SECRET : Option String
  JWT_SECRET : Option String
  HCAPTCHA_SECRET : Option String
  FALLBACK_SECRET : Option String
  NODE_ENV : Option String

/-- `CONFIG.SESSION_DURATION = 30 * 60 * 1000`. -/
def SESSION_DURATION : Nat := 30 * 60 * 1000

/-- `CONFIG.MAX_ATTEMPTS = 5`. -/
def MAX_ATTEMPTS : Nat := 5

/-- `CONFIG.COOLDOWN_TIME = 5 * 60 * 1000`. -/
def COOLDOWN_TIME : Nat := 5 * 60 * 1000

/-- What the code uses from outside the process.

* `hmac key alg payload`: the HS256 signature `jsonwebtoken` computes;
* `siteverify secret response remoteip`: the outbound call to the hCaptcha
  endpoint followed by `response.json()`; `none` when either throws, otherwise
  the value of `data.success === true`;
* `decode token`: `JSON.parse(Buffer.from(token, 'base64').toString())` followed
  by the destructuring; `none` when it throws;
* `nextNow now`: what the second `Date.now()` of `generateToken` returns when
  the first returned `now` (the clock may advance between the two reads). -/
structure World where
  hmac : String → String → Claims → Nat
  siteverify : Option String → String → String → Option Bool
  decode : String → Option MathToken
  nextNow : Nat → Nat

/-! ## Library models -/

namespace Lib

/-- The call `jwt.sign(payload, secret, { algorithm: 'HS256' })`: throws when the
secret has no value, otherwise a token signed under the secret. -/
def jwtSign (w : World) (payload : Claims) (secret : Option String) : Except String Token :=
  match secret with
  | none => .error "secretOrPrivateKey must have a value"
  | some k =>
    if k = "" then .error "secretOrPrivateKey must have a value"
    else .ok (.jwt { alg := "HS256", payload := payload, signature := w.hmac k "HS256" payload })

/-- The call `jwt.verify(token, secret, { algorithms: ['HS256'] })` with the clock
at `clock` seconds: the checks of the library in their order (shape, secret,
algorithm, signature, `exp`), each throwing its own message. -/
def jwtVerify (w : World) (token : Token) (secret : Option String) (clock : Nat) :
    Except String Claims :=
  match token with
  | .malformed _ => .error "jwt malformed"
  | .jwt t =>
    match secret with
    | none => .error "secret or public key must be provided"
    | some k =>
      if k = "" then .error "secret or public key must be provided"
      else if t.alg ≠ "HS256" then .error "invalid algorithm"
      else if t.signature ≠ w.hmac k t.alg t.payload then .error "invalid signature"
      else if clock ≥ t.payload.exp then .error "jwt expired"
      else .ok t.payload

/-- One record of the memory storage of `RateLimiterMemory`. -/
structure Record where
  value : Nat
  expiresAt : Nat
  deriving DecidableEq, Repr

/-- The limiter of verify.js: `points: 5`. -/
def points : Nat := 5

/-- The limiter of verify.js: `duration: 60` (seconds). -/
def duration : Nat := 60

/-- The call `rateLimiter.consume(key)` at time `now`: a live record of the key is
incremented, an absent or lapsed one is replaced by a fresh record of value 1
that lapses after `duration` seconds; the call rejects with `msBeforeNext` when
the consumed points exceed `points`. -/
def consume (store : String → Option Record) (now : Nat) (key : String) :
    (String → Option Record) × Except Nat Unit :=
  match store key with
  | some r =>
    if now < r.expiresAt then
      let store1 := fun k => if k = key then some { r with value := r.value + 1 } else store k
      if r.value + 1 > points then (store1, .error (r.expiresAt - now))
      else (store1, .ok ())
    else
      (fun k => if k = key then some { value := 1, expiresAt := now + duration * 1000 } else store k,
        .ok ())
  | none =>
    (fun k => if k = key then some { value := 1, expiresAt := now + duration * 1000 } else store k,
      .ok ())

end Lib

/-! ## verify.js -/

namespace Verify

/-- Result object of `verifyHCaptcha` and `verifyFallbackCaptcha`, restricted to
the fields the handler reads. -/
structure CaptchaResult where
  success : Bool
  error : Option String := none
  fallbackRecommended : Option Bool := none
  deriving DecidableEq, Repr

/-- Source: `verifyHCaptcha(token, clientIP)`. -/
def verifyHCaptcha (w : World) (cfg : Config) (token : Option String) (clientIP : String) :
    CaptchaResult :=
  if cfg.NODE_ENV = some "development" ∧ token = some "test_bypass" then
    { success := true }
  else if !truthy token || token = some "simple_captcha_placeholder" then
    { success := false, error := some "无效的验证码token" }
  else
    match w.siteverify cfg.HCAPTCHA_SECRET (token.getD "") clientIP with
    | some ok => { success := ok }
    | none =>
      { success := false, error := some "hCaptcha 服务暂时不可用", fallbackRecommended := some true }

/-- Source: `createSignature(problemId, answer, timestamp, type)`. -/
def createSignature (problemId : String) (answer : Int) (timestamp : Int) (type : String) :
    String :=
  let str := problemId ++ "-" ++ toString answer ++ "-" ++ toString timestamp ++ "-" ++ type
  let hash := (charCodes str).foldl
    (fun (hash : Int) (char : Nat) => toInt32 (toInt32 (hash * 32) - hash + char)) 0
  toHex hash.natAbs

/-- Source: `verifyFallbackCaptcha(token, clientIP)` with the clock at `now`. The
`catch` block answers when the decoding throws and when, in building the result
of success, `new Date(timestamp).toISOString()` throws, which it does for a
timestamp outside the range of time values. -/
def verifyFallbackCaptcha (w : World) (now : Nat) (token : Option String) : CaptchaResult :=
  match token.bind w.decode with
  | none => { success := false, error := some "备用验证失败", fallbackRecommended := some false }
  | some d =>
    if d.type ≠ "math_captcha" then
      { success := false, error := some "无效的验证类型" }
    else if (now : Int) - d.timestamp > 5 * 60 * 1000 then
      { success := false, error := some "验证已过期，请重新验证" }
    else if d.sig ≠ createSignature d.problemId d.answer d.timestamp d.type then
      { success := false, error := some "验证签名无效" }
    else if d.timestamp.natAbs > maxTimeValue then
      { success := false, error := some "备用验证失败", fallbackRecommended := some false }
    else
      { success := true }

/-- Source: `verifyAccessKey(accessKey)`. -/
def verifyAccessKey (cfg : Config) (accessKey : Option String) : Bool :=
  accessKey == cfg.ACCESS_KEY_SECRET

/-- Result object of `checkRateLimit`. -/
structure RateLimitCheck where
  allowed : Bool
  remaining : Option Nat
  deriving DecidableEq, Repr

/-- Source: `checkRateLimit(ip)`; returns the limiter's new storage as well. -/
def checkRateLimit (store : String → Option Lib.Record) (now : Nat) (ip : String) :
    (String → Option Lib.Record) × RateLimitCheck :=
  match Lib.consume store now ip with
  | (store1, .ok _) => (store1, { allowed := true, remaining := none })
  | (store1, .error msBeforeNext) =>
    (store1, { allowed := false, remaining := some (ceilSeconds msBeforeNext) })

/-- The payload object built inside `generateToken`; `now` is the value of the
`Date.now()` in the line of `iat` and `later` the value of the one in the line of
`exp`. -/
def tokenPayload (now later : Nat) (ip : String) (verificationMethod : String) : Claims :=
  { sub := "download-access"
    ip := ip
    iat := now / 1000
    exp := (later + SESSION_DURATION) / 1000
    verification_method := verificationMethod }

/-- Source: `generateToken(ip, verificationMethod)`, whose two reads of the clock
return `now` and then `later`. -/
def generateToken (w : World) (cfg : Config) (now later : Nat) (ip : String)
    (verificationMethod : String) : Except String Token :=
  Lib.jwtSign w (tokenPayload now later ip verificationMethod) cfg.JWT_SECRET

/-- The destructured request body `{ accessKey, captchaToken, captchaType }`. -/
structure Body where
  accessKey : Option String
  captchaToken : Option String
  captchaType : Option String
  deriving DecidableEq, Repr

/-- The parts of the function event the handler reads; `body` is the outcome of
`JSON.parse(event.body)` and the destructuring, with the error message when
they throw. -/
structure Event where
  httpMethod : String
  body : Except String Body
  clientIp : Option String
  xForwardedFor : Option String

/-- The JSON body of a response; an absent field is `none`, and `retryAfter` is
`some none` when the field is present with value `null`. -/
structure ResponseBody where
  success : Option Bool := none
  error : Option String := none
  token : Option Token := none
  expiresIn : Option Nat := none
  redirectUrl : Option String := none
  verificationMethod : Option String := none
  fallbackUsed : Option Bool := none
  fallbackRecommended : Option Bool := none
  captchaType : Option String := none
  attemptsRemaining : Option Int := none
  retryAfter : Option (Option Nat) := none
  details : Option String := none
  deriving DecidableEq, Repr

/-- Status code and body of a handler response. -/
structure Response where
  statusCode : Nat
  body : ResponseBody
  deriving DecidableEq, Repr

/-- Module state of verify.js: the limiter's storage, `attemptStore`, and the
pending `setTimeout` callbacks (time at which each fires, key it deletes). -/
structure State where
  rateLimiter : String → Option Lib.Record
  attemptStore : String → Option Nat
  timers : List (Nat × String)

/-- State of a freshly loaded module. -/
def State.init : State :=
  { rateLimiter := fun _ => none, attemptStore := fun _ => none, timers := [] }

/-- The response of the `catch` block of the handler. -/
def internalError (cfg : Config) (message : String) : Response :=
  { statusCode := 500
    body :=
      { success := some false
        error := some "服务器内部错误"
        fallbackRecommended := some true
        details := if cfg.NODE_ENV = some "development" then some message else none } }

/-- The expression
`event.headers['client-ip'] || event.headers['x-forwarded-for'] || 'unknown'`. -/
def clientIP (event : Event) : String :=
  (jsOr (jsOr event.clientIp event.xForwardedFor) (some "unknown")).getD "unknown"

/-- The 429 response of the handler. -/
def rateLimitedResponse (remaining : Option Nat) : Response :=
  { statusCode := 429
    body :=
      { success := some false
        error := some "尝试次数过多"
        retryAfter := some remaining } }

/-- The 400 response of the handler for a `captchaType` it does not know. -/
def unsupportedResponse : Response :=
  { statusCode := 400
    body := { success := some false, error := some "不支持的验证类型" } }

/-- The 400 response of the handler for a proof that did not validate. -/
def proofFailedResponse (captchaResult : CaptchaResult) (captchaType : String) : Response :=
  let errorMessage := (jsOr captchaResult.error (some "人机验证失败")).getD "人机验证失败"
  let errorMessage :=
    if truthy captchaResult.error ∧ includes (captchaResult.error.getD "") "服务暂时不可用"
    then errorMessage ++ "，建议使用备用验证方式" else errorMessage
  { statusCode := 400
    body :=
      { success := some false
        error := some errorMessage
        fallbackRecommended := some (captchaResult.fallbackRecommended.getD false)
        captchaType := some captchaType } }

/-- The 401 response of the handler; `attempts` is the count after this failure. -/
def keyMismatchResponse (attempts : Nat) (captchaType : String) : Response :=
  { statusCode := 401
    body :=
      { success := some false
        error := some "访问密钥无效"
        attemptsRemaining := some ((MAX_ATTEMPTS : Int) - attempts)
        retryAfter :=
          some (if attempts ≥ MAX_ATTEMPTS then some (ceilSeconds COOLDOWN_TIME) else none)
        captchaType := some captchaType } }

/-- The 200 response of the handler. -/
def successResponse (token : Token) (verificationMethod : String) : Response :=
  { statusCode := 200
    body :=
      { success := some true
        token := some token
        expiresIn := some (SESSION_DURATION / 1000)
        redirectUrl := some "/download.html"
        verificationMethod := some verificationMethod
        fallbackUsed := some (includes verificationMethod "fallback") } }

/-- The branch on `captchaType` in the handler: the result of the proof check
with the verification method, or `none` for a type that is not supported. -/
def dispatchCaptcha (w : World) (cfg : Config) (now : Nat) (captchaType : String)
    (captchaToken : Option String) (clientIP : String) : Option (CaptchaResult × String) :=
  if captchaType = "hcaptcha" then
    let captchaResult := verifyHCaptcha w cfg captchaToken clientIP
    if !captchaResult.success ∧ captchaResult.fallbackRecommended = some true then
      some (captchaResult, "fallback_recommended")
    else some (captchaResult, captchaType)
  else if captchaType = "fallback_math" then
    some (verifyFallbackCaptcha w now captchaToken, "fallback_math")
  else none

/-- The `try` block of the handler once the body is parsed. -/
def handlePost (w : World) (cfg : Config) (now : Nat) (s : State) (event : Event) (body : Body) :
    Response × State :=
  let captchaType := body.captchaType.getD "hcaptcha"
  let clientIP := clientIP event
  let rateLimitCheck := checkRateLimit s.rateLimiter now clientIP
  let s1 : State := { s with rateLimiter := rateLimitCheck.1 }
  if !rateLimitCheck.2.allowed then
    (rateLimitedResponse rateLimitCheck.2.remaining, s1)
  else
    match dispatchCaptcha w cfg now captchaType body.captchaToken clientIP with
    | none => (unsupportedResponse, s1)
    | some (captchaResult, verificationMethod) =>
      if !captchaResult.success then
        (proofFailedResponse captchaResult captchaType, s1)
      else if !verifyAccessKey cfg body.accessKey then
        let attempts := (s1.attemptStore clientIP).getD 0 + 1
        (keyMismatchResponse attempts captchaType,
          { s1 with
            attemptStore := fun k => if k = clientIP then some attempts else s1.attemptStore k
            timers := s1.timers ++ [(now + COOLDOWN_TIME, clientIP)] })
      else
        match generateToken w cfg now (w.nextNow now) clientIP verificationMethod with
        | .error message => (internalError cfg message, s1)
        | .ok token =>
          (successResponse token verificationMethod,
            { s1 with attemptStore := fun k => if k = clientIP then none else s1.attemptStore k })

/-- Source: `exports.handler` of verify.js, with the clock at `now` (and at
`w.nextNow now` for the second read of `generateToken`), from module state `s`; returns the response and the module state after the call. The empty
body of the OPTIONS response is the body with every field absent. -/
def handler (w : World) (cfg : Config) (now : Nat) (s : State) (event : Event) :
    Response × State :=
  if event.httpMethod = "OPTIONS" then
    ({ statusCode := 200, body := {} }, s)
  else if event.httpMethod ≠ "POST" then
    ({ statusCode := 405, body := { error := some "只允许POST请求" } }, s)
  else
    match event.body with
    | .error message => (internalError cfg message, s)
    | .ok body => handlePost w cfg now s event body

/-- The event loop between two requests: every pending `setTimeout` callback
whose time has come by `now` runs (`attemptStore.delete(clientIP)`). -/
def runTimers (now : Nat) (s : State) : State :=
  { s with
    attemptStore := fun k =>
      if s.timers.any (fun t => decide (t.1 ≤ now) && t.2 == k) then none else s.attemptStore k
    timers := s.timers.filter (fun t => !decide (t.1 ≤ now)) }

/-- A sequence of requests, each with its arrival time; due timers run before
each request is handled. Returns the responses in order and the final state. -/
def serve (w : World) (cfg : Config) : State → List (Nat × Event) → List Response × State
  | s, [] => ([], s)
  | s, (now, event) :: rest =>
    let r := handler w cfg now (runTimers now s) event
    let rs := serve w cfg r.2 rest
    (r.1 :: rs.1, rs.2)

end Verify

/-! ## download.js and list-files.js -/

/-- Result object of `verifyToken`. -/
structure TokenCheck where
  valid : Bool
  reason : Option String := none
  decoded : Option Claims := none
  deriving DecidableEq, Repr

namespace Download

/-- Source: `verifyToken(token, ip)` of download.js with the clock at `now`. -/
def verifyToken (w : World) (cfg : Config) (now : Nat) (token : Token) (ip : String) :
    TokenCheck :=
  match Lib.jwtVerify w token cfg.JWT_SECRET (now / 1000) with
  | .error message => { valid := false, reason := some message }
  | .ok decoded =>
    if decoded.ip ≠ ip then
      { valid := false, reason := some "IP地址不匹配" }
    else
      let currentTime := now / 1000
      if decoded.exp < currentTime then
        { valid := false, reason := some "令牌已过期" }
      else
        { valid := true, decoded := some decoded }

end Download

namespace ListFiles

/-- Source: `verifyToken(token, ip)` of list-files.js with the clock at `now`. -/
def verifyToken (w : World) (cfg : Config) (now : Nat) (token : Token) (ip : String) :
    TokenCheck :=
  match Lib.jwtVerify w token cfg.JWT_SECRET (now / 1000) with
  | .error message => { valid := false, reason := some message }
  | .ok decoded =>
    if decoded.ip ≠ ip then
      { valid := false, reason := some "IP地址不匹配" }
    else
      let currentTime := now / 1000
      if decoded.exp < currentTime then
        { valid := false, reason := some "令牌已过期" }
      else
        { valid := true, decoded := some decoded }

end ListFiles

/-! ## More JavaScript helpers -/

/-- The characters `String.prototype.trim` removes and `parseInt` skips: white
space and line terminators. -/
def isWhiteSpace (c : Char) : Bool :=
  c.toNat ∈ [9, 10, 11, 12, 13, 32, 160, 5760, 8232, 8233, 8239, 8287, 12288, 65279] ||
    (8192 ≤ c.toNat && c.toNat ≤ 8202)

/-- The JS method `s.trim()`, on the characters of `s`. -/
def trim (s : List Char) : List Char :=
  ((s.dropWhile isWhiteSpace).reverse.dropWhile isWhiteSpace).reverse

/-- The value of a character as a digit in a radix up to 36, if it is one:
`0`-`9`, `a`-`z` and `A`-`Z` by their code units. -/
def digitValue (c : Char) : Option Nat :=
  if 48 ≤ c.toNat ∧ c.toNat ≤ 57 then some (c.toNat - 48)
  else if 97 ≤ c.toNat ∧ c.toNat ≤ 122 then some (c.toNat - 87)
  else if 65 ≤ c.toNat ∧ c.toNat ≤ 90 then some (c.toNat - 55)
  else none

/-- Whether a character is a digit of the radix. -/
def isRadixDigit (radix : Nat) (c : Char) : Bool :=
  match digitValue c with
  | some d => decide (d < radix)
  | none => false

/-- The number a list of digits of the radix denotes. -/
def digitsToNat (radix : Nat) (l : List Char) : Nat :=
  l.foldl (fun acc c => acc * radix + (digitValue c).getD 0) 0

/-- The digits of `parseInt`: the longest run of digits of the radix at the
start; `none` (the result `NaN`) when there is none. -/
def parseDigits (radix : Nat) (l : List Char) : Option Nat :=
  if l.takeWhile (isRadixDigit radix) = [] then none
  else some (digitsToNat radix (l.takeWhile (isRadixDigit radix)))

/-- The part of `parseInt` after the sign: a prefix `0x` or `0X` selects radix
16, otherwise the radix is 10. -/
def parseUnsigned : List Char → Option Nat
  | '0' :: 'x' :: t => parseDigits 16 t
  | '0' :: 'X' :: t => parseDigits 16 t
  | l => parseDigits 10 l

/-- The JS call `parseInt(s)`: leading white space is skipped, a sign is read,
then the digits; `none` is `NaN`. The result is the exact integer (JS rounds
it to a double, which changes no comparison with an integer below 2^53). -/
def parseInt (s : String) : Option Int :=
  match s.data.dropWhile isWhiteSpace with
  | '-' :: t => (parseUnsigned t).map (fun n => -(n : Int))
  | '+' :: t => (parseUnsigned t).map (fun n => (n : Int))
  | l => (parseUnsigned l).map (fun n => (n : Int))

/-! ## js/fallback-captcha.js -/

namespace FallbackCaptcha

/-- The object a template's `generate` returns. -/
structure Problem where
  problem : String
  answer : Int
  hint : String
  deriving DecidableEq, Repr

/-- The values `Math.floor(Math.random() * n)` one run of `generateMathProblem`
draws for the template it picks. -/
inductive Draw where
  | addition (ra rb : Fin 20)
  | subtraction (ra : Fin 30) (rb : Fin 10)
  | multiplication (ra rb : Fin 10)
  | simple_division (r1 : Fin 50) (r2 : Fin 5)
  | mix_operation (ra rb rc : Fin 10) (i1 i2 : Fin 3)

/-- Template `addition`. -/
def addition (ra rb : Fin 20) : Problem :=
  let a : Int := ra.val + 1
  let b : Int := rb.val + 1
  { problem := toString a ++ " + " ++ toString b ++ " = ?"
    answer := a + b
    hint := "将 " ++ toString a ++ " 和 " ++ toString b ++ " 相加" }

/-- Template `subtraction`. -/
def subtraction (ra : Fin 30) (rb : Fin 10) : Problem :=
  let a : Int := ra.val + 10
  let b : Int := rb.val + 1
  { problem := toString a ++ " - " ++ toString b ++ " = ?"
    answer := a - b
    hint := "从 " ++ toString a ++ " 中减去 " ++ toString b }

/-- Template `multiplication`. -/
def multiplication (ra rb : Fin 10) : Problem :=
  let a : Int := ra.val + 1
  let b : Int := rb.val + 1
  { problem := toString a ++ " × " ++ toString b ++ " = ?"
    answer := a * b
    hint := "计算 " ++ toString a ++ " 乘以 " ++ toString b }

/-- Template `simple_division`. -/
def simpleDivision (r1 : Fin 50) (r2 : Fin 5) : Problem :=
  let product : Int := r1.val + 10
  let divisor : Int := r2.val + 2
  let dividend := product * divisor
  { problem := toString dividend ++ " ÷ " ++ toString divisor ++ " = ?"
    answer := product
    hint := "将 " ++ toString dividend ++ " 分成 " ++ toString divisor ++ " 等份" }

/-- The array `operations` of template `mix_operation`. -/
def operations : List String := ["+", "-", "×"]

/-- Template `mix_operation`. -/
def mixOperation (ra rb rc : Fin 10) (i1 i2 : Fin 3) : Problem :=
  let a : Int := ra.val + 1
  let b : Int := rb.val + 1
  let c : Int := rc.val + 1
  let op1 := operations.getD i1.val ""
  let op2 := operations.getD i2.val ""
  let pa : String × Int :=
    if op1 = "×" ∧ op2 = "×" then
      (toString a ++ " × " ++ toString b ++ " × " ++ toString c, a * b * c)
    else if op1 = "×" ∧ op2 = "+" then
      (toString a ++ " × " ++ toString b ++ " + " ++ toString c, (a * b) + c)
    else if op1 = "×" ∧ op2 = "-" then
      (toString a ++ " × " ++ toString b ++ " - " ++ toString c, (a * b) - c)
    else if op1 = "+" ∧ op2 = "×" then
      (toString a ++ " + " ++ toString b ++ " × " ++ toString c, a + (b * c))
    else
      let temp1 := if op1 = "+" then a + b else a - b
      (toString a ++ " " ++ op1 ++ " " ++ toString b ++ " " ++ op2 ++ " " ++ toString c,
        if op2 = "+" then temp1 + c else temp1 - c)
  { problem := pa.1 ++ " = ?"
    answer := pa.2
    hint := "请按照数学运算顺序计算（先乘除后加减）" }

/-- The fields of a `FallbackCaptchaSystem` the verification reads. -/
structure System where
  currentProblem : Problem
  correctAnswer : Int
  problemId : String
  deriving DecidableEq, Repr

/-- Source: `generateMathProblem()`; `problemId` is the string
`Date.now().toString(36) + Math.random().toString(36).substr(2)` of the run. -/
def generateMathProblem (draw : Draw) (problemId : String) : System :=
  let currentProblem :=
    match draw with
    | .addition ra rb => addition ra rb
    | .subtraction ra rb => subtraction ra rb
    | .multiplication ra rb => multiplication ra rb
    | .simple_division r1 r2 => simpleDivision r1 r2
    | .mix_operation ra rb rc i1 i2 => mixOperation ra rb rc i1 i2
  { currentProblem := currentProblem
    correctAnswer := currentProblem.answer
    problemId := problemId }

/-- The object `data` of `generateVerificationToken`. -/
structure TokenData where
  problemId : String
  answer : Int
  timestamp : Int
  type : String
  deriving DecidableEq, Repr

/-- Source: `createSignature(data)` of fallback-captcha.js. -/
def createSignature (data : TokenData) : String :=
  let str := data.problemId ++ "-" ++ toString data.answer ++ "-" ++ toString data.timestamp ++
    "-" ++ data.type
  let hash := (charCodes str).foldl
    (fun (hash : Int) (char : Nat) => toInt32 (toInt32 (hash * 32) - hash + char)) 0
  toHex hash.natAbs

/-- Source: `generateVerificationToken()` with the clock at `now`; `btoaJson` is
`btoa(JSON.stringify(...))` on the object with the five fields. -/
def generateVerificationToken (btoaJson : MathToken → String) (now : Nat) (self : System) :
    String :=
  let timestamp : Int := now
  let data : TokenData :=
    { problemId := self.problemId
      answer := self.correctAnswer
      timestamp := timestamp
      type := "math_captcha" }
  let signature := createSignature data
  btoaJson
    { problemId := data.problemId
      answer := data.answer
      timestamp := data.timestamp
      type := data.type
      sig := signature }

/-- Result object of `verifyAnswer`. -/
structure AnswerCheck where
  success : Bool
  message : String
  token : Option String := none
  deriving DecidableEq, Repr

/-- Source: `verifyAnswer(userAnswer)` with the clock at `now`. -/
def verifyAnswer (btoaJson : MathToken → String) (now : Nat) (self : System)
    (userAnswer : String) : AnswerCheck :=
  if userAnswer = "" ∨ trim userAnswer.data = [] then
    { success := false, message := "请输入计算结果" }
  else
    match parseInt userAnswer with
    | none => { success := false, message := "请输入有效的数字" }
    | some answerNum =>
      if answerNum = self.correctAnswer then
        { success := true
          message := "验证通过"
          token := some (generateVerificationToken btoaJson now self) }
      else
        { success := false, message := "计算结果错误，请重试" }

end FallbackCaptcha

/-! ## Reference semantics of the displayed expressions -/

/-- One binary operator of a displayed puzzle applied to two numbers. -/
def applyOp (op : String) (x y : Int) : Int :=
  if op = "×" then x * y else if op = "+" then x + y else x - y

/-- The value of the expression `a op1 b op2 c` read with the usual precedence:
a multiplication binds before an addition or a subtraction, and operators of
the same rank associate to the left. -/
def evalPrecedence (a : Int) (op1 : String) (b : Int) (op2 : String) (c : Int) : Int :=
  if op2 = "×" ∧ op1 ≠ "×" then applyOp op1 a (applyOp op2 b c)
  else applyOp op2 (applyOp op1 a b) c

/-! ## Parts of createSignature -/

namespace Verify

/-- The string `str` that `createSignature` hashes. -/
def payloadString (problemId : String) (answer : Int) (timestamp : Int) (type : String) : String :=
  problemId ++ "-" ++ toString answer ++ "-" ++ toString timestamp ++ "-" ++ type

/-- The value of `hash` when the loop of `createSignature` ends on `str`. -/
def hashCode (str : String) : Int :=
  (charCodes str).foldl
    (fun (hash : Int) (char : Nat) => toInt32 (toInt32 (hash * 32) - hash + char)) 0

end Verify

/-! ## Node library models: `path` (POSIX) and `Buffer` -/

namespace Path

/-- The pieces of a path between its `/` characters. -/
def splitSlash : List Char → List (List Char)
  | [] => [[]]
  | c :: l =>
    match splitSlash l with
    | [] => [[]]
    | seg :: segs => if c = '/' then [] :: seg :: segs else (c :: seg) :: segs

/-- The segment walk of `path.normalize`: empty and `.` segments are dropped, a
`..` segment removes the segment before it, and where there is none to remove
it is kept only for a relative path (`allowAboveRoot`). The stack holds the
segments kept so far, last first. -/
def resolve (allowAboveRoot : Bool) : List (List Char) → List (List Char) → List (List Char)
  | stack, [] => stack.reverse
  | stack, seg :: rest =>
    if seg = [] ∨ seg = ['.'] then resolve allowAboveRoot stack rest
    else if seg = ['.', '.'] then
      match stack with
      | [] => resolve allowAboveRoot (if allowAboveRoot then [seg] else []) rest
      | top :: below =>
        if top = ['.', '.'] then
          resolve allowAboveRoot (if allowAboveRoot then seg :: stack else stack) rest
        else resolve allowAboveRoot below rest
    else resolve allowAboveRoot (seg :: stack) rest

/-- The call `path.normalize(p)`. -/
def normalize (p : String) : String :=
  if p.data = [] then "."
  else
    let isAbsolute := p.data.head? = some '/'
    let trailingSeparator := p.data.getLast? = some '/'
    let body := List.intercalate ['/'] (resolve (!decide isAbsolute) [] (splitSlash p.data))
    if body = [] then
      if isAbsolute then "/" else if trailingSeparator then "./" else "."
    else
      String.mk ((if isAbsolute then ['/'] else []) ++ body ++
        (if trailingSeparator then ['/'] else []))

/-- The call `path.join(a, b)`. -/
def join (a b : String) : String :=
  if a = "" ∧ b = "" then "."
  else if a = "" then normalize b
  else if b = "" then normalize a
  else normalize (a ++ "/" ++ b)

/-- The variables of the loop of `path.extname`. -/
structure ExtState where
  startDot : Option Nat := none
  startPart : Nat := 0
  stop : Option Nat := none
  matchedSlash : Bool := true
  preDotState : Int := 0
  done : Bool := false

/-- One round of the loop of `path.extname`, at index `i` on character `c`. -/
def extStep (st : ExtState) (ic : Nat × Char) : ExtState :=
  if st.done then st
  else if ic.2 = '/' then
    if !st.matchedSlash then { st with startPart := ic.1 + 1, done := true } else st
  else
    let st1 : ExtState :=
      if st.stop = none then { st with matchedSlash := false, stop := some (ic.1 + 1) } else st
    if ic.2 = '.' then
      if st1.startDot = none then { st1 with startDot := some ic.1 }
      else if st1.preDotState ≠ 1 then { st1 with preDotState := 1 } else st1
    else if st1.startDot ≠ none then { st1 with preDotState := -1 }
    else st1

/-- The call `path.extname(p)`: the loop runs from the last character to the
first. -/
def extname (p : String) : String :=
  let st := (p.data.enum.reverse).foldl extStep {}
  match st.startDot, st.stop with
  | some startDot, some stop =>
    if st.preDotState = 0 ∨
        (st.preDotState = 1 ∧ startDot = stop - 1 ∧ startDot = st.startPart + 1) then ""
    else String.mk ((p.data.drop startDot).take (stop - startDot))
  | _, _ => ""

/-- Whether the path `p` lies inside the directory `dir`: it continues `dir` after
a `/`. -/
def inside (dir p : String) : Bool :=
  startsWith (dir.data ++ ['/']) p.data

end Path

namespace Buffer

/-- The UTF-8 bytes of one character. -/
def utf8EncodeChar (c : Char) : List Nat :=
  if c.toNat < 128 then [c.toNat]
  else if c.toNat < 2048 then [192 + c.toNat / 64, 128 + c.toNat % 64]
  else if c.toNat < 65536 then
    [224 + c.toNat / 4096, 128 + c.toNat / 64 % 64, 128 + c.toNat % 64]
  else
    [240 + c.toNat / 262144, 128 + c.toNat / 4096 % 64, 128 + c.toNat / 64 % 64,
      128 + c.toNat % 64]

/-- The bytes of `Buffer.from(s)`. -/
def utf8Encode (s : String) : List Nat :=
  (s.data.map utf8EncodeChar).flatten

/-- The variables of a UTF-8 decoder. -/
structure Utf8State where
  codePoint : Nat := 0
  bytesSeen : Nat := 0
  bytesNeeded : Nat := 0
  lower : Nat := 128
  upper : Nat := 191

/-- The replacement character U+FFFD. -/
def replacement : Char := Char.ofNat 65533

/-- A byte read when no sequence is open: a character of its own, the lead byte
of a sequence, or an error. -/
def startByte (b : Nat) : Utf8State × List Char :=
  if b ≤ 127 then ({}, [Char.ofNat b])
  else if 194 ≤ b ∧ b ≤ 223 then ({ bytesNeeded := 1, codePoint := b % 32 }, [])
  else if 224 ≤ b ∧ b ≤ 239 then
    ({ bytesNeeded := 2, codePoint := b % 16
       lower := if b = 224 then 160 else 128
       upper := if b = 237 then 159 else 191 }, [])
  else if 240 ≤ b ∧ b ≤ 244 then
    ({ bytesNeeded := 3, codePoint := b % 8
       lower := if b = 240 then 144 else 128
       upper := if b = 244 then 143 else 191 }, [])
  else ({}, [replacement])

/-- One byte through the decoder: the new state and the characters it emits. A
byte that cannot continue the open sequence ends it with U+FFFD and is read
again as a first byte. -/
def utf8Step (st : Utf8State) (b : Nat) : Utf8State × List Char :=
  if st.bytesNeeded = 0 then startByte b
  else if b < st.lower ∨ st.upper < b then
    ((startByte b).1, replacement :: (startByte b).2)
  else if st.bytesSeen + 1 = st.bytesNeeded then
    ({}, [Char.ofNat (st.codePoint * 64 + b % 64)])
  else
    ({ codePoint := st.codePoint * 64 + b % 64, bytesSeen := st.bytesSeen + 1,
       bytesNeeded := st.bytesNeeded }, [])

/-- The decoder run over a byte list; a sequence left open at the end yields
U+FFFD. -/
def utf8DecodeFrom : Utf8State → List Nat → List Char
  | st, [] => if st.bytesNeeded = 0 then [] else [replacement]
  | st, b :: bs => (utf8Step st b).2 ++ utf8DecodeFrom (utf8Step st b).1 bs

/-- The string of `buffer.toString('utf-8')`. -/
def utf8Decode (bytes : List Nat) : String :=
  String.mk (utf8DecodeFrom {} bytes)

/-- The base64 character of a 6-bit value. -/
def base64Char (n : Nat) : Char :=
  if n < 26 then Char.ofNat (65 + n)
  else if n < 52 then Char.ofNat (71 + n)
  else if n < 62 then Char.ofNat (n - 4)
  else if n = 62 then '+'
  else '/'

/-- The 6-bit value of a base64 character, of the standard or of the URL-safe
alphabet; `none` for any other character. -/
def base64Value (c : Char) : Option Nat :=
  if 65 ≤ c.toNat ∧ c.toNat ≤ 90 then some (c.toNat - 65)
  else if 97 ≤ c.toNat ∧ c.toNat ≤ 122 then some (c.toNat - 71)
  else if 48 ≤ c.toNat ∧ c.toNat ≤ 57 then some (c.toNat + 4)
  else if c = '+' ∨ c = '-' then some 62
  else if c = '/' ∨ c = '_' then some 63
  else none

/-- The 6-bit values of a byte list, three bytes to four values; a last group
of one or two bytes gives two or three values. -/
def sextets : List Nat → List Nat
  | a :: b :: c :: rest =>
    a / 4 :: (a % 4 * 16 + b / 16) :: (b % 16 * 4 + c / 64) :: c % 64 :: sextets rest
  | [a, b] => [a / 4, a % 4 * 16 + b / 16, b % 16 * 4]
  | [a] => [a / 4, a % 4 * 16]
  | [] => []

/-- The characters of `buffer.toString('base64')`: the values as characters, padded
with `=` to a multiple of four. -/
def toBase64 (bytes : List Nat) : List Char :=
  (sextets bytes).map base64Char ++ List.replicate ((3 - bytes.length % 3) % 3) '='

/-- The bytes of a list of 6-bit values, four values to three bytes; a last
group of two or three values gives one or two bytes, a single value none. -/
def unsextets : List Nat → List Nat
  | s1 :: s2 :: s3 :: s4 :: rest =>
    (s1 * 4 + s2 / 16) :: (s2 % 16 * 16 + s3 / 4) :: (s3 % 4 * 64 + s4) :: unsextets rest
  | [s1, s2, s3] => [s1 * 4 + s2 / 16, s2 % 16 * 16 + s3 / 4]
  | [s1, s2] => [s1 * 4 + s2 / 16]
  | _ => []

/-- The bytes of `Buffer.from(s, 'base64')`: decoding stops at the first `=`, and
characters outside the alphabets are skipped. -/
def fromBase64 (s : List Char) : List Nat :=
  unsextets ((s.takeWhile (fun c => c != '=')).filterMap base64Value)

end Buffer

/-! ## download.js and list-files.js: files -/

/-- The JS method `s.toLowerCase()` on the letters `A`-`Z`. JS also lower-cases
letters outside ASCII; the only ones that give an ASCII letter are U+0130 (`i`
followed by U+0307) and U+212A (`k`), so no such letter turns a string into an
extension of the allow-list. -/
def toLowerCase (s : String) : String :=
  String.mk (s.data.map Char.toLower)

/-- What the functions read of the file system: `none` stands for a call that
throws. -/
structure FileSystem where
  existsSync : String → Bool
  readdirSync : String → Option (List String)
  statSync : String → Option (Nat × Nat)
  readFileSync : String → Option (List Nat)

namespace Download

/-- Source: `decodeFilename(encodedName)`; `none` is `null`. -/
def decodeFilename (encodedName : String) : Option String :=
  some (Buffer.utf8Decode (Buffer.fromBase64 encodedName.data))

/-- The replacement `.replace(/^(\.\.[\/\\])+/, '')`: leading `../` and `..\` are
removed. -/
def stripLeadingParents : List Char → List Char
  | '.' :: '.' :: c :: rest =>
    if c = '/' ∨ c = '\\' then stripLeadingParents rest else '.' :: '.' :: c :: rest
  | l => l

/-- The array `allowedExtensions`. -/
def allowedExtensions : List String :=
  [".pdf", ".zip", ".rar", ".7z", ".doc", ".docx", ".xls", ".xlsx", ".ppt", ".pptx", ".jpg",
    ".jpeg", ".png", ".gif", ".mp4", ".mp3", ".txt", ".md"]

/-- The value `normalizedPath` that `isSafeFilename` computes. -/
def normalizedPath (filename : String) : String :=
  String.mk (stripLeadingParents (Path.normalize filename).data)

/-- Source: `isSafeFilename(filename)`. The value `normalizedPath` is computed and
not read. -/
def isSafeFilename (filename : String) : Bool :=
  let _ := normalizedPath filename
  let ext := toLowerCase (Path.extname filename)
  allowedExtensions.contains ext

/-- The `Authorization` header: `Bearer ` followed by a token, or a string that
does not start with `Bearer `. -/
inductive AuthHeader where
  | bearer (token : Token)
  | other (raw : String)

/-- The parts of the function event the handler reads. -/
structure Event where
  clientIp : Option String
  xForwardedFor : Option String
  authorization : Option AuthHeader
  file : Option String

/-- The body of a response: a text, the JSON object of a refusal, or the bytes of
a file. -/
inductive Body where
  | text (s : String)
  | refusal (error : String) (reason : Option String)
  | file (bytes : List Nat)
  deriving DecidableEq, Repr

/-- Status code and body of a handler response. -/
structure Response where
  statusCode : Nat
  body : Body
  deriving DecidableEq, Repr

/-- Source: `exports.handler` of download.js, with the clock at `now` and
`CONFIG.DOWNLOADS_DIR` as `downloadsDir`. -/
def handler (w : World) (cfg : Config) (fs : FileSystem) (downloadsDir : String) (now : Nat)
    (event : Event) : Response :=
  let clientIP := (jsOr (jsOr event.clientIp event.xForwardedFor) (some "unknown")).getD "unknown"
  match event.file with
  | none => { statusCode := 400, body := .text "请指定文件参数" }
  | some encodedFilename =>
    if encodedFilename = "" then { statusCode := 400, body := .text "请指定文件参数" }
    else
      match event.authorization with
      | none => { statusCode := 401, body := .refusal "未授权访问" none }
      | some (.other _) => { statusCode := 401, body := .refusal "未授权访问" none }
      | some (.bearer token) =>
        let tokenVerification := verifyToken w cfg now token clientIP
        if !tokenVerification.valid then
          { statusCode := 401, body := .refusal "验证失败" tokenVerification.reason }
        else
          match decodeFilename encodedFilename with
          | none => { statusCode := 400, body := .text "无效的文件名" }
          | some filename =>
            if filename = "" ∨ !isSafeFilename filename then
              { statusCode := 400, body := .text "无效的文件名" }
            else
              let filePath := Path.join downloadsDir filename
              if !fs.existsSync filePath then { statusCode := 404, body := .text "文件不存在" }
              else
                match fs.readFileSync filePath, fs.statSync filePath with
                | some fileBuffer, some _ => { statusCode := 200, body := .file fileBuffer }
                | _, _ => { statusCode := 500, body := .text "文件下载失败" }

end Download

namespace ListFiles

/-- One entry of the list `getFileList` returns, without the fields that only
serve the display (`displayName`, `formattedSize`, `type`, `icon`). -/
structure FileEntry where
  id : String
  name : String
  size : Nat
  lastModified : Nat
  downloadUrl : String
  deriving DecidableEq, Repr

/-- The expression `Buffer.from(filename).toString('base64')`. -/
def fileId (filename : String) : String :=
  String.mk (Buffer.toBase64 (Buffer.utf8Encode filename))

/-- The entry `getFileList` builds for one name; `none` when `statSync` throws. -/
def fileEntry (fs : FileSystem) (downloadsDir : String) (filename : String) : Option FileEntry :=
  let filePath := Path.join downloadsDir filename
  match fs.statSync filePath with
  | none => none
  | some stats =>
    some { id := fileId filename
           name := filename
           size := stats.1
           lastModified := stats.2
           downloadUrl := "/api/download?file=" ++ fileId filename }

/-- The call `files.map(...)` of `getFileList`: the entries of all names, or
`none` when one `statSync` throws. -/
def fileEntries (fs : FileSystem) (downloadsDir : String) : List String → Option (List FileEntry)
  | [] => some []
  | filename :: rest =>
    match fileEntry fs downloadsDir filename, fileEntries fs downloadsDir rest with
    | some entry, some entries => some (entry :: entries)
    | _, _ => none

/-- Source: `getFileList()` with `CONFIG.DOWNLOADS_DIR` as `downloadsDir`: the
entries of the directory sorted by `b.lastModified - a.lastModified` (latest
first, ties in directory order); the empty list when the directory is missing
or a call throws. -/
def getFileList (fs : FileSystem) (downloadsDir : String) : List FileEntry :=
  if !fs.existsSync downloadsDir then []
  else
    match fs.readdirSync downloadsDir with
    | none => []
    | some files =>
      match fileEntries fs downloadsDir files with
      | none => []
      | some entries =>
        entries.insertionSort (fun a b => b.lastModified ≤ a.lastModified)

end ListFiles

/-! ## Reference reading of the puzzle-token hash -/

namespace Verify

/-- The signed 32-bit value obtained by folding `h ← 31·h + c`, wrapped to 32
bits, over a list of code units, starting at 0. -/
def hash31 (codes : List Nat) : Int :=
  codes.foldl (fun (h : Int) (c : Nat) => toInt32 (31 * h + c)) 0

/-- The sixteen lower-case hexadecimal digits. -/
def lowerHexDigits : List Char :=
  ['0', '1', '2', '3', '4', '5', '6', '7', '8', '9', 'a', 'b', 'c', 'd', 'e', 'f']

end Verify

namespace Download

/-- The expression
`event.headers['client-ip'] || event.headers['x-forwarded-for'] || 'unknown'`
of the download handler. -/
def clientIP (event : Event) : String :=
  (jsOr (jsOr event.clientIp event.xForwardedFor) (some "unknown")).getD "unknown"

end Download

/-! ## js/verification.js and js/hcaptcha-integration.js -/

namespace FallbackCaptcha

/-- Source: `getCurrentToken()` with the clock at `now`; `userAnswer` is the value
of the input `mathAnswer`, and `none` is `null`. -/
def getCurrentToken (btoaJson : MathToken → String) (now : Nat) (self : System)
    (userAnswer : String) : Option String :=
  let verification := verifyAnswer btoaJson now self userAnswer
  if verification.success then verification.token else none

end FallbackCaptcha

namespace Verification

/-- A JS number that may be `NaN` (`none`). -/
abbrev Num := Option Int

/-- The JS conversion `String(x)` of a number. -/
def numToString : Num → String
  | some n => toString n
  | none => "NaN"

/-- The fields of `verificationState` that the verification reads or writes. -/
structure VerificationState where
  isVerifying : Bool
  attempts : Num
  maxAttempts : Int
  lastAttempt : Num
  cooldownTime : Int
  captchaVerified : Bool
  captchaToken : Option String
  verificationMode : String
  deriving DecidableEq, Repr

/-- The entries of `localStorage` that the verification reads or writes. -/
structure LocalStorage where
  verification_attempts : Option String
  last_attempt : Option String
  download_token : Option Token
  token_expires : Option String
  deriving DecidableEq, Repr

/-- The client: its `verificationState` and the `localStorage` of the page. -/
structure Client where
  verificationState : VerificationState
  localStorage : LocalStorage
  deriving DecidableEq, Repr

/-- The client after the constructor, on a page with an empty `localStorage`. -/
def Client.init : Client :=
  { verificationState :=
      { isVerifying := false
        attempts := some 0
        maxAttempts := 5
        lastAttempt := some 0
        cooldownTime := 5 * 60 * 1000
        captchaVerified := false
        captchaToken := none
        verificationMode := "hcaptcha" }
    localStorage :=
      { verification_attempts := none
        last_attempt := none
        download_token := none
        token_expires := none } }

/-- Source: `resetAttempts()`. -/
def resetAttempts (self : Client) : Client :=
  { verificationState := { self.verificationState with attempts := some 0, lastAttempt := some 0 }
    localStorage :=
      { self.localStorage with verification_attempts := none, last_attempt := none } }

/-- Source: `recordFailedAttempt()` with the clock at `now`. -/
def recordFailedAttempt (now : Nat) (self : Client) : Client :=
  let attempts : Num := self.verificationState.attempts.map (fun a => a + 1)
  let lastAttempt : Num := some (now : Int)
  { verificationState :=
      { self.verificationState with attempts := attempts, lastAttempt := lastAttempt }
    localStorage :=
      { self.localStorage with
        verification_attempts := some (numToString attempts)
        last_attempt := some (numToString lastAttempt) } }

/-- The JS comparison `a >= b` of a number that may be `NaN` with a number. -/
def numGe (a : Num) (b : Int) : Bool :=
  match a with
  | some x => decide (b ≤ x)
  | none => false

/-- The JS comparison `a < b` of a number that may be `NaN` with a number. -/
def numLt (a : Num) (b : Int) : Bool :=
  match a with
  | some x => decide (x < b)
  | none => false

/-- Source: `checkRateLimit()` with the clock at `now`; returns the result and
the client after the call. -/
def checkRateLimit (now : Nat) (self : Client) : Bool × Client :=
  let storedAttempts := self.localStorage.verification_attempts
  let lastAttempt := self.localStorage.last_attempt
  if truthy storedAttempts ∧ truthy lastAttempt then
    let self1 : Client :=
      { self with
        verificationState :=
          { self.verificationState with
            attempts := parseInt (storedAttempts.getD "")
            lastAttempt := parseInt (lastAttempt.getD "") } }
    let timeSinceLastAttempt : Num :=
      self1.verificationState.lastAttempt.map (fun l => (now : Int) - l)
    if numGe self1.verificationState.attempts self1.verificationState.maxAttempts then
      if numLt timeSinceLastAttempt self1.verificationState.cooldownTime then (false, self1)
      else (true, resetAttempts self1)
    else (true, self1)
  else (true, self)

/-- Source: `getCurrentCaptchaToken()` of `HCaptchaIntegration`; `fallbackToken`
is the value of `window.fallbackCaptcha.getCurrentToken()`, `none` when it is
`null` or there is no `window.fallbackCaptcha`. The result is the pair of
`token` and `type`, `none` for `null`. -/
def getCurrentCaptchaToken (self : Client) (fallbackToken : Option String) :
    Option (String × String) :=
  if self.verificationState.verificationMode = "hcaptcha" then
    if self.verificationState.captchaVerified ∧ truthy self.verificationState.captchaToken then
      some (self.verificationState.captchaToken.getD "", "hcaptcha")
    else none
  else
    if truthy fallbackToken then some (fallbackToken.getD "", "fallback_math") else none

/-- Source: `verifyAccessKey()` up to the request, with the clock at `now`;
`accessKeyInput` is the value of the input `accessKey`. Returns the client
after the call and the body of the request sent with `sendVerificationRequest`,
`none` when no request is sent. -/
def verifyAccessKey (now : Nat) (self : Client) (accessKeyInput : String)
    (fallbackToken : Option String) : Client × Option Verify.Body :=
  if self.verificationState.isVerifying then (self, none)
  else
    let accessKey := String.mk (trim accessKeyInput.data)
    if accessKey = "" then (self, none)
    else
      match getCurrentCaptchaToken self fallbackToken with
      | none => (self, none)
      | some captchaInfo =>
        let checked := checkRateLimit now self
        if !checked.1 then (checked.2, none)
        else
          ({ checked.2 with
             verificationState := { checked.2.verificationState with isVerifying := true } },
            some { accessKey := some accessKey
                   captchaToken := some captchaInfo.1
                   captchaType := some captchaInfo.2 })

/-- Source: `resetCaptcha()` of `HCaptchaIntegration`, on the client (the reset of
the widget and of the fallback puzzle are outside `verificationState`). -/
def resetCaptcha (self : Client) : Client :=
  if self.verificationState.verificationMode = "hcaptcha" then
    { self with
      verificationState :=
        { self.verificationState with captchaVerified := false, captchaToken := none } }
  else self

/-- Source: `handleSuccessResponse(data)` with the clock at `now`. -/
def handleSuccessResponse (now : Nat) (self : Client) (data : Verify.ResponseBody) : Client :=
  resetAttempts
    { self with
      localStorage :=
        { self.localStorage with
          download_token := data.token
          token_expires :=
            some (numToString (data.expiresIn.map (fun e => (now : Int) + (e : Int) * 1000))) } }

/-- Source: `handleErrorResponse(data)` with the clock at `now`. -/
def handleErrorResponse (now : Nat) (self : Client) (_data : Verify.ResponseBody) : Client :=
  resetCaptcha (recordFailedAttempt now self)

/-- Source: `handleVerificationResponse(data)` with the clock at `now`. -/
def handleVerificationResponse (now : Nat) (self : Client) (data : Verify.ResponseBody) :
    Client :=
  if data.success = some true then handleSuccessResponse now self data
  else handleErrorResponse now self data

/-- Source: `handleVerificationError(error)` with the clock at `now`. -/
def handleVerificationError (now : Nat) (self : Client) : Client :=
  recordFailedAttempt now self

/-- Source: `resetVerificationState()`. -/
def resetVerificationState (self : Client) : Client :=
  { self with verificationState := { self.verificationState with isVerifying := false } }

/-- The client after `recordFailedAttempt` was called at each of the times of a
list, in order. -/
def recordAll (self : Client) (times : List Nat) : Client :=
  times.foldl (fun c t => recordFailedAttempt t c) self

end Verification

/-! ## Library models: `JSON` and `btoa` -/

namespace Json

/-- A JSON value. A number is kept as its literal: the integer `mantissa` times
ten to the power `exponent`. -/
inductive Value where
  | null
  | bool (b : Bool)
  | num (mantissa : Int) (exponent : Int)
  | str (s : String)
  | arr (items : List Value)
  | obj (members : List (String × Value))

/-- The text `JSON.stringify` writes for one character of a string: a backslash
and a letter for the quote (34), the backslash (92), backspace (8), tab (9),
line feed (10), form feed (12) and carriage return (13), `\u00XX` for the other
control characters, the character itself otherwise. -/
def quoteChar (c : Char) : List Char :=
  if c.toNat = 34 then ['\\', '"']
  else if c.toNat = 92 then ['\\', '\\']
  else if c.toNat = 8 then ['\\', 'b']
  else if c.toNat = 9 then ['\\', 't']
  else if c.toNat = 10 then ['\\', 'n']
  else if c.toNat = 12 then ['\\', 'f']
  else if c.toNat = 13 then ['\\', 'r']
  else if c.toNat < 32 then
    ['\\', 'u', '0', '0', Nat.digitChar (c.toNat / 16), Nat.digitChar (c.toNat % 16)]
  else [c]

/-- The text `JSON.stringify` writes for a string. -/
def quote (s : String) : List Char :=
  '"' :: ((s.data.map quoteChar).flatten ++ ['"'])

/-- The text `JSON.stringify` writes for a number that is an integer (below
10^21 in absolute value, where JS prints all digits). -/
def numeral (n : Int) : List Char :=
  (toString n).data

/-- White space between the tokens of a JSON text: space, tab, line feed and
carriage return. -/
def isSpace (c : Char) : Bool :=
  c.toNat = 32 || c.toNat = 9 || c.toNat = 10 || c.toNat = 13

/-- The value of a hexadecimal digit of either case. -/
def hexValue (c : Char) : Option Nat :=
  match digitValue c with
  | some d => if d < 16 then some d else none
  | none => none

/-- The code unit an escape sequence denotes, read after the backslash, and the
rest of the input. -/
def readEscape : List Char → Option (Nat × List Char)
  | [] => none
  | c :: rest =>
    if c.toNat = 34 then some (34, rest)
    else if c.toNat = 92 then some (92, rest)
    else if c = '/' then some (47, rest)
    else if c = 'b' then some (8, rest)
    else if c = 'f' then some (12, rest)
    else if c = 'n' then some (10, rest)
    else if c = 'r' then some (13, rest)
    else if c = 't' then some (9, rest)
    else if c = 'u' then
      match rest with
      | h1 :: h2 :: h3 :: h4 :: rest4 =>
        match hexValue h1, hexValue h2, hexValue h3, hexValue h4 with
        | some a, some b, some c, some d => some (((a * 16 + b) * 16 + c) * 16 + d, rest4)
        | _, _, _, _ => none
      | _ => none
    else none

/-- The code units of a string literal, read after the opening quote up to the
closing one, and the rest of the input; `none` for a text that is not a string
literal (an unescaped control character, a bad escape, no closing quote). -/
def readUnits : Nat → List Char → Option (List Nat × List Char)
  | 0, _ => none
  | _ + 1, [] => none
  | fuel + 1, c :: rest =>
    if c.toNat = 34 then some ([], rest)
    else if c.toNat = 92 then
      match readEscape rest with
      | some (u, rest1) =>
        match readUnits fuel rest1 with
        | some (us, rest2) => some (u :: us, rest2)
        | none => none
      | none => none
    else if c.toNat < 32 then none
    else
      match readUnits fuel rest with
      | some (us, rest2) => some (utf16 c ++ us, rest2)
      | none => none

/-- The characters of a list of UTF-16 code units: a high surrogate followed by a
low one is one character; `none` for a list with a surrogate that has no
partner, which is not a string of this model. -/
def fromUnits : List Nat → Option (List Char)
  | [] => some []
  | [u] => if 55296 ≤ u ∧ u ≤ 57343 then none else some [Char.ofNat u]
  | u :: v :: rest =>
    if 55296 ≤ u ∧ u ≤ 56319 then
      if 56320 ≤ v ∧ v ≤ 57343 then
        match fromUnits rest with
        | some cs => some (Char.ofNat (65536 + (u - 55296) * 1024 + (v - 56320)) :: cs)
        | none => none
      else none
    else if 56320 ≤ u ∧ u ≤ 57343 then none
    else
      match fromUnits (v :: rest) with
      | some cs => some (Char.ofNat u :: cs)
      | none => none

/-- A string literal read after its opening quote. -/
def readString (fuel : Nat) (input : List Char) : Option (String × List Char) :=
  match readUnits fuel input with
  | some (us, rest) =>
    match fromUnits us with
    | some cs => some (String.mk cs, rest)
    | none => none
  | none => none

/-- The fraction part of a number literal whose integer digits are `ds`: the
mantissa and the exponent so far, and the rest. -/
def readFraction (ds : List Char) (input : List Char) : Option (Nat × Int × List Char) :=
  match input with
  | c :: rest =>
    if c = '.' then
      if rest.takeWhile (isRadixDigit 10) = [] then none
      else some (digitsToNat 10 (ds ++ rest.takeWhile (isRadixDigit 10)),
        -((rest.takeWhile (isRadixDigit 10)).length : Int), rest.dropWhile (isRadixDigit 10))
    else some (digitsToNat 10 ds, 0, input)
  | [] => some (digitsToNat 10 ds, 0, input)

/-- The digits of an exponent, after its sign. -/
def readExponentDigits (negative : Bool) (input : List Char) : Option (Int × List Char) :=
  if input.takeWhile (isRadixDigit 10) = [] then none
  else
    some (if negative then -(digitsToNat 10 (input.takeWhile (isRadixDigit 10)) : Int)
      else (digitsToNat 10 (input.takeWhile (isRadixDigit 10)) : Int),
      input.dropWhile (isRadixDigit 10))

/-- The exponent part of a number literal and the rest; 0 when there is none. -/
def readExponent (input : List Char) : Option (Int × List Char) :=
  match input with
  | c :: rest =>
    if c = 'e' ∨ c = 'E' then
      match rest with
      | s :: rest1 =>
        if s = '-' then readExponentDigits true rest1
        else if s = '+' then readExponentDigits false rest1
        else readExponentDigits false rest
      | [] => none
    else some (0, input)
  | [] => some (0, input)

/-- The digits, fraction and exponent of a number literal, after the sign. A
literal has at least one digit, and no digit after a first digit `0`. -/
def readUnsigned (input : List Char) : Option (Nat × Int × List Char) :=
  let ds := input.takeWhile (isRadixDigit 10)
  if ds = [] then none
  else if ds.head? = some '0' ∧ 1 < ds.length then none
  else
    match readFraction ds (input.dropWhile (isRadixDigit 10)) with
    | some (m, e, rest) =>
      match readExponent rest with
      | some (x, rest1) => some (m, e + x, rest1)
      | none => none
    | none => none

/-- A number literal and the rest of the input. -/
def readNumber (input : List Char) : Option (Value × List Char) :=
  match input with
  | c :: rest =>
    if c = '-' then
      match readUnsigned rest with
      | some (m, e, rest1) => some (.num (-(m : Int)) e, rest1)
      | none => none
    else
      match readUnsigned input with
      | some (m, e, rest1) => some (.num (m : Int) e, rest1)
      | none => none
  | [] => none

/-- What the reader is reading: a value, the elements of an array after the
ones in `items`, or the members of an object after the ones in `members`. -/
inductive Mode where
  | value
  | elements (items : List Value)
  | members (members : List (String × Value))

/-- The reader of `JSON.parse`: a value (in mode `value`), or the rest of an
array or of an object up to its closing bracket, and the rest of the input.
The characters with a role are the braces (123, 125), the brackets (91, 93),
the quote (34), the colon (58) and the comma (44). -/
def read : Nat → Mode → List Char → Option (Value × List Char)
  | 0, _, _ => none
  | fuel + 1, .value, input =>
    match input.dropWhile isSpace with
    | [] => none
    | c :: rest =>
      if c.toNat = 123 then
        match rest.dropWhile isSpace with
        | c1 :: rest1 =>
          if c1.toNat = 125 then some (.obj [], rest1) else read fuel (.members []) rest
        | [] => none
      else if c.toNat = 91 then
        match rest.dropWhile isSpace with
        | c1 :: rest1 =>
          if c1.toNat = 93 then some (.arr [], rest1) else read fuel (.elements []) rest
        | [] => none
      else if c.toNat = 34 then
        match readString fuel rest with
        | some (s, rest1) => some (.str s, rest1)
        | none => none
      else if c = 't' then
        match rest with
        | 'r' :: 'u' :: 'e' :: rest1 => some (.bool true, rest1)
        | _ => none
      else if c = 'f' then
        match rest with
        | 'a' :: 'l' :: 's' :: 'e' :: rest1 => some (.bool false, rest1)
        | _ => none
      else if c = 'n' then
        match rest with
        | 'u' :: 'l' :: 'l' :: rest1 => some (.null, rest1)
        | _ => none
      else readNumber (c :: rest)
  | fuel + 1, .elements items, input =>
    match read fuel .value input with
    | some (v, rest) =>
      match rest.dropWhile isSpace with
      | c :: rest1 =>
        if c.toNat = 44 then read fuel (.elements (items ++ [v])) rest1
        else if c.toNat = 93 then some (.arr (items ++ [v]), rest1)
        else none
      | [] => none
    | none => none
  | fuel + 1, .members members, input =>
    match input.dropWhile isSpace with
    | c :: rest =>
      if c.toNat = 34 then
        match readString fuel rest with
        | some (key, rest1) =>
          match rest1.dropWhile isSpace with
          | c1 :: rest2 =>
            if c1.toNat = 58 then
              match read fuel .value rest2 with
              | some (v, rest3) =>
                match rest3.dropWhile isSpace with
                | c2 :: rest4 =>
                  if c2.toNat = 44 then read fuel (.members (members ++ [(key, v)])) rest4
                  else if c2.toNat = 125 then some (.obj (members ++ [(key, v)]), rest4)
                  else none
                | [] => none
              | none => none
            else none
          | [] => none
        | none => none
      else none
    | [] => none

/-- The call `JSON.parse(text)`; `none` when it throws a `SyntaxError` (and for a
text with a string that holds a surrogate without partner). -/
def parse (text : String) : Option Value :=
  match read (2 * text.data.length + 2) .value text.data with
  | some (v, rest) => if rest.dropWhile isSpace = [] then some v else none
  | none => none

/-- The property `key` of a parsed object: the last member of that name. -/
def Value.get (v : Value) (key : String) : Option Value :=
  match v with
  | .obj members => (members.reverse.find? (fun m => m.1 == key)).map (fun m => m.2)
  | _ => none

/-- The integer a number literal denotes, if it denotes one. -/
def integer (mantissa exponent : Int) : Option Int :=
  if 0 ≤ exponent then some (mantissa * 10 ^ exponent.toNat)
  else if mantissa % 10 ^ (-exponent).toNat = 0 then some (mantissa / 10 ^ (-exponent).toNat)
  else none

end Json

/-- The call `btoa(s)`: the base64 text of the bytes that are the code units of
`s`; `none` when it throws, which it does for a character above U+00FF. -/
def btoa (s : List Char) : Option (List Char) :=
  if s.all (fun c => decide (c.toNat ≤ 255)) then some (Buffer.toBase64 (s.map Char.toNat))
  else none

/-! ## The puzzle token between the client and the server -/

namespace FallbackCaptcha

/-- The text `JSON.stringify` writes for the object of `generateVerificationToken`:
the four fields of `data` and then `sig`, between braces (123, 125). -/
def tokenJson (d : MathToken) : List Char :=
  Char.ofNat 123 :: (Json.quote "problemId" ++ ':' :: (Json.quote d.problemId ++ ',' ::
    (Json.quote "answer" ++ ':' :: (Json.numeral d.answer ++ ',' ::
    (Json.quote "timestamp" ++ ':' :: (Json.numeral d.timestamp ++ ',' ::
    (Json.quote "type" ++ ':' :: (Json.quote d.type ++ ',' ::
    (Json.quote "sig" ++ ':' :: (Json.quote d.sig ++ [Char.ofNat 125]))))))))))

/-- The expression `btoa(JSON.stringify(...))` of `generateVerificationToken` on
the object with the five fields; `none` when `btoa` throws. -/
def encodeToken (d : MathToken) : Option String :=
  (btoa (tokenJson d)).map String.mk

end FallbackCaptcha

namespace Verify

/-- The lines `JSON.parse(Buffer.from(token, 'base64').toString())` and
`const { problemId, answer, timestamp, type, sig } = decodedData` of
`verifyFallbackCaptcha`, for the tokens whose text parses to an object with
strings for `problemId`, `type` and `sig` and integers for `answer` and
`timestamp`; `none` for every other token. -/
def decodeToken (token : String) : Option MathToken :=
  match Json.parse (Buffer.utf8Decode (Buffer.fromBase64 token.data)) with
  | some decodedData =>
    match decodedData.get "problemId", decodedData.get "answer", decodedData.get "timestamp",
      decodedData.get "type", decodedData.get "sig" with
    | some (.str problemId), some (.num am ae), some (.num tm te), some (.str type),
      some (.str sig) =>
      match Json.integer am ae, Json.integer tm te with
      | some answer, some timestamp =>
        some { problemId := problemId, answer := answer, timestamp := timestamp, type := type,
               sig := sig }
      | _, _ => none
    | _, _, _, _, _ => none
  | none => none

end Verify

/-! ## Sample deployment

Concrete values at which the theorems below are instantiated. -/

/-- A fallback puzzle token created at time 0 for the puzzle `p1` with answer 12,
carrying the signature of its own fields. -/
def samplePuzzle : MathToken :=
  { problemId := "p1"
    answer := 12
    timestamp := 0
    type := "math_captcha"
    sig := Verify.createSignature "p1" 12 0 "math_captcha" }

/-- A world whose keyed hash adds up lengths and numbers, whose hCaptcha endpoint
accepts the response `"ok"`, is unreachable for `"down"` and rejects the rest,
and whose decoder reads the string `"puzzle"` as `samplePuzzle` and fails on
every other string. -/
def sampleWorld : World :=
  { hmac := fun k a c => k.length + a.length + c.ip.length + c.iat + 2 * c.exp
    siteverify := fun _ r _ => if r = "down" then none else some (r == "ok")
    decode := fun t => if t = "puzzle" then some samplePuzzle else none
    nextNow := fun now => now }

/-- A configured deployment. -/
def sampleConfig : Config :=
  { ACCESS_KEY_SECRET := some "secret123"
    JWT_SECRET := some "jwt-secret"
    HCAPTCHA_SECRET := some "hc-secret"
    FALLBACK_SECRET := some "fb-secret"
    NODE_ENV := none }

/-- A POST request from `1.1.1.1` with the given access key and hCaptcha token. -/
def sampleEvent (accessKey captchaToken : String) : Verify.Event :=
  { httpMethod := "POST"
    body := .ok { accessKey := some accessKey, captchaToken := some captchaToken,
                  captchaType := some "hcaptcha" }
    clientIp := some "1.1.1.1"
    xForwardedFor := none }

/-- The claims issued to `1.1.1.1` at time 0. -/
def sampleClaims : Claims :=
  Verify.tokenPayload 0 0 "1.1.1.1" "hcaptcha"

/-- The three parts of the session token issued to `1.1.1.1` at time 0 under
`sampleConfig`. -/
def sampleJwt : Jwt :=
  { alg := "HS256"
    payload := sampleClaims
    signature := sampleWorld.hmac "jwt-secret" "HS256" sampleClaims }

/-- The session token issued to `1.1.1.1` at time 0 under `sampleConfig`. -/
def sampleToken : Token :=
  .jwt sampleJwt

/-- A token bound to `1.1.1.1` whose signature is not the one of its payload. -/
def forgedToken : Token :=
  .jwt { alg := "HS256", payload := sampleClaims, signature := 0 }

/-- The client after `generateMathProblem` drew the addition `7 + 5` with the
problem id `p1`. -/
def sampleSystem : FallbackCaptcha.System :=
  FallbackCaptcha.generateMathProblem (.addition 6 4) "p1"

/-- An encoder that sends `samplePuzzle` to the string `sampleWorld` decodes as
`samplePuzzle`. -/
def sampleBtoaJson (t : MathToken) : String :=
  if t = samplePuzzle then "puzzle" else "other"

/-- A POST request from `1.1.1.1` with the given access key and fallback puzzle
token. -/
def sampleFallbackEvent (accessKey captchaToken : String) : Verify.Event :=
  { httpMethod := "POST"
    body := .ok { accessKey := some accessKey, captchaToken := some captchaToken,
                  captchaType := some "fallback_math" }
    clientIp := some "1.1.1.1"
    xForwardedFor := none }

/-- A puzzle token with the timestamp 1737608928816 that carries the signature
computed for the timestamp 1740890066588. -/
def tamperedPuzzle : MathToken :=
  { problemId := "p1"
    answer := 12
    timestamp := 1737608928816
    type := "math_captcha"
    sig := Verify.createSignature "p1" 12 1740890066588 "math_captcha" }

/-- A world like `sampleWorld` whose decoder reads the string `"tampered"` as
`tamperedPuzzle`. -/
def tamperedWorld : World :=
  { sampleWorld with
    decode := fun t => if t = "tampered" then some tamperedPuzzle else none }

/-- The directory configured as `CONFIG.DOWNLOADS_DIR`. -/
def sampleDownloadsDir : String := "/var/task/downloads"

/-- A file system with two files in the downloads directory and one file next
to the directory. -/
def sampleFileSystem : FileSystem :=
  { existsSync := fun p =>
      p = "/var/task/downloads" ∨ p = "/var/task/downloads/report.pdf" ∨
        p = "/var/task/downloads/notes.txt" ∨ p = "/var/task/secret.txt"
    readdirSync := fun p =>
      if p = "/var/task/downloads" then some ["report.pdf", "notes.txt"] else none
    statSync := fun p =>
      if p = "/var/task/downloads/report.pdf" then some (3, 1000)
      else if p = "/var/task/downloads/notes.txt" then some (2, 2000)
      else if p = "/var/task/secret.txt" then some (4, 500)
      else none
    readFileSync := fun p =>
      if p = "/var/task/downloads/report.pdf" then some [37, 80, 68]
      else if p = "/var/task/downloads/notes.txt" then some [104, 105]
      else if p = "/var/task/secret.txt" then some [107, 101, 121, 115]
      else none }

/-- A download request from `1.1.1.1` that carries the sample session token and
the given file identifier. -/
def sampleDownloadEvent (file : String) : Download.Event :=
  { clientIp := some "1.1.1.1"
    xForwardedFor := none
    authorization := some (.bearer sampleToken)
    file := some file }

/-- A deployment like `sampleConfig` in which ACCESS_KEY_SECRET is not set. -/
def unsetKeyConfig : Config :=
  { sampleConfig with ACCESS_KEY_SECRET := none }

/-- A POST request from `1.1.1.1` whose body holds an accepted hCaptcha token and
no accessKey. -/
def keylessEvent : Verify.Event :=
  { httpMethod := "POST"
    body := .ok { accessKey := none, captchaToken := some "ok", captchaType := some "hcaptcha" }
    clientIp := some "1.1.1.1"
    xForwardedFor := none }

/-- Six wrong keys from `1.1.1.1`, each with an accepted proof: five in the first
minute and the sixth when the next window of the limiter opens. -/
def sixFailures : List (Nat × Verify.Event) :=
  [(0, sampleEvent "wrong" "ok"), (1000, sampleEvent "wrong" "ok"),
   (2000, sampleEvent "wrong" "ok"), (3000, sampleEvent "wrong" "ok"),
   (4000, sampleEvent "wrong" "ok"), (60000, sampleEvent "wrong" "ok")]

/-- A puzzle token stamped with the first millisecond of the year 2100 that
carries the signature of its own fields. -/
def futurePuzzle : MathToken :=
  { problemId := "p1"
    answer := 12
    timestamp := 4102444800000
    type := "math_captcha"
    sig := Verify.createSignature "p1" 12 4102444800000 "math_captcha" }

/-- A world like `sampleWorld` whose decoder reads the string `"future"` as
`futurePuzzle`. -/
def futureWorld : World :=
  { sampleWorld with
    decode := fun t => if t = "future" then some futurePuzzle else none }

/-- A puzzle token stamped one millisecond after the largest time value that
carries the signature of its own fields. -/
def farPuzzle : MathToken :=
  { problemId := "p1"
    answer := 12
    timestamp := 8640000000000001
    type := "math_captcha"
    sig := Verify.createSignature "p1" 12 8640000000000001 "math_captcha" }

/-- A world like `sampleWorld` whose decoder reads the string `"far"` as
`farPuzzle`. -/
def farWorld : World :=
  { sampleWorld with
    decode := fun t => if t = "far" then some farPuzzle else none }

/-- The configured deployment without `JWT_SECRET` in the environment. -/
def unsignedConfig : Config :=
  { sampleConfig with JWT_SECRET := none }

/-- A world like `sampleWorld` in which the clock advances by one millisecond
between the two reads of `generateToken`. -/
def slowWorld : World :=
  { sampleWorld with nextNow := fun now => now + 1 }

/-- Six requests from `1.1.1.1` within six milliseconds, each with the right key
and an accepted proof. -/
def sampleBurst : List (Nat × Verify.Event) :=
  [(0, sampleEvent "secret123" "ok"), (1, sampleEvent "secret123" "ok"),
   (2, sampleEvent "secret123" "ok"), (3, sampleEvent "secret123" "ok"),
   (4, sampleEvent "secret123" "ok"), (5, sampleEvent "secret123" "ok")]

/-- An encoder that is `btoa(JSON.stringify(...))` wherever `btoa` does not
throw. -/
def wireBtoaJson (d : MathToken) : String :=
  (FallbackCaptcha.encodeToken d).getD ""

/-- A world like `sampleWorld` whose decoder is the reading of base64 and JSON. -/
def wireWorld : World :=
  { sampleWorld with decode := Verify.decodeToken }

/-- The sample client with the problem id `é` (U+00E9). -/
def latinSystem : FallbackCaptcha.System :=
  { sampleSystem with problemId := "é" }

end Blog

/-! # Theorems -/

namespace Blog

/-! ## Session token: issuance and validation -/

/-- Adding the session duration before the division by 1000 adds 1800 after it. -/
theorem expiry_seconds (now : Nat) :
    (now + SESSION_DURATION) / 1000 = now / 1000 + 1800 := by
  unfold SESSION_DURATION
  omega

/-- What `jwt.verify` accepts: exactly the three-part tokens signed HS256 under a
non-empty secret whose `exp` lies after the clock; the result is the payload. -/
theorem jwtVerify_ok_iff (w : World) (token : Token) (secret : Option String) (clock : Nat)
    (c : Claims) :
    Lib.jwtVerify w token secret clock = .ok c ↔
      ∃ t k, token = .jwt t ∧ secret = some k ∧ k ≠ "" ∧ t.alg = "HS256" ∧
        t.signature = w.hmac k t.alg t.payload ∧ clock < t.payload.exp ∧ c = t.payload := by
  constructor
  · intro h
    cases token with
    | malformed raw => simp [Lib.jwtVerify] at h
    | jwt t =>
      cases secret with
      | none => simp [Lib.jwtVerify] at h
      | some k =>
        simp only [Lib.jwtVerify] at h
        split_ifs at h with h1 h2 h3 h4
        refine ⟨t, k, rfl, rfl, h1, ?_, ?_, ?_, ?_⟩
        · exact not_not.mp h2
        · exact not_not.mp h3
        · omega
        · injection h with h; exact h.symm
  · rintro ⟨t, k, rfl, rfl, hk, ha, hs, he, rfl⟩
    simp only [Lib.jwtVerify]
    rw [if_neg hk, if_neg (not_not.mpr ha), if_neg (not_not.mpr hs), if_neg (by omega)]

/-- The two copies of `verifyToken` are one function. -/
theorem verifyToken_same : ListFiles.verifyToken = Download.verifyToken := rfl

/-- When `verifyToken` of download.js returns valid, `jwt.verify` returned the
payload and the payload is bound to the caller. -/
theorem verifyToken_valid (w : World) (cfg : Config) (now : Nat) (token : Token) (ip : String)
    (h : (Download.verifyToken w cfg now token ip).valid = true) :
    ∃ c, Lib.jwtVerify w token cfg.JWT_SECRET (now / 1000) = .ok c ∧ c.ip = ip ∧
      Download.verifyToken w cfg now token ip = { valid := true, decoded := some c } := by
  unfold Download.verifyToken at h ⊢
  cases hv : Lib.jwtVerify w token cfg.JWT_SECRET (now / 1000) with
  | error m => simp [hv] at h
  | ok c =>
    simp only [hv] at h ⊢
    split_ifs at h ⊢ with h1 h2
    exact ⟨c, rfl, not_not.mp h1, rfl⟩

/-! ## The verify handler, branch by branch -/

section Branches

variable (w : World) (cfg : Config) (now : Nat) (s : Verify.State) (event : Verify.Event)
  (body : Verify.Body)

/-- `checkRateLimit` allows exactly when `consume` resolves. -/
theorem checkRateLimit_allowed_iff (store : String → Option Lib.Record) (ip : String) :
    (Verify.checkRateLimit store now ip).2.allowed = true ↔
      (Lib.consume store now ip).2 = .ok () := by
  unfold Verify.checkRateLimit
  rcases hc : Lib.consume store now ip with ⟨store1, _ | _⟩ <;> simp

/-- When `consume` rejects, `checkRateLimit` reports the rounded-up seconds. -/
theorem checkRateLimit_rejected (store : String → Option Lib.Record) (ip : String) (ms : Nat)
    (h : (Lib.consume store now ip).2 = .error ms) :
    (Verify.checkRateLimit store now ip).2 = { allowed := false, remaining := some (ceilSeconds ms) } := by
  unfold Verify.checkRateLimit
  rcases hc : Lib.consume store now ip with ⟨store1, e | u⟩
  · rw [hc] at h
    simp only at h
    injection h with h
    simp [h]
  · rw [hc] at h
    simp at h

/-- A request the limiter rejects is answered 429. -/
theorem handlePost_limited
    (hl : (Verify.checkRateLimit s.rateLimiter now (Verify.clientIP event)).2.allowed = false) :
    Verify.handlePost w cfg now s event body =
      (Verify.rateLimitedResponse
          (Verify.checkRateLimit s.rateLimiter now (Verify.clientIP event)).2.remaining,
        { s with rateLimiter := (Verify.checkRateLimit s.rateLimiter now (Verify.clientIP event)).1 }) := by
  simp [Verify.handlePost, hl]

/-- An admitted request with an unknown `captchaType` is answered 400. -/
theorem handlePost_unsupported
    (hl : (Verify.checkRateLimit s.rateLimiter now (Verify.clientIP event)).2.allowed = true)
    (hd : Verify.dispatchCaptcha w cfg now (body.captchaType.getD "hcaptcha") body.captchaToken
      (Verify.clientIP event) = none) :
    Verify.handlePost w cfg now s event body =
      (Verify.unsupportedResponse,
        { s with rateLimiter := (Verify.checkRateLimit s.rateLimiter now (Verify.clientIP event)).1 }) := by
  simp [Verify.handlePost, hl, hd]

/-- An admitted request whose proof fails is answered 400. -/
theorem handlePost_proofFailed (r : Verify.CaptchaResult) (m : String)
    (hl : (Verify.checkRateLimit s.rateLimiter now (Verify.clientIP event)).2.allowed = true)
    (hd : Verify.dispatchCaptcha w cfg now (body.captchaType.getD "hcaptcha") body.captchaToken
      (Verify.clientIP event) = some (r, m))
    (hr : r.success = false) :
    Verify.handlePost w cfg now s event body =
      (Verify.proofFailedResponse r (body.captchaType.getD "hcaptcha"),
        { s with rateLimiter := (Verify.checkRateLimit s.rateLimiter now (Verify.clientIP event)).1 }) := by
  simp [Verify.handlePost, hl, hd, hr]

/-- An admitted request with a valid proof and a wrong key is answered 401 and
counted. -/
theorem handlePost_keyMismatch (r : Verify.CaptchaResult) (m : String)
    (hl : (Verify.checkRateLimit s.rateLimiter now (Verify.clientIP event)).2.allowed = true)
    (hd : Verify.dispatchCaptcha w cfg now (body.captchaType.getD "hcaptcha") body.captchaToken
      (Verify.clientIP event) = some (r, m))
    (hr : r.success = true) (hk : Verify.verifyAccessKey cfg body.accessKey = false) :
    Verify.handlePost w cfg now s event body =
      (Verify.keyMismatchResponse ((s.attemptStore (Verify.clientIP event)).getD 0 + 1)
          (body.captchaType.getD "hcaptcha"),
        { rateLimiter := (Verify.checkRateLimit s.rateLimiter now (Verify.clientIP event)).1
          attemptStore := fun k =>
            if k = Verify.clientIP event then
              some ((s.attemptStore (Verify.clientIP event)).getD 0 + 1)
            else s.attemptStore k
          timers := s.timers ++ [(now + COOLDOWN_TIME, Verify.clientIP event)] }) := by
  simp [Verify.handlePost, hl, hd, hr, hk]

/-- An admitted request with a valid proof and the right key, when signing
throws, is answered 500. -/
theorem handlePost_signError (r : Verify.CaptchaResult) (m message : String)
    (hl : (Verify.checkRateLimit s.rateLimiter now (Verify.clientIP event)).2.allowed = true)
    (hd : Verify.dispatchCaptcha w cfg now (body.captchaType.getD "hcaptcha") body.captchaToken
      (Verify.clientIP event) = some (r, m))
    (hr : r.success = true) (hk : Verify.verifyAccessKey cfg body.accessKey = true)
    (hg : Verify.generateToken w cfg now (w.nextNow now) (Verify.clientIP event) m = .error message) :
    Verify.handlePost w cfg now s event body =
      (Verify.internalError cfg message,
        { s with rateLimiter := (Verify.checkRateLimit s.rateLimiter now (Verify.clientIP event)).1 }) := by
  simp [Verify.handlePost, hl, hd, hr, hk, hg]

/-- An admitted request with a valid proof and the right key is answered 200 with
the signed token, and the caller's count is deleted. -/
theorem handlePost_success (r : Verify.CaptchaResult) (m : String) (token : Token)
    (hl : (Verify.checkRateLimit s.rateLimiter now (Verify.clientIP event)).2.allowed = true)
    (hd : Verify.dispatchCaptcha w cfg now (body.captchaType.getD "hcaptcha") body.captchaToken
      (Verify.clientIP event) = some (r, m))
    (hr : r.success = true) (hk : Verify.verifyAccessKey cfg body.accessKey = true)
    (hg : Verify.generateToken w cfg now (w.nextNow now) (Verify.clientIP event) m = .ok token) :
    Verify.handlePost w cfg now s event body =
      (Verify.successResponse token m,
        { rateLimiter := (Verify.checkRateLimit s.rateLimiter now (Verify.clientIP event)).1
          attemptStore := fun k => if k = Verify.clientIP event then none else s.attemptStore k
          timers := s.timers }) := by
  simp [Verify.handlePost, hl, hd, hr, hk, hg]

/-- A POST request with a parsed body runs the `try` block. -/
theorem handler_post (hm : event.httpMethod = "POST") (hb : event.body = .ok body) :
    Verify.handler w cfg now s event = Verify.handlePost w cfg now s event body := by
  simp [Verify.handler, hm, hb]

end Branches

/-- The branches of the `try` block: every call takes exactly one of them. -/
theorem handlePost_cases (w : World) (cfg : Config) (now : Nat) (s : Verify.State)
    (event : Verify.Event) (body : Verify.Body) :
    let ip := Verify.clientIP event
    let ty := body.captchaType.getD "hcaptcha"
    let check := Verify.checkRateLimit s.rateLimiter now ip
    let s1 : Verify.State := { s with rateLimiter := check.1 }
    let out := Verify.handlePost w cfg now s event body
    (check.2.allowed = false ∧ out = (Verify.rateLimitedResponse check.2.remaining, s1)) ∨
    (check.2.allowed = true ∧
      Verify.dispatchCaptcha w cfg now ty body.captchaToken ip = none ∧
      out = (Verify.unsupportedResponse, s1)) ∨
    (∃ r m, check.2.allowed = true ∧
      Verify.dispatchCaptcha w cfg now ty body.captchaToken ip = some (r, m) ∧
      r.success = false ∧ out = (Verify.proofFailedResponse r ty, s1)) ∨
    (∃ r m, check.2.allowed = true ∧
      Verify.dispatchCaptcha w cfg now ty body.captchaToken ip = some (r, m) ∧
      r.success = true ∧ Verify.verifyAccessKey cfg body.accessKey = false ∧
      out = (Verify.keyMismatchResponse ((s.attemptStore ip).getD 0 + 1) ty,
        { rateLimiter := check.1
          attemptStore := fun k => if k = ip then some ((s.attemptStore ip).getD 0 + 1)
            else s.attemptStore k
          timers := s.timers ++ [(now + COOLDOWN_TIME, ip)] })) ∨
    (∃ r m message, check.2.allowed = true ∧
      Verify.dispatchCaptcha w cfg now ty body.captchaToken ip = some (r, m) ∧
      r.success = true ∧ Verify.verifyAccessKey cfg body.accessKey = true ∧
      Verify.generateToken w cfg now (w.nextNow now) ip m = .error message ∧
      out = (Verify.internalError cfg message, s1)) ∨
    (∃ r m token, check.2.allowed = true ∧
      Verify.dispatchCaptcha w cfg now ty body.captchaToken ip = some (r, m) ∧
      r.success = true ∧ Verify.verifyAccessKey cfg body.accessKey = true ∧
      Verify.generateToken w cfg now (w.nextNow now) ip m = .ok token ∧
      out = (Verify.successResponse token m,
        { rateLimiter := check.1
          attemptStore := fun k => if k = ip then none else s.attemptStore k
          timers := s.timers })) := by
  intro ip ty check s1 out
  cases hl : check.2.allowed with
  | false => exact Or.inl ⟨rfl, handlePost_limited w cfg now s event body hl⟩
  | true =>
    right
    cases hd : Verify.dispatchCaptcha w cfg now ty body.captchaToken ip with
    | none => exact Or.inl ⟨rfl, rfl, handlePost_unsupported w cfg now s event body hl hd⟩
    | some p =>
      obtain ⟨r, m⟩ := p
      right
      cases hr : r.success with
      | false =>
        exact Or.inl ⟨r, m, rfl, rfl, hr, handlePost_proofFailed w cfg now s event body r m hl hd hr⟩
      | true =>
        right
        cases hk : Verify.verifyAccessKey cfg body.accessKey with
        | false =>
          exact Or.inl ⟨r, m, rfl, rfl, hr, rfl,
            handlePost_keyMismatch w cfg now s event body r m hl hd hr hk⟩
        | true =>
          right
          cases hg : Verify.generateToken w cfg now (w.nextNow now) ip m with
          | error message =>
            exact Or.inl ⟨r, m, message, rfl, rfl, hr, rfl, hg,
              handlePost_signError w cfg now s event body r m message hl hd hr hk hg⟩
          | ok token =>
            exact Or.inr ⟨r, m, token, rfl, rfl, hr, rfl, hg,
              handlePost_success w cfg now s event body r m token hl hd hr hk hg⟩

/-- What the branch on `captchaType` returns for the two supported types. -/
theorem dispatchCaptcha_supported (w : World) (cfg : Config) (now : Nat) (ty : String)
    (token : Option String) (ip : String) (ht : ty = "hcaptcha" ∨ ty = "fallback_math") :
    ∃ m, Verify.dispatchCaptcha w cfg now ty token ip =
        some (if ty = "hcaptcha" then Verify.verifyHCaptcha w cfg token ip
              else Verify.verifyFallbackCaptcha w now token, m) ∧
      ((if ty = "hcaptcha" then Verify.verifyHCaptcha w cfg token ip
          else Verify.verifyFallbackCaptcha w now token).success = true → m = ty) := by
  rcases ht with rfl | rfl
  · simp only [Verify.dispatchCaptcha, if_true]
    split_ifs with h
    · exact ⟨_, rfl, fun hs => by simp [hs] at h⟩
    · exact ⟨_, rfl, fun _ => rfl⟩
  · refine ⟨"fallback_math", ?_, fun _ => rfl⟩
    simp [Verify.dispatchCaptcha]

/-- Signing succeeds under a secret that has a value. -/
theorem generateToken_ok (w : World) (cfg : Config) (now later : Nat) (ip m secret : String)
    (hj : cfg.JWT_SECRET = some secret) (hs : secret ≠ "") :
    Verify.generateToken w cfg now later ip m =
      .ok (.jwt { alg := "HS256", payload := Verify.tokenPayload now later ip m,
                  signature := w.hmac secret "HS256" (Verify.tokenPayload now later ip m) }) := by
  simp [Verify.generateToken, Lib.jwtSign, hj, hs]

/-- Signing throws under a secret that has no value. -/
theorem generateToken_error (w : World) (cfg : Config) (now later : Nat) (ip m : String)
    (hj : ¬ ∃ secret, cfg.JWT_SECRET = some secret ∧ secret ≠ "") :
    Verify.generateToken w cfg now later ip m = .error "secretOrPrivateKey must have a value" := by
  unfold Verify.generateToken Lib.jwtSign
  cases h : cfg.JWT_SECRET with
  | none => rfl
  | some k =>
    have hk : k = "" := by
      by_contra hne
      exact hj ⟨k, h, hne⟩
    simp [hk]

/-- The paths of the handler outside the `try` block, and the block itself. -/
theorem handler_cases (w : World) (cfg : Config) (now : Nat) (s : Verify.State)
    (event : Verify.Event) :
    Verify.handler w cfg now s event = ({ statusCode := 200, body := {} }, s) ∨
    Verify.handler w cfg now s event =
      ({ statusCode := 405, body := { error := some "只允许POST请求" } }, s) ∨
    (∃ message, Verify.handler w cfg now s event = (Verify.internalError cfg message, s)) ∨
    (∃ body, event.httpMethod = "POST" ∧ event.body = .ok body ∧
      Verify.handler w cfg now s event = Verify.handlePost w cfg now s event body) := by
  unfold Verify.handler
  split_ifs with h1 h2
  · exact Or.inl rfl
  · exact Or.inr (Or.inl rfl)
  · cases hb : event.body with
    | error message => exact Or.inr (Or.inr (Or.inl ⟨message, rfl⟩))
    | ok body => exact Or.inr (Or.inr (Or.inr ⟨body, not_not.mp h2, rfl, rfl⟩))

/-- A response with success=true is the 200 response carrying the token that
`generateToken` signed for the caller. -/
theorem handler_success_shape (w : World) (cfg : Config) (now : Nat) (s : Verify.State)
    (event : Verify.Event)
    (h : (Verify.handler w cfg now s event).1.body.success = some true) :
    ∃ token m, Verify.generateToken w cfg now (w.nextNow now) (Verify.clientIP event) m = .ok token ∧
      Verify.handler w cfg now s event =
        (Verify.successResponse token m,
          { rateLimiter := (Verify.checkRateLimit s.rateLimiter now (Verify.clientIP event)).1
            attemptStore := fun k => if k = Verify.clientIP event then none else s.attemptStore k
            timers := s.timers }) := by
  rcases handler_cases w cfg now s event with e | e | ⟨message, e⟩ | ⟨body, -, -, e⟩
  · rw [e] at h; simp at h
  · rw [e] at h; simp at h
  · rw [e] at h; simp [Verify.internalError] at h
  · rw [e] at h ⊢
    rcases handlePost_cases w cfg now s event body with
      ⟨-, e⟩ | ⟨-, -, e⟩ | ⟨r, m, -, -, -, e⟩ | ⟨r, m, -, -, -, -, e⟩ |
      ⟨r, m, message, -, -, -, -, -, e⟩ | ⟨r, m, token, -, -, -, -, hg, e⟩
    · rw [e] at h; simp [Verify.rateLimitedResponse] at h
    · rw [e] at h; simp [Verify.unsupportedResponse] at h
    · rw [e] at h; simp [Verify.proofFailedResponse] at h
    · rw [e] at h; simp [Verify.keyMismatchResponse] at h
    · rw [e] at h; simp [Verify.internalError] at h
    · exact ⟨token, m, hg, e⟩

/-- A token that `generateToken` returns carries the payload built for the call. -/
theorem generateToken_payload (w : World) (cfg : Config) (now later : Nat) (ip m : String)
    (token : Token) (h : Verify.generateToken w cfg now later ip m = .ok token) :
    ∃ t, token = .jwt t ∧ t.alg = "HS256" ∧ t.payload = Verify.tokenPayload now later ip m := by
  unfold Verify.generateToken Lib.jwtSign at h
  split at h
  · simp at h
  · split_ifs at h
    injection h with h
    exact ⟨_, h.symm, rfl, rfl⟩

/-! ## Claims on the verify handler and the session token -/

/-- C1, as the claim states it, fails: on a deployment without JWT_SECRET a
request that the limiter admits, with a proof hCaptcha accepts and the
configured access key, is answered 500 with success=false and no token. -/
theorem handler_decision_unsigned_counterexample :
    (sampleEvent "secret123" "ok").httpMethod = "POST" ∧
    (Lib.consume Verify.State.init.rateLimiter 0
      (Verify.clientIP (sampleEvent "secret123" "ok"))).2 = .ok () ∧
    (Verify.verifyHCaptcha sampleWorld unsignedConfig (some "ok")
      (Verify.clientIP (sampleEvent "secret123" "ok"))).success = true ∧
    some "secret123" = unsignedConfig.ACCESS_KEY_SECRET ∧
    (Verify.handler sampleWorld unsignedConfig 0 Verify.State.init
      (sampleEvent "secret123" "ok")).1.statusCode = 500 ∧
    (Verify.handler sampleWorld unsignedConfig 0 Verify.State.init
      (sampleEvent "secret123" "ok")).1.body.success = some false ∧
    (Verify.handler sampleWorld unsignedConfig 0 Verify.State.init
      (sampleEvent "secret123" "ok")).1.body.token = none := by
  refine ⟨rfl, rfl, ?_, rfl, ?_, ?_, ?_⟩ <;> decide

/-- C1, amended: for a POST request with a parsed body and a supported
captchaType, the verify handler answers 200 with success=true and a token exactly
when the limiter admits the request, the proof chosen by captchaType validates,
the access key equals the configured secret and JWT_SECRET has a value that is
not empty; otherwise the first failing check decides: 429, then 400 (the same
response for every access key), then 401, and 500 with no token when the three
checks pass and JWT_SECRET has no value. -/
theorem handler_decision (w : World) (cfg : Config) (now : Nat) (s : Verify.State)
    (event : Verify.Event) (body : Verify.Body)
    (hm : event.httpMethod = "POST") (hb : event.body = .ok body)
    (ht : body.captchaType.getD "hcaptcha" = "hcaptcha" ∨
      body.captchaType.getD "hcaptcha" = "fallback_math") :
    (((Verify.handler w cfg now s event).1.statusCode = 200 ∧
        (Verify.handler w cfg now s event).1.body.success = some true ∧
        (Verify.handler w cfg now s event).1.body.token ≠ none) ↔
      ((Lib.consume s.rateLimiter now (Verify.clientIP event)).2 = .ok () ∧
        (if body.captchaType.getD "hcaptcha" = "hcaptcha" then
            Verify.verifyHCaptcha w cfg body.captchaToken (Verify.clientIP event)
          else Verify.verifyFallbackCaptcha w now body.captchaToken).success = true ∧
        body.accessKey = cfg.ACCESS_KEY_SECRET ∧
        ∃ secret, cfg.JWT_SECRET = some secret ∧ secret ≠ "")) ∧
    ((Lib.consume s.rateLimiter now (Verify.clientIP event)).2 ≠ .ok () →
      (Verify.handler w cfg now s event).1.statusCode = 429) ∧
    ((Lib.consume s.rateLimiter now (Verify.clientIP event)).2 = .ok () →
      (if body.captchaType.getD "hcaptcha" = "hcaptcha" then
          Verify.verifyHCaptcha w cfg body.captchaToken (Verify.clientIP event)
        else Verify.verifyFallbackCaptcha w now body.captchaToken).success = false →
      (Verify.handler w cfg now s event).1.statusCode = 400 ∧
      ∀ accessKey, (Verify.handler w cfg now s
          { event with body := .ok { body with accessKey := accessKey } }).1 =
        (Verify.handler w cfg now s event).1) ∧
    ((Lib.consume s.rateLimiter now (Verify.clientIP event)).2 = .ok () →
      (if body.captchaType.getD "hcaptcha" = "hcaptcha" then
          Verify.verifyHCaptcha w cfg body.captchaToken (Verify.clientIP event)
        else Verify.verifyFallbackCaptcha w now body.captchaToken).success = true →
      body.accessKey ≠ cfg.ACCESS_KEY_SECRET →
      (Verify.handler w cfg now s event).1.statusCode = 401) ∧
    ((Lib.consume s.rateLimiter now (Verify.clientIP event)).2 = .ok () →
      (if body.captchaType.getD "hcaptcha" = "hcaptcha" then
          Verify.verifyHCaptcha w cfg body.captchaToken (Verify.clientIP event)
        else Verify.verifyFallbackCaptcha w now body.captchaToken).success = true →
      body.accessKey = cfg.ACCESS_KEY_SECRET →
      (¬ ∃ secret, cfg.JWT_SECRET = some secret ∧ secret ≠ "") →
      (Verify.handler w cfg now s event).1.statusCode = 500 ∧
      (Verify.handler w cfg now s event).1.body.success = some false ∧
      (Verify.handler w cfg now s event).1.body.token = none) := by
  obtain ⟨m, hd, hmeth⟩ := dispatchCaptcha_supported w cfg now (body.captchaType.getD "hcaptcha")
    body.captchaToken (Verify.clientIP event) ht
  have hkey : Verify.verifyAccessKey cfg body.accessKey = true ↔
      body.accessKey = cfg.ACCESS_KEY_SECRET := by
    simp [Verify.verifyAccessKey]
  have hadm := checkRateLimit_allowed_iff now s.rateLimiter (Verify.clientIP event)
  rw [handler_post w cfg now s event body hm hb]
  cases hl : (Verify.checkRateLimit s.rateLimiter now (Verify.clientIP event)).2.allowed with
  | false =>
    have hc : (Lib.consume s.rateLimiter now (Verify.clientIP event)).2 ≠ .ok () := by
      intro h
      rw [hadm.mpr h] at hl
      exact Bool.noConfusion hl
    rw [handlePost_limited w cfg now s event body hl]
    simp [Verify.rateLimitedResponse, hc]
  | true =>
    have hc : (Lib.consume s.rateLimiter now (Verify.clientIP event)).2 = .ok () := hadm.mp hl
    cases hr : (if body.captchaType.getD "hcaptcha" = "hcaptcha" then
            Verify.verifyHCaptcha w cfg body.captchaToken (Verify.clientIP event)
          else Verify.verifyFallbackCaptcha w now body.captchaToken).success with
    | false =>
      rw [handlePost_proofFailed w cfg now s event body _ m hl hd hr]
      refine ⟨by simp [Verify.proofFailedResponse], by simp [hc], ?_, by simp, by simp⟩
      intro _ _
      refine ⟨by simp [Verify.proofFailedResponse], fun accessKey => ?_⟩
      have e1 := handler_post w cfg now s
        { event with body := .ok { body with accessKey := accessKey } }
        { body with accessKey := accessKey } hm rfl
      have e2 := handlePost_proofFailed w cfg now s
        { event with body := .ok { body with accessKey := accessKey } }
        { body with accessKey := accessKey } _ m hl hd hr
      rw [e1, e2]
    | true =>
      by_cases hk : body.accessKey = cfg.ACCESS_KEY_SECRET
      · by_cases hj : ∃ secret, cfg.JWT_SECRET = some secret ∧ secret ≠ ""
        · obtain ⟨secret, hj1, hj2⟩ := hj
          rw [handlePost_success w cfg now s event body _ m _ hl hd hr (hkey.mpr hk)
            (generateToken_ok w cfg now _ _ m secret hj1 hj2)]
          simp [Verify.successResponse, hk, hc, hj1, hj2]
        · rw [handlePost_signError w cfg now s event body _ m _ hl hd hr (hkey.mpr hk)
            (generateToken_error w cfg now _ _ m hj)]
          simp only [not_exists, not_and, not_not] at hj
          refine ⟨?_, by simp [hc], by simp, by simp [hk], ?_⟩
          · simp only [Verify.internalError]
            constructor
            · intro h
              exact absurd h.1 (by decide)
            · rintro ⟨-, -, -, secret, h1, h2⟩
              exact absurd (hj secret h1) h2
          · intro _ _ _ _
            simp [Verify.internalError]
      · have hk2 : Verify.verifyAccessKey cfg body.accessKey = false := by
          cases h : Verify.verifyAccessKey cfg body.accessKey
          · rfl
          · exact absurd (hkey.mp h) hk
        rw [handlePost_keyMismatch w cfg now s event body _ m hl hd hr hk2]
        simp [Verify.keyMismatchResponse, hk, hc]

/-- Instance of C1 amended: the request with the right key and an accepted proof at
time 0 from a fresh module is answered 200 under a configured JWT secret. -/
theorem handler_decision_witness :
    (sampleEvent "secret123" "ok").httpMethod = "POST" ∧
    sampleConfig.JWT_SECRET = some "jwt-secret" ∧
    (Verify.handler sampleWorld sampleConfig 0 Verify.State.init
        (sampleEvent "secret123" "ok")).1.statusCode = 200 :=
  ⟨rfl, rfl,
    ((handler_decision sampleWorld sampleConfig 0 Verify.State.init
      (sampleEvent "secret123" "ok")
      { accessKey := some "secret123", captchaToken := some "ok", captchaType := some "hcaptcha" }
      rfl rfl (by decide)).1.mpr
      ⟨rfl, by decide, by decide, "jwt-secret", rfl, by decide⟩).1⟩

/-- C2, evaluated: generateToken takes iat from one read of the clock and exp from
a second one. With the reads 999 and 1000 the payload has iat = 0 and
exp = 1801, and the handler answers such a request 200 with expiresIn = 1800
and that payload. For all reads, iat = floor(now/1000) and
exp = floor((later + 1800000)/1000), every token generateToken returns carries
that payload, exp = iat + 1800 when the two reads are equal, and every success
response reports expiresIn = 1800. -/
theorem generateToken_expiry :
    SESSION_DURATION = 1800 * 1000 ∧
    ((Verify.tokenPayload 999 1000 "1.1.1.1" "hcaptcha").iat,
      (Verify.tokenPayload 999 1000 "1.1.1.1" "hcaptcha").exp) = (0, 1801) ∧
    slowWorld.nextNow 999 = 1000 ∧
    (Verify.handler slowWorld sampleConfig 999 Verify.State.init
      (sampleEvent "secret123" "ok")).1.statusCode = 200 ∧
    (Verify.handler slowWorld sampleConfig 999 Verify.State.init
      (sampleEvent "secret123" "ok")).1.body.expiresIn = some 1800 ∧
    (Verify.handler slowWorld sampleConfig 999 Verify.State.init
      (sampleEvent "secret123" "ok")).1.body.token =
      some (.jwt { alg := "HS256"
                   payload := { sub := "download-access", ip := "1.1.1.1", iat := 0, exp := 1801,
                                verification_method := "hcaptcha" }
                   signature := slowWorld.hmac "jwt-secret" "HS256"
                     { sub := "download-access", ip := "1.1.1.1", iat := 0, exp := 1801,
                       verification_method := "hcaptcha" } }) ∧
    (∀ (now later : Nat) (ip m : String),
      (Verify.tokenPayload now later ip m).iat = now / 1000 ∧
      (Verify.tokenPayload now later ip m).exp = (later + 1800000) / 1000 ∧
      (Verify.tokenPayload now now ip m).exp = (Verify.tokenPayload now now ip m).iat + 1800) ∧
    (∀ (w : World) (cfg : Config) (now later : Nat) (ip m : String) (token : Token),
      Verify.generateToken w cfg now later ip m = .ok token →
      ∃ t, token = .jwt t ∧ t.payload = Verify.tokenPayload now later ip m) ∧
    (∀ (w : World) (cfg : Config) (now : Nat) (s : Verify.State) (event : Verify.Event),
      (Verify.handler w cfg now s event).1.body.success = some true →
      (Verify.handler w cfg now s event).1.body.expiresIn = some 1800 ∧
      ∃ t, (Verify.handler w cfg now s event).1.body.token = some (.jwt t) ∧
        t.payload.iat = now / 1000 ∧
        t.payload.exp = (w.nextNow now + 1800000) / 1000) := by
  refine ⟨rfl, rfl, rfl, by decide, by decide, by decide, ?_, ?_, ?_⟩
  · intro now later ip m
    exact ⟨rfl, rfl, expiry_seconds now⟩
  · intro w cfg now later ip m token h
    obtain ⟨t, h1, -, h2⟩ := generateToken_payload w cfg now later ip m token h
    exact ⟨t, h1, h2⟩
  · intro w cfg now s event h
    obtain ⟨token, m2, hg, e⟩ := handler_success_shape w cfg now s event h
    obtain ⟨t, rfl, -, h2⟩ := generateToken_payload w cfg now _ _ m2 _ hg
    rw [e]
    refine ⟨by simp [Verify.successResponse, SESSION_DURATION], t, rfl, ?_⟩
    rw [h2]
    exact ⟨rfl, rfl⟩

/-- C3: verifyToken (download.js and list-files.js) returns valid only if the
token's signature verifies under JWT_SECRET, the current time in seconds is
strictly less than the token's exp, and the caller's identity equals the token's
ip claim, all at once; if any one of the three fails the result is valid=false. -/
theorem verifyToken_valid_only_if (w : World) (cfg : Config) (now : Nat) (token : Token)
    (ip : String) :
    ((Download.verifyToken w cfg now token ip).valid = true →
      ∃ t k, token = .jwt t ∧ cfg.JWT_SECRET = some k ∧
        t.signature = w.hmac k t.alg t.payload ∧ now / 1000 < t.payload.exp ∧
        t.payload.ip = ip) ∧
    ((ListFiles.verifyToken w cfg now token ip).valid = true →
      ∃ t k, token = .jwt t ∧ cfg.JWT_SECRET = some k ∧
        t.signature = w.hmac k t.alg t.payload ∧ now / 1000 < t.payload.exp ∧
        t.payload.ip = ip) ∧
    (∀ t, token = .jwt t →
      ((∀ k, cfg.JWT_SECRET = some k → t.signature ≠ w.hmac k t.alg t.payload) ∨
        t.payload.exp ≤ now / 1000 ∨ t.payload.ip ≠ ip) →
      (Download.verifyToken w cfg now token ip).valid = false ∧
      (ListFiles.verifyToken w cfg now token ip).valid = false) := by
  have key : (Download.verifyToken w cfg now token ip).valid = true →
      ∃ t k, token = .jwt t ∧ cfg.JWT_SECRET = some k ∧
        t.signature = w.hmac k t.alg t.payload ∧ now / 1000 < t.payload.exp ∧
        t.payload.ip = ip := by
    intro h
    obtain ⟨c, hv, hip, -⟩ := verifyToken_valid w cfg now token ip h
    obtain ⟨t, k, rfl, hk, -, -, hs, he, rfl⟩ := (jwtVerify_ok_iff w _ _ _ _).mp hv
    exact ⟨t, k, rfl, hk, hs, he, hip⟩
  refine ⟨key, key, ?_⟩
  intro t ht hfail
  have hnot : (Download.verifyToken w cfg now token ip).valid = false := by
    cases hv : (Download.verifyToken w cfg now token ip).valid with
    | false => rfl
    | true =>
      obtain ⟨t2, k, h1, hk, hs, he, hip⟩ := key hv
      rw [ht] at h1
      injection h1 with h1
      subst h1
      rcases hfail with h | h | h
      · exact absurd hs (h k hk)
      · omega
      · exact absurd hip h
  exact ⟨hnot, hnot⟩

/-- Instance of C3: the token issued to `1.1.1.1` at time 0 is valid for `1.1.1.1`
at time 0, so it is signed under the secret, unexpired and bound to `1.1.1.1`. -/
theorem verifyToken_valid_only_if_witness :
    (Download.verifyToken sampleWorld sampleConfig 0 sampleToken "1.1.1.1").valid = true ∧
    ∃ t k, sampleToken = .jwt t ∧ sampleConfig.JWT_SECRET = some k ∧
      t.signature = sampleWorld.hmac k t.alg t.payload ∧ 0 / 1000 < t.payload.exp ∧
      t.payload.ip = "1.1.1.1" :=
  ⟨by decide,
    (verifyToken_valid_only_if sampleWorld sampleConfig 0 sampleToken "1.1.1.1").1 (by decide)⟩

/-- C4, as the claim states it, fails: a token bound to `1.1.1.1` and presented
by `2.2.2.2` is rejected with the reason `invalid signature` when its signature
is wrong, and with the reason `jwt expired` when it is presented at its expiry
time, not with the identity-mismatch reason. -/
theorem verifyToken_mismatch_reason_counterexample :
    sampleClaims.ip ≠ "2.2.2.2" ∧
    Download.verifyToken sampleWorld sampleConfig 0 forgedToken "2.2.2.2" =
      { valid := false, reason := some "invalid signature" } ∧
    Download.verifyToken sampleWorld sampleConfig 1800000 sampleToken "2.2.2.2" =
      { valid := false, reason := some "jwt expired" } := by
  decide

/-- C4, amended: a token whose ip claim differs from the presenting identity is
always rejected (valid=false) by both copies of verifyToken; the reason is the
identity-mismatch reason when the token passes `jwt.verify` (HS256 signature
valid under JWT_SECRET and clock before exp), and it is the message of
`jwt.verify` when that call throws. -/
theorem verifyToken_identity_mismatch (w : World) (cfg : Config) (now : Nat) (t : Jwt)
    (ip : String) (h : t.payload.ip ≠ ip) :
    (Download.verifyToken w cfg now (.jwt t) ip).valid = false ∧
    (ListFiles.verifyToken w cfg now (.jwt t) ip).valid = false ∧
    (∀ k, cfg.JWT_SECRET = some k → k ≠ "" → t.alg = "HS256" →
      t.signature = w.hmac k t.alg t.payload → now / 1000 < t.payload.exp →
      Download.verifyToken w cfg now (.jwt t) ip =
        { valid := false, reason := some "IP地址不匹配" } ∧
      ListFiles.verifyToken w cfg now (.jwt t) ip =
        { valid := false, reason := some "IP地址不匹配" }) ∧
    (∀ message, Lib.jwtVerify w (.jwt t) cfg.JWT_SECRET (now / 1000) = .error message →
      Download.verifyToken w cfg now (.jwt t) ip = { valid := false, reason := some message } ∧
      ListFiles.verifyToken w cfg now (.jwt t) ip =
        { valid := false, reason := some message }) := by
  have hnot : (Download.verifyToken w cfg now (.jwt t) ip).valid = false := by
    cases hv : (Download.verifyToken w cfg now (.jwt t) ip).valid with
    | false => rfl
    | true =>
      obtain ⟨c, hj, hip, -⟩ := verifyToken_valid w cfg now _ ip hv
      obtain ⟨t2, k, h1, -, -, -, -, -, rfl⟩ := (jwtVerify_ok_iff w _ _ _ _).mp hj
      injection h1 with h1
      subst h1
      exact absurd hip h
  refine ⟨hnot, hnot, ?_, ?_⟩
  · intro k hk hne ha hs he
    have hj : Lib.jwtVerify w (.jwt t) cfg.JWT_SECRET (now / 1000) = .ok t.payload :=
      (jwtVerify_ok_iff w _ _ _ _).mpr ⟨t, k, rfl, hk, hne, ha, hs, he, rfl⟩
    have e : Download.verifyToken w cfg now (.jwt t) ip =
        { valid := false, reason := some "IP地址不匹配" } := by
      unfold Download.verifyToken
      rw [hj]
      simp [h]
    exact ⟨e, e⟩
  · intro message hj
    have e : Download.verifyToken w cfg now (.jwt t) ip =
        { valid := false, reason := some message } := by
      unfold Download.verifyToken
      rw [hj]
    exact ⟨e, e⟩

/-- Instance of C4 amended: the token issued to `1.1.1.1`, presented by `2.2.2.2`
while it is signed and unexpired, is rejected with the identity-mismatch
reason. -/
theorem verifyToken_identity_mismatch_witness :
    sampleClaims.ip ≠ "2.2.2.2" ∧
    Download.verifyToken sampleWorld sampleConfig 0 (.jwt sampleJwt) "2.2.2.2" =
      { valid := false, reason := some "IP地址不匹配" } :=
  ⟨by decide,
    ((verifyToken_identity_mismatch sampleWorld sampleConfig 0 sampleJwt "2.2.2.2"
      (by decide)).2.2.1 "jwt-secret" rfl (by decide) rfl rfl (by decide)).1⟩

/-- C5: under a configured JWT secret, the token generateToken(ip, m) returns
(with its reads of the clock `now` and `later`) is accepted by
verifyToken(token, ip) at every time t with floor(t/1000) < exp, with decoded
claims sub = 'download-access', ip = ip and verification_method = m, and with
the iat and exp of its issuance; the verifyToken of download.js and the one of
list-files.js are the same function. -/
theorem session_token_round_trip (w : World) (cfg : Config) (now later t : Nat)
    (ip m secret : String)
    (hj : cfg.JWT_SECRET = some secret) (hs : secret ≠ "")
    (ht : t / 1000 < (later + SESSION_DURATION) / 1000) :
    ∃ token, Verify.generateToken w cfg now later ip m = .ok token ∧
      Download.verifyToken w cfg t token ip =
        { valid := true
          decoded := some { sub := "download-access", ip := ip, iat := now / 1000,
                            exp := later / 1000 + 1800, verification_method := m } } ∧
      ListFiles.verifyToken w cfg t token ip = Download.verifyToken w cfg t token ip ∧
      ListFiles.verifyToken = Download.verifyToken := by
  refine ⟨_, generateToken_ok w cfg now later ip m secret hj hs, ?_, rfl, rfl⟩
  have hv : Lib.jwtVerify w
      (.jwt { alg := "HS256", payload := Verify.tokenPayload now later ip m,
              signature := w.hmac secret "HS256" (Verify.tokenPayload now later ip m) })
      cfg.JWT_SECRET (t / 1000) = .ok (Verify.tokenPayload now later ip m) :=
    (jwtVerify_ok_iff w _ _ _ _).mpr ⟨_, secret, rfl, hj, hs, rfl, rfl, ht, rfl⟩
  unfold Download.verifyToken
  rw [hv]
  have hle : t / 1000 ≤ later / 1000 + 1800 := by
    have := expiry_seconds later
    omega
  simp [Verify.tokenPayload, expiry_seconds, hle]

/-- Instance of C5: the token issued to `1.1.1.1` at time 0 is accepted for
`1.1.1.1` one millisecond before its expiry. -/
theorem session_token_round_trip_witness :
    ∃ token, Verify.generateToken sampleWorld sampleConfig 0 0 "1.1.1.1" "hcaptcha" = .ok token ∧
      Download.verifyToken sampleWorld sampleConfig 1799999 token "1.1.1.1" =
        { valid := true
          decoded := some { sub := "download-access", ip := "1.1.1.1", iat := 0 / 1000,
                            exp := 0 / 1000 + 1800, verification_method := "hcaptcha" } } ∧
      ListFiles.verifyToken sampleWorld sampleConfig 1799999 token "1.1.1.1" =
        Download.verifyToken sampleWorld sampleConfig 1799999 token "1.1.1.1" ∧
      ListFiles.verifyToken = Download.verifyToken :=
  session_token_round_trip sampleWorld sampleConfig 0 0 1799999 "1.1.1.1" "hcaptcha" "jwt-secret"
    rfl (by decide) (by decide)

/-! ## Claims on the attempt store and the limiter -/

/-- C7: in the verify handler a request answered 401 raises the failed-attempt
count of its client identity by exactly 1, and a request answered 429, 400 or
500 leaves attemptStore unchanged. -/
theorem attemptStore_changes_only_on_key_mismatch (w : World) (cfg : Config) (now : Nat)
    (s : Verify.State) (event : Verify.Event) :
    ((Verify.handler w cfg now s event).1.statusCode = 401 →
      (Verify.handler w cfg now s event).2.attemptStore (Verify.clientIP event) =
        some ((s.attemptStore (Verify.clientIP event)).getD 0 + 1)) ∧
    ((Verify.handler w cfg now s event).1.statusCode = 429 ∨
      (Verify.handler w cfg now s event).1.statusCode = 400 ∨
      (Verify.handler w cfg now s event).1.statusCode = 500 →
      (Verify.handler w cfg now s event).2.attemptStore = s.attemptStore) := by
  rcases handler_cases w cfg now s event with e | e | ⟨message, e⟩ | ⟨body, -, -, e⟩
  · rw [e]; simp
  · rw [e]; simp
  · rw [e]; simp [Verify.internalError]
  · rw [e]
    rcases handlePost_cases w cfg now s event body with
      ⟨-, e⟩ | ⟨-, -, e⟩ | ⟨r, m, -, -, -, e⟩ | ⟨r, m, -, -, -, -, e⟩ |
      ⟨r, m, message, -, -, -, -, -, e⟩ | ⟨r, m, token, -, -, -, -, -, e⟩
    · rw [e]; simp [Verify.rateLimitedResponse]
    · rw [e]; simp [Verify.unsupportedResponse]
    · rw [e]; simp [Verify.proofFailedResponse]
    · rw [e]; simp [Verify.keyMismatchResponse]
    · rw [e]; simp [Verify.internalError]
    · rw [e]; simp [Verify.successResponse]

/-- Instance of C7: a first wrong key from `1.1.1.1` is answered 401 and leaves
the count 1 for `1.1.1.1`. -/
theorem attemptStore_changes_only_on_key_mismatch_witness :
    (Verify.handler sampleWorld sampleConfig 0 Verify.State.init
        (sampleEvent "wrong" "ok")).1.statusCode = 401 ∧
    (Verify.handler sampleWorld sampleConfig 0 Verify.State.init
        (sampleEvent "wrong" "ok")).2.attemptStore "1.1.1.1" = some (0 + 1) :=
  ⟨by decide,
    (attemptStore_changes_only_on_key_mismatch sampleWorld sampleConfig 0 Verify.State.init
      (sampleEvent "wrong" "ok")).1 (by decide)⟩

/-- C8: after a successful verification for identity I attemptStore holds no entry
for I, whatever its count was, and every other identity keeps its entry; a
key-mismatch failure for I changes the entry of I only. -/
theorem attemptStore_reset_on_success (w : World) (cfg : Config) (now : Nat)
    (s : Verify.State) (event : Verify.Event) :
    ((Verify.handler w cfg now s event).1.body.success = some true →
      (Verify.handler w cfg now s event).2.attemptStore (Verify.clientIP event) = none ∧
      ∀ j, j ≠ Verify.clientIP event →
        (Verify.handler w cfg now s event).2.attemptStore j = s.attemptStore j) ∧
    ((Verify.handler w cfg now s event).1.statusCode = 401 →
      ∀ j, j ≠ Verify.clientIP event →
        (Verify.handler w cfg now s event).2.attemptStore j = s.attemptStore j) := by
  constructor
  · intro h
    obtain ⟨token, m, -, e⟩ := handler_success_shape w cfg now s event h
    rw [e]
    refine ⟨by simp, fun j hj => by simp [hj]⟩
  · rcases handler_cases w cfg now s event with e | e | ⟨message, e⟩ | ⟨body, -, -, e⟩
    · rw [e]; simp
    · rw [e]; simp
    · rw [e]; simp
    · rw [e]
      rcases handlePost_cases w cfg now s event body with
        ⟨-, e⟩ | ⟨-, -, e⟩ | ⟨r, m, -, -, -, e⟩ | ⟨r, m, -, -, -, -, e⟩ |
        ⟨r, m, message, -, -, -, -, -, e⟩ | ⟨r, m, token, -, -, -, -, -, e⟩
      · rw [e]; simp
      · rw [e]; simp
      · rw [e]; simp
      · rw [e]
        intro _ j hj
        simp [hj]
      · rw [e]; simp
      · rw [e]
        intro _ j hj
        simp [hj]

/-- The module state after three wrong keys from `1.1.1.1` at times 0, 1 and 2. -/
theorem sample_three_failures :
    (Verify.serve sampleWorld sampleConfig Verify.State.init
      [(0, sampleEvent "wrong" "ok"), (1, sampleEvent "wrong" "ok"),
       (2, sampleEvent "wrong" "ok")]).2.attemptStore "1.1.1.1" = some 3 := by
  decide

/-- Instance of C8: after three wrong keys from `1.1.1.1` a request with the right
key succeeds and leaves no entry for `1.1.1.1`. -/
theorem attemptStore_reset_on_success_witness :
    (Verify.handler sampleWorld sampleConfig 3
        (Verify.serve sampleWorld sampleConfig Verify.State.init
          [(0, sampleEvent "wrong" "ok"), (1, sampleEvent "wrong" "ok"),
           (2, sampleEvent "wrong" "ok")]).2
        (sampleEvent "secret123" "ok")).1.body.success = some true ∧
    (Verify.handler sampleWorld sampleConfig 3
        (Verify.serve sampleWorld sampleConfig Verify.State.init
          [(0, sampleEvent "wrong" "ok"), (1, sampleEvent "wrong" "ok"),
           (2, sampleEvent "wrong" "ok")]).2
        (sampleEvent "secret123" "ok")).2.attemptStore "1.1.1.1" = none :=
  ⟨by decide,
    ((attemptStore_reset_on_success sampleWorld sampleConfig 3
      (Verify.serve sampleWorld sampleConfig Verify.State.init
        [(0, sampleEvent "wrong" "ok"), (1, sampleEvent "wrong" "ok"),
         (2, sampleEvent "wrong" "ok")]).2
      (sampleEvent "secret123" "ok")).1 (by decide)).1⟩

/-- The limiter never rejects with nothing left to wait. -/
theorem consume_rejected_pos (store : String → Option Lib.Record) (now : Nat) (key : String)
    (ms : Nat) (h : (Lib.consume store now key).2 = .error ms) : 0 < ms := by
  unfold Lib.consume at h
  split at h
  · split_ifs at h with h1 h2
    · simp only at h
      injection h with h
      omega
  · simp at h

/-- C9: when the limiter rejects a POST request with msBeforeNext > 0, the verify
handler answers 429 with success=false and retryAfter = ceil(msBeforeNext/1000),
a positive number of seconds, and the response is the same for every accessKey,
captchaToken and captchaType in the body. -/
theorem rate_limited_response (w : World) (cfg : Config) (now : Nat) (s : Verify.State)
    (event : Verify.Event) (body : Verify.Body) (ms : Nat)
    (hm : event.httpMethod = "POST") (hb : event.body = .ok body)
    (hrej : (Lib.consume s.rateLimiter now (Verify.clientIP event)).2 = .error ms)
    (hpos : 0 < ms) :
    (Verify.handler w cfg now s event).1.statusCode = 429 ∧
    (Verify.handler w cfg now s event).1.body.success = some false ∧
    (Verify.handler w cfg now s event).1.body.retryAfter = some (some (ceilSeconds ms)) ∧
    0 < ceilSeconds ms ∧ ms ≤ 1000 * ceilSeconds ms ∧ 1000 * ceilSeconds ms < ms + 1000 ∧
    ∀ body2 : Verify.Body,
      (Verify.handler w cfg now s { event with body := .ok body2 }).1 =
        (Verify.handler w cfg now s event).1 := by
  have hc := checkRateLimit_rejected now s.rateLimiter (Verify.clientIP event) ms hrej
  have hl : (Verify.checkRateLimit s.rateLimiter now (Verify.clientIP event)).2.allowed = false := by
    rw [hc]
  have e : (Verify.handler w cfg now s event).1 =
      Verify.rateLimitedResponse (some (ceilSeconds ms)) := by
    rw [handler_post w cfg now s event body hm hb, handlePost_limited w cfg now s event body hl, hc]
  rw [e]
  refine ⟨rfl, rfl, rfl, ?_, ?_, ?_, ?_⟩
  · unfold ceilSeconds; omega
  · unfold ceilSeconds; omega
  · unfold ceilSeconds; omega
  · intro body2
    have e1 := handler_post w cfg now s { event with body := .ok body2 } body2 hm rfl
    have e2 := handlePost_limited w cfg now s { event with body := .ok body2 } body2 hl
    rw [e1, e2]
    exact congrArg Verify.rateLimitedResponse (congrArg Verify.RateLimitCheck.remaining hc)

/-- Instance of C9: after five requests from `1.1.1.1` at times 0 to 4, a sixth at
time 5 is rejected by the limiter with 59995 ms to wait and answered 429 with
retryAfter = 60, although it carries the right key and an accepted proof. -/
theorem rate_limited_response_witness :
    (Lib.consume (Verify.serve sampleWorld sampleConfig Verify.State.init
        [(0, sampleEvent "wrong" "ok"), (1, sampleEvent "wrong" "ok"),
         (2, sampleEvent "wrong" "ok"), (3, sampleEvent "wrong" "ok"),
         (4, sampleEvent "wrong" "ok")]).2.rateLimiter 5 "1.1.1.1").2 = .error 59995 ∧
    (Verify.handler sampleWorld sampleConfig 5
        (Verify.serve sampleWorld sampleConfig Verify.State.init
          [(0, sampleEvent "wrong" "ok"), (1, sampleEvent "wrong" "ok"),
           (2, sampleEvent "wrong" "ok"), (3, sampleEvent "wrong" "ok"),
           (4, sampleEvent "wrong" "ok")]).2
        (sampleEvent "secret123" "ok")).1.body.retryAfter = some (some 60) :=
  ⟨rfl,
    (rate_limited_response sampleWorld sampleConfig 5
      (Verify.serve sampleWorld sampleConfig Verify.State.init
        [(0, sampleEvent "wrong" "ok"), (1, sampleEvent "wrong" "ok"),
         (2, sampleEvent "wrong" "ok"), (3, sampleEvent "wrong" "ok"),
         (4, sampleEvent "wrong" "ok")]).2
      (sampleEvent "secret123" "ok")
      { accessKey := some "secret123", captchaToken := some "ok", captchaType := some "hcaptcha" }
      59995 rfl rfl rfl (by decide)).2.2.1⟩

/-- C10: a fallback puzzle token whose timestamp is more than 300000 ms before the
current time is rejected by verifyFallbackCaptcha (success=false); when its type
is 'math_captcha' the result is the expiry error, also when its sig equals the
recomputed signature. -/
theorem verifyFallbackCaptcha_expired (w : World) (now : Nat) (token : String) (d : MathToken)
    (hd : w.decode token = some d) (hold : (now : Int) - d.timestamp > 300000) :
    (Verify.verifyFallbackCaptcha w now (some token)).success = false ∧
    (d.type = "math_captcha" →
      Verify.verifyFallbackCaptcha w now (some token) =
        { success := false, error := some "验证已过期，请重新验证" }) ∧
    (d.type = "math_captcha" →
      d.sig = Verify.createSignature d.problemId d.answer d.timestamp d.type →
      (Verify.verifyFallbackCaptcha w now (some token)).success = false) := by
  have hold2 : (now : Int) - d.timestamp > 5 * 60 * 1000 := by omega
  have e : Verify.verifyFallbackCaptcha w now (some token) =
      if d.type ≠ "math_captcha" then { success := false, error := some "无效的验证类型" }
      else { success := false, error := some "验证已过期，请重新验证" } := by
    simp only [Verify.verifyFallbackCaptcha, Option.some_bind, hd, if_pos hold2]
  rw [e]
  refine ⟨?_, ?_, ?_⟩
  · split_ifs <;> rfl
  · intro ht
    simp [ht]
  · intro ht _
    simp [ht]

/-- Instance of C10: the sample puzzle token, created at time 0 and signed with
its own signature, is rejected at time 300001. -/
theorem verifyFallbackCaptcha_expired_witness :
    samplePuzzle.sig = Verify.createSignature samplePuzzle.problemId samplePuzzle.answer
      samplePuzzle.timestamp samplePuzzle.type ∧
    ((300001 : Nat) : Int) - samplePuzzle.timestamp > 300000 ∧
    (Verify.verifyFallbackCaptcha sampleWorld 300001 (some "puzzle")).success = false :=
  ⟨rfl, by decide,
    (verifyFallbackCaptcha_expired sampleWorld 300001 "puzzle" samplePuzzle rfl (by decide)).1⟩

/-- C6, evaluated: five wrong keys from `1.1.1.1`, 61 seconds apart so that the
limiter admits each, are answered 401, the fifth with retryAfter = 300 and the
count of `1.1.1.1` at 5; a sixth request from `1.1.1.1` six seconds later, inside
the announced cooldown, with the right key and an accepted proof, is answered
200 with a token. -/
theorem lockout_not_enforced :
    (Verify.serve sampleWorld sampleConfig Verify.State.init
      [(0, sampleEvent "wrong" "ok"), (61000, sampleEvent "wrong" "ok"),
       (122000, sampleEvent "wrong" "ok"), (183000, sampleEvent "wrong" "ok"),
       (244000, sampleEvent "wrong" "ok")]).1.map
        (fun r => (r.statusCode, r.body.retryAfter)) =
      [(401, some none), (401, some none), (401, some none), (401, some none),
       (401, some (some 300))] ∧
    (Verify.runTimers 250000
      (Verify.serve sampleWorld sampleConfig Verify.State.init
        [(0, sampleEvent "wrong" "ok"), (61000, sampleEvent "wrong" "ok"),
         (122000, sampleEvent "wrong" "ok"), (183000, sampleEvent "wrong" "ok"),
         (244000, sampleEvent "wrong" "ok")]).2).attemptStore "1.1.1.1" = some 5 ∧
    (Verify.serve sampleWorld sampleConfig Verify.State.init
      [(0, sampleEvent "wrong" "ok"), (61000, sampleEvent "wrong" "ok"),
       (122000, sampleEvent "wrong" "ok"), (183000, sampleEvent "wrong" "ok"),
       (244000, sampleEvent "wrong" "ok"), (250000, sampleEvent "secret123" "ok")]).1.map
        (fun r => (r.statusCode, r.body.success, r.body.token.isSome)) =
      [(401, some false, false), (401, some false, false), (401, some false, false),
       (401, some false, false), (401, some false, false), (200, some true, true)] := by
  decide

/-! ## Claims on the fallback puzzle (client) -/

/-- The value of `a op1 b op2 c` under `evalPrecedence` for the nine operator
pairs. -/
theorem evalPrecedence_table (a b c : Int) :
    evalPrecedence a "+" b "+" c = a + b + c ∧ evalPrecedence a "+" b "-" c = a + b - c ∧
    evalPrecedence a "+" b "×" c = a + b * c ∧ evalPrecedence a "-" b "+" c = a - b + c ∧
    evalPrecedence a "-" b "-" c = a - b - c ∧ evalPrecedence a "-" b "×" c = a - b * c ∧
    evalPrecedence a "×" b "+" c = a * b + c ∧ evalPrecedence a "×" b "-" c = a * b - c ∧
    evalPrecedence a "×" b "×" c = a * b * c := by
  simp [evalPrecedence, applyOp]

/-- C15, evaluated: with operands 5, 2, 3 and operators `-`, `×` the template
mix_operation displays `5 - 2 × 3 = ?`, whose value with multiplication first
is -1, and stores the answer 0; for every operand triple the pair `-`, `×`
stores a - b - c, while the eight other operator pairs store the value of the
displayed expression. -/
theorem mixOperation_minus_times :
    (FallbackCaptcha.mixOperation 4 1 2 1 2).problem = "5 - 2 × 3 = ?" ∧
    (FallbackCaptcha.mixOperation 4 1 2 1 2).answer = 0 ∧
    evalPrecedence 5 "-" 2 "×" 3 = -1 ∧
    (∀ ra rb rc : Fin 10,
      (FallbackCaptcha.mixOperation ra rb rc 1 2).answer =
        ((ra.val : Int) + 1) - ((rb.val : Int) + 1) - ((rc.val : Int) + 1) ∧
      evalPrecedence (ra.val + 1) "-" (rb.val + 1) "×" (rc.val + 1) =
        ((ra.val : Int) + 1) - ((rb.val : Int) + 1) * ((rc.val : Int) + 1)) ∧
    (∀ (ra rb rc : Fin 10) (i1 i2 : Fin 3),
      (FallbackCaptcha.mixOperation ra rb rc i1 i2).problem =
        toString ((ra.val : Int) + 1) ++ " " ++ FallbackCaptcha.operations.getD i1.val "" ++ " " ++
          toString ((rb.val : Int) + 1) ++ " " ++ FallbackCaptcha.operations.getD i2.val "" ++ " " ++
          toString ((rc.val : Int) + 1) ++ " = ?" ∧
      ((i1, i2) = (1, 2) ∨
        (FallbackCaptcha.mixOperation ra rb rc i1 i2).answer =
          evalPrecedence (ra.val + 1) (FallbackCaptcha.operations.getD i1.val "")
            (rb.val + 1) (FallbackCaptcha.operations.getD i2.val "") (rc.val + 1))) := by
  refine ⟨by decide, by decide, by decide, ?_, ?_⟩
  · intro ra rb rc
    constructor
    · simp [FallbackCaptcha.mixOperation, FallbackCaptcha.operations]
    · simp [evalPrecedence, applyOp]
  · intro ra rb rc i1 i2
    fin_cases i1 <;> fin_cases i2 <;>
      simp [FallbackCaptcha.mixOperation, FallbackCaptcha.operations, evalPrecedence, applyOp,
        String.append_assoc]

/-- C16: every puzzle of the template simple_division has a divisor in 2..6, a
stored answer in 10..59 and displays the dividend answer × divisor, so the
dividend is a multiple of the divisor and dividend ÷ divisor is the answer. -/
theorem simpleDivision_exact (r1 : Fin 50) (r2 : Fin 5) :
    ∃ divisor dividend : Int,
      2 ≤ divisor ∧ divisor ≤ 6 ∧
      10 ≤ (FallbackCaptcha.simpleDivision r1 r2).answer ∧
      (FallbackCaptcha.simpleDivision r1 r2).answer ≤ 59 ∧
      dividend = (FallbackCaptcha.simpleDivision r1 r2).answer * divisor ∧
      (FallbackCaptcha.simpleDivision r1 r2).problem =
        toString dividend ++ " ÷ " ++ toString divisor ++ " = ?" ∧
      dividend % divisor = 0 ∧
      dividend / divisor = (FallbackCaptcha.simpleDivision r1 r2).answer := by
  refine ⟨(r2.val : Int) + 2, ((r1.val : Int) + 10) * ((r2.val : Int) + 2), ?_, ?_, ?_, ?_,
    rfl, rfl, ?_, ?_⟩
  · omega
  · omega
  · simp only [FallbackCaptcha.simpleDivision]; omega
  · simp only [FallbackCaptcha.simpleDivision]; omega
  · exact Int.mul_emod_left _ _
  · simp only [FallbackCaptcha.simpleDivision]
    exact Int.mul_ediv_cancel _ (by omega)

/-! ## Printing and reading numerals -/

/-- A digit character of core printing reads back as its digit. -/
theorem digitValue_digitChar (d : Nat) (h : d < 16) : digitValue (Nat.digitChar d) = some d := by
  interval_cases d <;> rfl

/-- Core printing prepends the digits to the accumulator. -/
theorem toDigitsCore_append (b : Nat) (fuel : Nat) :
    ∀ (n : Nat) (ds : List Char),
      Nat.toDigitsCore b fuel n ds = Nat.toDigitsCore b fuel n [] ++ ds := by
  induction fuel with
  | zero => intro n ds; simp [Nat.toDigitsCore]
  | succ fuel ih =>
    intro n ds
    simp only [Nat.toDigitsCore]
    split_ifs with h
    · simp
    · rw [ih (n / b) (Nat.digitChar (n % b) :: ds), ih (n / b) [Nat.digitChar (n % b)]]
      simp

/-- Reading a digit list extended by one digit. -/
theorem digitsToNat_append_singleton (radix : Nat) (l : List Char) (c : Char) :
    digitsToNat radix (l ++ [c]) = digitsToNat radix l * radix + (digitValue c).getD 0 := by
  simp [digitsToNat, List.foldl_append]

/-- The digits core printing produces in a base from 2 to 16 are digits of the
base, there is at least one, and they read back as the number. -/
theorem toDigitsCore_spec (b : Nat) (hb : 2 ≤ b) (hb16 : b ≤ 16) (fuel : Nat) :
    ∀ n, n < fuel →
      (∀ c ∈ Nat.toDigitsCore b fuel n [], isRadixDigit b c = true) ∧
      Nat.toDigitsCore b fuel n [] ≠ [] ∧
      digitsToNat b (Nat.toDigitsCore b fuel n []) = n := by
  induction fuel with
  | zero => intro n h; omega
  | succ fuel ih =>
    intro n hn
    have hd : n % b < 16 := lt_of_lt_of_le (Nat.mod_lt _ (by omega)) hb16
    have hdig : isRadixDigit b (Nat.digitChar (n % b)) = true := by
      simp [isRadixDigit, digitValue_digitChar _ hd, Nat.mod_lt n (show 0 < b by omega)]
    simp only [Nat.toDigitsCore]
    split_ifs with h
    · refine ⟨?_, by simp, ?_⟩
      · intro c hc
        simp only [List.mem_singleton] at hc
        rw [hc]; exact hdig
      · have hlt : n < b := (Nat.div_eq_zero_iff (by omega)).mp h
        have hm : n % b = n := Nat.mod_eq_of_lt hlt
        rw [hm] at hd
        simp [digitsToNat, hm, digitValue_digitChar _ hd]
    · have hpos : 0 < n / b := Nat.pos_of_ne_zero h
      have hlt : n / b < fuel := by
        have : n / b < n := Nat.div_lt_self (by
          by_contra h0
          have : n = 0 := by omega
          simp [this] at h) (by omega)
        omega
      obtain ⟨h1, h2, h3⟩ := ih (n / b) hlt
      rw [toDigitsCore_append]
      refine ⟨?_, by simp [h2], ?_⟩
      · intro c hc
        rcases List.mem_append.mp hc with hc | hc
        · exact h1 c hc
        · simp only [List.mem_singleton] at hc
          rw [hc]; exact hdig
      · rw [digitsToNat_append_singleton, h3, digitValue_digitChar _ hd]
        simp only [Option.getD_some]
        exact Nat.div_add_mod' n b

/-- The digits of `Nat.toDigits` in a base from 2 to 16: digits of the base, not
empty, reading back as the number. -/
theorem toDigits_spec (b : Nat) (hb : 2 ≤ b) (hb16 : b ≤ 16) (n : Nat) :
    (∀ c ∈ Nat.toDigits b n, isRadixDigit b c = true) ∧ Nat.toDigits b n ≠ [] ∧
      digitsToNat b (Nat.toDigits b n) = n :=
  toDigitsCore_spec b hb hb16 (n + 1) n (Nat.lt_succ_self n)

/-- `toHex` is injective: two numbers with the same hexadecimal form are
equal. -/
theorem toHex_injective (n m : Nat) (h : toHex n = toHex m) : n = m := by
  have hl : Nat.toDigits 16 n = Nat.toDigits 16 m := by
    unfold toHex at h
    exact congrArg String.data h
  rw [← (toDigits_spec 16 (by omega) (by omega) n).2.2, hl,
    (toDigits_spec 16 (by omega) (by omega) m).2.2]

/-- A decimal digit character has a code unit from 48 to 57. -/
theorem isRadixDigit_ten (c : Char) (h : isRadixDigit 10 c = true) :
    48 ≤ c.toNat ∧ c.toNat ≤ 57 := by
  unfold isRadixDigit digitValue at h
  split_ifs at h with h1 h2 h3
  · exact h1
  · simp at h; omega
  · simp at h; omega

/-- A list without white space is its own `dropWhile isWhiteSpace`. -/
theorem dropWhile_isWhiteSpace_self (l : List Char) (h : ∀ c ∈ l, isWhiteSpace c = false) :
    l.dropWhile isWhiteSpace = l := by
  cases l with
  | nil => rfl
  | cons a t => simp [List.dropWhile_cons, h a (List.mem_cons_self a t)]

/-- Trimming a list without white space changes nothing. -/
theorem trim_self (l : List Char) (h : ∀ c ∈ l, isWhiteSpace c = false) : trim l = l := by
  unfold trim
  rw [dropWhile_isWhiteSpace_self l h,
    dropWhile_isWhiteSpace_self l.reverse (fun c hc => h c (List.mem_reverse.mp hc)),
    List.reverse_reverse]

/-- A code unit from 48 to 57 is not white space. -/
theorem isWhiteSpace_digit (c : Char) (h : 48 ≤ c.toNat ∧ c.toNat ≤ 57) :
    isWhiteSpace c = false := by
  unfold isWhiteSpace
  simp only [List.mem_cons, List.mem_singleton, List.not_mem_nil, or_false, Bool.or_eq_false_iff,
    decide_eq_false_iff_not, Bool.and_eq_false_imp, decide_eq_true_eq, not_le]
  omega

/-- A list made of digits of the radix is read whole. -/
theorem parseDigits_all (radix : Nat) (l : List Char)
    (h : ∀ c ∈ l, isRadixDigit radix c = true) (hne : l ≠ []) :
    parseDigits radix l = some (digitsToNat radix l) := by
  have ht : l.takeWhile (isRadixDigit radix) = l := List.takeWhile_eq_self_iff.mpr h
  simp [parseDigits, ht, hne]

/-- A list of decimal digits has no hexadecimal marker. -/
theorem parseUnsigned_decimal (l : List Char) (h : ∀ c ∈ l, isRadixDigit 10 c = true) :
    parseUnsigned l = parseDigits 10 l := by
  unfold parseUnsigned
  split
  · have := h 'x' (by simp)
    exact absurd this (by decide)
  · have := h 'X' (by simp)
    exact absurd this (by decide)
  · rfl

/-- The decimal numeral of a natural number is read back by `parseUnsigned`. -/
theorem parseUnsigned_repr (m : Nat) : parseUnsigned (Nat.toDigits 10 m) = some m := by
  obtain ⟨h1, h2, h3⟩ := toDigits_spec 10 (by omega) (by omega) m
  rw [parseUnsigned_decimal _ h1, parseDigits_all 10 _ h1 h2, h3]

/-- The characters of the decimal numeral of an integer. -/
theorem toString_int_data (n : Int) :
    (toString n).data =
      match n with
      | Int.ofNat m => Nat.toDigits 10 m
      | Int.negSucc m => '-' :: Nat.toDigits 10 (m + 1) := by
  cases n with
  | ofNat m => rfl
  | negSucc m => rfl

/-- The decimal numeral of an integer holds no white space. -/
theorem toString_int_noWhiteSpace (n : Int) : ∀ c ∈ (toString n).data, isWhiteSpace c = false := by
  rw [toString_int_data]
  cases n with
  | ofNat m =>
    intro c hc
    exact isWhiteSpace_digit c
      (isRadixDigit_ten c ((toDigits_spec 10 (by omega) (by omega) m).1 c hc))
  | negSucc m =>
    intro c hc
    simp only [List.mem_cons] at hc
    rcases hc with rfl | hc
    · decide
    · exact isWhiteSpace_digit c
        (isRadixDigit_ten c ((toDigits_spec 10 (by omega) (by omega) (m + 1)).1 c hc))

/-- The decimal numeral of an integer is not empty. -/
theorem toString_int_ne_nil (n : Int) : (toString n).data ≠ [] := by
  rw [toString_int_data]
  cases n with
  | ofNat m => exact (toDigits_spec 10 (by omega) (by omega) m).2.1
  | negSucc m => simp

/-- The call `parseInt` reads the decimal numeral of an integer back. -/
theorem parseInt_toString (n : Int) : parseInt (toString n) = some n := by
  unfold parseInt
  rw [dropWhile_isWhiteSpace_self _ (toString_int_noWhiteSpace n), toString_int_data]
  cases n with
  | ofNat m =>
    obtain ⟨h1, h2, -⟩ := toDigits_spec 10 (by omega) (by omega) m
    have hp := parseUnsigned_repr m
    cases hl : Nat.toDigits 10 m with
    | nil => exact absurd hl h2
    | cons a t =>
      have ha := isRadixDigit_ten a (h1 a (by rw [hl]; exact List.mem_cons_self a t))
      have hminus : a ≠ '-' := by rintro rfl; simp at ha
      have hplus : a ≠ '+' := by rintro rfl; simp at ha
      simp only []
      split
      · rename_i heq; rw [hl] at heq; injection heq with e1 _; exact absurd e1 hminus
      · rename_i heq; rw [hl] at heq; injection heq with e1 _; exact absurd e1 hplus
      · rw [hp]; rfl
  | negSucc m =>
    simp only [parseUnsigned_repr, Option.map_some']
    rfl

/-! ## Claims on the fallback puzzle token -/

/-- The signature is the hexadecimal form of the absolute value of the hash of
the payload string. -/
theorem createSignature_eq (problemId : String) (answer timestamp : Int) (type : String) :
    Verify.createSignature problemId answer timestamp type =
      toHex (Verify.hashCode (Verify.payloadString problemId answer timestamp type)).natAbs :=
  rfl

/-- The client and the server compute the same signature. -/
theorem client_createSignature_eq (data : FallbackCaptcha.TokenData) :
    FallbackCaptcha.createSignature data =
      Verify.createSignature data.problemId data.answer data.timestamp data.type :=
  rfl

/-- What `verifyFallbackCaptcha` accepts: the tokens that decode, have the type
`math_captcha`, are at most 300000 ms old, carry the recomputed signature and
have a timestamp no later than the largest time value. -/
theorem verifyFallbackCaptcha_success_iff (w : World) (now : Nat) (token : Option String) :
    (Verify.verifyFallbackCaptcha w now token).success = true ↔
      ∃ d, token.bind w.decode = some d ∧ d.type = "math_captcha" ∧
        (now : Int) - d.timestamp ≤ 300000 ∧
        d.sig = Verify.createSignature d.problemId d.answer d.timestamp d.type ∧
        d.timestamp ≤ 8640000000000000 := by
  unfold Verify.verifyFallbackCaptcha maxTimeValue
  cases hd : token.bind w.decode with
  | none => simp
  | some d =>
    simp only [Option.some.injEq, exists_eq_left']
    split_ifs with h1 h2 h3 h4
    · simp [not_not.mp] at h1 ⊢; exact fun h => absurd h h1
    · simp only [Bool.false_eq_true, false_iff, not_and]
      intro _ h; omega
    · simp only [Bool.false_eq_true, false_iff, not_and]
      intro _ _ h; exact absurd h h3
    · simp only [Bool.false_eq_true, false_iff, not_and]
      intro _ _ _; omega
    · simp only [true_iff]
      exact ⟨not_not.mp h1, by omega, not_not.mp h3, by omega⟩

/-- An accepted token yields the bare success result. -/
theorem verifyFallbackCaptcha_success_eq (w : World) (now : Nat) (token : Option String)
    (h : (Verify.verifyFallbackCaptcha w now token).success = true) :
    Verify.verifyFallbackCaptcha w now token = { success := true } := by
  unfold Verify.verifyFallbackCaptcha at h ⊢
  cases hd : token.bind w.decode with
  | none => simp [hd] at h
  | some d =>
    simp only [hd] at h ⊢
    split_ifs at h ⊢
    rfl

/-- C11, as the claim states it, fails: the payloads with timestamps
1740890066588 and 1737608928816 have one signature, so do the answers 92006880
and 21727176 and the types `Aa` and `BB`; a token whose timestamp was changed
from the first to the second and whose signature was kept passes the signature
comparison and is accepted by verifyFallbackCaptcha. -/
theorem createSignature_collision_counterexample :
    (1740890066588 : Int) ≠ 1737608928816 ∧
    Verify.createSignature "p1" 12 1740890066588 "math_captcha" =
      Verify.createSignature "p1" 12 1737608928816 "math_captcha" ∧
    (92006880 : Int) ≠ 21727176 ∧
    Verify.createSignature "p1" 92006880 0 "math_captcha" =
      Verify.createSignature "p1" 21727176 0 "math_captcha" ∧
    "Aa" ≠ "BB" ∧
    Verify.createSignature "p1" 12 0 "Aa" = Verify.createSignature "p1" 12 0 "BB" ∧
    Verify.verifyFallbackCaptcha tamperedWorld 1737608928816 (some "tampered") =
      { success := true } := by
  set_option maxRecDepth 200000 in decide

/-- C11, amended: a token that carries the signature of its own fields passes
the signature comparison and is accepted while it is fresh and its timestamp is
a time value (at most 8640000000000000), and is rejected when its timestamp
lies beyond that; a payload changed in its fields, with the signature kept,
fails the comparison exactly when the 32-bit hash of the changed payload string
has another absolute value; and a token whose type is not `math_captcha` is
rejected whatever its signature. -/
theorem createSignature_round_trip (w : World) (now : Nat) (token : String) (d : MathToken)
    (hd : w.decode token = some d) :
    (d.type = "math_captcha" → (now : Int) - d.timestamp ≤ 300000 →
      d.sig = Verify.createSignature d.problemId d.answer d.timestamp d.type →
      d.timestamp ≤ 8640000000000000 →
      Verify.verifyFallbackCaptcha w now (some token) = { success := true }) ∧
    (8640000000000000 < d.timestamp →
      (Verify.verifyFallbackCaptcha w now (some token)).success = false) ∧
    (∀ (problemId : String) (answer timestamp : Int) (type : String),
      (Verify.createSignature problemId answer timestamp type ≠
          Verify.createSignature d.problemId d.answer d.timestamp d.type ↔
        (Verify.hashCode (Verify.payloadString problemId answer timestamp type)).natAbs ≠
          (Verify.hashCode
            (Verify.payloadString d.problemId d.answer d.timestamp d.type)).natAbs)) ∧
    (d.type ≠ "math_captcha" → (Verify.verifyFallbackCaptcha w now (some token)).success = false) := by
  refine ⟨?_, ?_, ?_, ?_⟩
  · intro h1 h2 h3 h4
    apply verifyFallbackCaptcha_success_eq
    exact (verifyFallbackCaptcha_success_iff w now (some token)).mpr
      ⟨d, by simpa using hd, h1, h2, h3, h4⟩
  · intro h
    cases hs : (Verify.verifyFallbackCaptcha w now (some token)).success with
    | false => rfl
    | true =>
      obtain ⟨d2, h1, -, -, -, h5⟩ := (verifyFallbackCaptcha_success_iff w now (some token)).mp hs
      simp only [Option.some_bind, hd, Option.some.injEq] at h1
      rw [← h1] at h5
      omega
  · intro problemId answer timestamp type
    rw [createSignature_eq, createSignature_eq]
    constructor
    · intro h e
      exact h (congrArg toHex e)
    · intro h e
      exact h (toHex_injective _ _ e)
  · intro h
    cases hs : (Verify.verifyFallbackCaptcha w now (some token)).success with
    | false => rfl
    | true =>
      obtain ⟨d2, h1, h2, -, -⟩ := (verifyFallbackCaptcha_success_iff w now (some token)).mp hs
      simp only [Option.some_bind, hd, Option.some.injEq] at h1
      rw [h1] at h
      exact absurd h2 h

/-- Instance of C11 amended: the sample puzzle token, which carries the signature
of its own fields, is accepted at time 1000. -/
theorem createSignature_round_trip_witness :
    sampleWorld.decode "puzzle" = some samplePuzzle ∧
    Verify.verifyFallbackCaptcha sampleWorld 1000 (some "puzzle") = { success := true } :=
  ⟨rfl, (createSignature_round_trip sampleWorld 1000 "puzzle" samplePuzzle rfl).1 rfl
    (by decide) rfl (by decide)⟩

/-- C12, evaluated: the configured FALLBACK_SECRET is never read. The handler
answers every request alike under every value of the secret, and the sample
puzzle token is accepted (200 with success=true) both under the secret
`fb-secret` and under the secret `other-secret`. -/
theorem fallback_secret_unused :
    (∀ (w : World) (cfg : Config) (secret : Option String) (now : Nat) (s : Verify.State)
        (event : Verify.Event),
      Verify.handler w { cfg with FALLBACK_SECRET := secret } now s event =
        Verify.handler w cfg now s event) ∧
    sampleConfig.FALLBACK_SECRET = some "fb-secret" ∧
    ((Verify.handler sampleWorld sampleConfig 1000 Verify.State.init
        (sampleFallbackEvent "secret123" "puzzle")).1.statusCode,
      (Verify.handler sampleWorld sampleConfig 1000 Verify.State.init
        (sampleFallbackEvent "secret123" "puzzle")).1.body.success) = (200, some true) ∧
    ((Verify.handler sampleWorld { sampleConfig with FALLBACK_SECRET := some "other-secret" } 1000
        Verify.State.init (sampleFallbackEvent "secret123" "puzzle")).1.statusCode,
      (Verify.handler sampleWorld { sampleConfig with FALLBACK_SECRET := some "other-secret" } 1000
        Verify.State.init (sampleFallbackEvent "secret123" "puzzle")).1.body.success) =
      (200, some true) := by
  refine ⟨fun w cfg secret now s event => rfl, rfl, ?_, ?_⟩
  · set_option maxRecDepth 200000 in decide
  · set_option maxRecDepth 200000 in decide

/-- C13, as the claim states it, fails: the sample puzzle token is presented in
two requests, at times 1000 and 2000, both inside its 5-minute window, and both
requests are answered 200 with success=true. -/
theorem puzzle_token_replay_counterexample :
    (Verify.serve sampleWorld sampleConfig Verify.State.init
      [(1000, sampleFallbackEvent "secret123" "puzzle"),
       (2000, sampleFallbackEvent "secret123" "puzzle")]).1.map
        (fun r => (r.statusCode, r.body.success)) =
      [(200, some true), (200, some true)] := by
  set_option maxRecDepth 200000 in decide

/-- C13, amended: verifyFallbackCaptcha keeps no record of accepted tokens. A token
it accepted at one time decodes to fields with which it is accepted again at
every time that is at most 300000 ms after the token's timestamp. -/
theorem puzzle_token_replay (w : World) (now1 : Nat) (token : String)
    (h : (Verify.verifyFallbackCaptcha w now1 (some token)).success = true) :
    ∃ d, w.decode token = some d ∧
      ∀ now2 : Nat, (now2 : Int) - d.timestamp ≤ 300000 →
        Verify.verifyFallbackCaptcha w now2 (some token) = { success := true } := by
  obtain ⟨d, h1, h2, -, h4⟩ := (verifyFallbackCaptcha_success_iff w now1 (some token)).mp h
  refine ⟨d, by simpa using h1, fun now2 hw => ?_⟩
  apply verifyFallbackCaptcha_success_eq
  exact (verifyFallbackCaptcha_success_iff w now2 (some token)).mpr ⟨d, h1, h2, hw, h4⟩

/-- Instance of C13 amended: the sample puzzle token, accepted at time 1000, is
accepted again at time 300000. -/
theorem puzzle_token_replay_witness :
    (Verify.verifyFallbackCaptcha sampleWorld 1000 (some "puzzle")).success = true ∧
    ∃ d, sampleWorld.decode "puzzle" = some d ∧
      ∀ now2 : Nat, (now2 : Int) - d.timestamp ≤ 300000 →
        Verify.verifyFallbackCaptcha sampleWorld now2 (some "puzzle") = { success := true } :=
  ⟨by set_option maxRecDepth 200000 in decide,
    puzzle_token_replay sampleWorld 1000 "puzzle" (by set_option maxRecDepth 200000 in decide)⟩

/-- C17, as the claim states it, fails: with the puzzle `7 + 5` (answer 12) the
inputs `12abc`, which is not numeric, and `12.9`, a number other than 12, are
answered with success and a token, and the input `1.2e1`, a number equal to 12,
is answered with failure. -/
theorem verifyAnswer_prefix_counterexample :
    sampleSystem.correctAnswer = 12 ∧
    FallbackCaptcha.verifyAnswer sampleBtoaJson 0 sampleSystem "12abc" =
      { success := true, message := "验证通过", token := some "puzzle" } ∧
    FallbackCaptcha.verifyAnswer sampleBtoaJson 0 sampleSystem "12.9" =
      { success := true, message := "验证通过", token := some "puzzle" } ∧
    FallbackCaptcha.verifyAnswer sampleBtoaJson 0 sampleSystem "1.2e1" =
      { success := false, message := "计算结果错误，请重试" } := by
  set_option maxRecDepth 200000 in decide

/-- C17, amended: verifyAnswer returns success exactly when the input is not
blank and parseInt of the input (the integer read from the longest numeric
start of the input, after leading white space) equals correctAnswer, and then
it returns the token of generateVerificationToken; every failure carries no
token; a blank input and an input without a numeric start fail; the decimal
numeral of correctAnswer succeeds. -/
theorem verifyAnswer_parseInt (btoaJson : MathToken → String) (now : Nat)
    (self : FallbackCaptcha.System) (userAnswer : String) :
    ((FallbackCaptcha.verifyAnswer btoaJson now self userAnswer).success = true ↔
      (trim userAnswer.data ≠ [] ∧ parseInt userAnswer = some self.correctAnswer)) ∧
    ((FallbackCaptcha.verifyAnswer btoaJson now self userAnswer).success = true →
      (FallbackCaptcha.verifyAnswer btoaJson now self userAnswer).token =
        some (FallbackCaptcha.generateVerificationToken btoaJson now self)) ∧
    ((FallbackCaptcha.verifyAnswer btoaJson now self userAnswer).success = false →
      (FallbackCaptcha.verifyAnswer btoaJson now self userAnswer).token = none) ∧
    (trim userAnswer.data = [] →
      (FallbackCaptcha.verifyAnswer btoaJson now self userAnswer).success = false) ∧
    (parseInt userAnswer = none →
      (FallbackCaptcha.verifyAnswer btoaJson now self userAnswer).success = false) ∧
    (FallbackCaptcha.verifyAnswer btoaJson now self (toString self.correctAnswer)).success =
      true := by
  have hblank : (userAnswer = "" ∨ trim userAnswer.data = []) ↔ trim userAnswer.data = [] := by
    constructor
    · rintro (rfl | h)
      · rfl
      · exact h
    · exact Or.inr
  have key : ∀ u : String,
      ((FallbackCaptcha.verifyAnswer btoaJson now self u).success = true ↔
        (trim u.data ≠ [] ∧ parseInt u = some self.correctAnswer)) := by
    intro u
    have hb : (u = "" ∨ trim u.data = []) ↔ trim u.data = [] := by
      constructor
      · rintro (rfl | h)
        · rfl
        · exact h
      · exact Or.inr
    unfold FallbackCaptcha.verifyAnswer
    by_cases hblk : trim u.data = []
    · simp [hblk]
    · rw [if_neg (by rw [hb]; exact hblk)]
      cases hp : parseInt u with
      | none => simp
      | some n =>
        by_cases hn : n = self.correctAnswer
        · simp [hn, hblk]
        · simp [hn, hblk]
  refine ⟨key userAnswer, ?_, ?_, ?_, ?_, ?_⟩
  · intro h
    obtain ⟨h1, h2⟩ := (key userAnswer).mp h
    unfold FallbackCaptcha.verifyAnswer
    rw [if_neg (by rw [hblank]; exact h1), h2]
    simp
  · intro h
    unfold FallbackCaptcha.verifyAnswer at h ⊢
    split_ifs at h ⊢ with hb
    · rfl
    · cases hp : parseInt userAnswer with
      | none => rfl
      | some n =>
        simp only [hp] at h ⊢
        split_ifs at h ⊢ with hn
        rfl
  · intro h
    cases hs : (FallbackCaptcha.verifyAnswer btoaJson now self userAnswer).success with
    | false => rfl
    | true => exact absurd h ((key userAnswer).mp hs).1
  · intro h
    cases hs : (FallbackCaptcha.verifyAnswer btoaJson now self userAnswer).success with
    | false => rfl
    | true =>
      rw [((key userAnswer).mp hs).2] at h
      exact Option.noConfusion h
  · refine (key _).mpr ⟨?_, parseInt_toString _⟩
    rw [trim_self _ (toString_int_noWhiteSpace _)]
    exact toString_int_ne_nil _

/-- Instance of C17 amended: with the puzzle `7 + 5` the input ` 12` succeeds with
the token, and the input `13` fails without one. -/
theorem verifyAnswer_parseInt_witness :
    (FallbackCaptcha.verifyAnswer sampleBtoaJson 0 sampleSystem " 12").success = true ∧
    (FallbackCaptcha.verifyAnswer sampleBtoaJson 0 sampleSystem " 12").token =
      some (FallbackCaptcha.generateVerificationToken sampleBtoaJson 0 sampleSystem) ∧
    (FallbackCaptcha.verifyAnswer sampleBtoaJson 0 sampleSystem "13").success = false ∧
    (FallbackCaptcha.verifyAnswer sampleBtoaJson 0 sampleSystem "13").token = none :=
  ⟨by decide,
    (verifyAnswer_parseInt sampleBtoaJson 0 sampleSystem " 12").2.1 (by decide),
    by decide,
    (verifyAnswer_parseInt sampleBtoaJson 0 sampleSystem "13").2.2.1 (by decide)⟩

/-! ## Encodings: UTF-8 and base64 round trips -/

/-- The code of a character is a Unicode scalar value. -/
theorem char_scalar (c : Char) : c.toNat < 55296 ∨ (57343 < c.toNat ∧ c.toNat < 1114112) :=
  c.valid

/-- With no sequence open a byte is read as a first byte. -/
theorem utf8Step_start (st : Buffer.Utf8State) (b : Nat) (h : st.bytesNeeded = 0) :
    Buffer.utf8Step st b = Buffer.startByte b := by
  unfold Buffer.utf8Step
  rw [if_pos h]

/-- A byte in range that completes the open sequence emits its character. -/
theorem utf8Step_last (st : Buffer.Utf8State) (b : Nat) (h0 : st.bytesNeeded ≠ 0)
    (hl : st.lower ≤ b) (hu : b ≤ st.upper) (hs : st.bytesSeen + 1 = st.bytesNeeded) :
    Buffer.utf8Step st b = ({}, [Char.ofNat (st.codePoint * 64 + b % 64)]) := by
  unfold Buffer.utf8Step
  rw [if_neg h0, if_neg (by omega), if_pos hs]

/-- A byte in range that does not complete the open sequence is added to it. -/
theorem utf8Step_more (st : Buffer.Utf8State) (b : Nat) (h0 : st.bytesNeeded ≠ 0)
    (hl : st.lower ≤ b) (hu : b ≤ st.upper) (hs : st.bytesSeen + 1 ≠ st.bytesNeeded) :
    Buffer.utf8Step st b =
      ({ codePoint := st.codePoint * 64 + b % 64, bytesSeen := st.bytesSeen + 1,
         bytesNeeded := st.bytesNeeded }, []) := by
  unfold Buffer.utf8Step
  rw [if_neg h0, if_neg (by omega), if_neg hs]

/-- The decoder on a byte list that is not empty. -/
theorem utf8DecodeFrom_cons (st : Buffer.Utf8State) (b : Nat) (bs : List Nat) :
    Buffer.utf8DecodeFrom st (b :: bs) =
      (Buffer.utf8Step st b).2 ++ Buffer.utf8DecodeFrom (Buffer.utf8Step st b).1 bs :=
  rfl

/-- The first byte of a two-byte sequence. -/
theorem startByte_two (b : Nat) (h1 : 194 ≤ b) (h2 : b ≤ 223) :
    Buffer.startByte b = ({ bytesNeeded := 1, codePoint := b % 32 }, []) := by
  unfold Buffer.startByte
  rw [if_neg (by omega), if_pos ⟨h1, h2⟩]

/-- The first byte of a three-byte sequence. -/
theorem startByte_three (b : Nat) (h1 : 224 ≤ b) (h2 : b ≤ 239) :
    Buffer.startByte b =
      ({ bytesNeeded := 2, codePoint := b % 16
         lower := if b = 224 then 160 else 128
         upper := if b = 237 then 159 else 191 }, []) := by
  unfold Buffer.startByte
  rw [if_neg (by omega), if_neg (by omega), if_pos ⟨h1, h2⟩]

/-- The first byte of a four-byte sequence. -/
theorem startByte_four (b : Nat) (h1 : 240 ≤ b) (h2 : b ≤ 244) :
    Buffer.startByte b =
      ({ bytesNeeded := 3, codePoint := b % 8
         lower := if b = 240 then 144 else 128
         upper := if b = 244 then 143 else 191 }, []) := by
  unfold Buffer.startByte
  rw [if_neg (by omega), if_neg (by omega), if_neg (by omega), if_pos ⟨h1, h2⟩]

/-- The decoder, started afresh on the bytes of one character followed by more
bytes, emits the character and is afresh on the rest. -/
theorem utf8DecodeFrom_encodeChar (c : Char) (bs : List Nat) :
    Buffer.utf8DecodeFrom {} (Buffer.utf8EncodeChar c ++ bs) =
      c :: Buffer.utf8DecodeFrom {} bs := by
  have hv := char_scalar c
  have hc : ∀ n, n = c.toNat → Char.ofNat n = c := fun n h => by rw [h, Char.ofNat_toNat]
  unfold Buffer.utf8EncodeChar
  split_ifs with h1 h2 h3
  · have e : Buffer.startByte c.toNat = ({}, [c]) := by
      unfold Buffer.startByte
      rw [if_pos (show c.toNat ≤ 127 by omega), Char.ofNat_toNat]
    rw [List.singleton_append, utf8DecodeFrom_cons, utf8Step_start _ _ rfl, e]
    rfl
  · rw [List.cons_append, List.singleton_append, utf8DecodeFrom_cons, utf8Step_start _ _ rfl,
      startByte_two _ (by omega) (by omega)]
    simp only [List.nil_append]
    rw [utf8DecodeFrom_cons,
      utf8Step_last _ _ (by simp) (by simp) (by simp only []; omega) (by simp)]
    simp only [List.singleton_append, List.cons.injEq, and_true]
    exact hc _ (by omega)
  · rw [List.cons_append, List.cons_append, List.singleton_append, utf8DecodeFrom_cons,
      utf8Step_start _ _ rfl, startByte_three _ (by omega) (by omega)]
    simp only [List.nil_append]
    rw [utf8DecodeFrom_cons,
      utf8Step_more _ _ (by simp) (by simp only []; split_ifs <;> omega)
        (by simp only []; split_ifs <;> omega) (by simp)]
    simp only [List.nil_append]
    rw [utf8DecodeFrom_cons,
      utf8Step_last _ _ (by simp) (by simp) (by simp only []; omega) (by simp)]
    simp only [List.singleton_append, List.cons.injEq, and_true]
    exact hc _ (by omega)
  · rw [List.cons_append, List.cons_append, List.cons_append, List.singleton_append,
      utf8DecodeFrom_cons, utf8Step_start _ _ rfl, startByte_four _ (by omega) (by omega)]
    simp only [List.nil_append]
    rw [utf8DecodeFrom_cons,
      utf8Step_more _ _ (by simp) (by simp only []; split_ifs <;> omega)
        (by simp only []; split_ifs <;> omega) (by simp)]
    simp only [List.nil_append]
    rw [utf8DecodeFrom_cons,
      utf8Step_more _ _ (by simp) (by simp) (by simp only []; omega) (by simp)]
    simp only [List.nil_append]
    rw [utf8DecodeFrom_cons,
      utf8Step_last _ _ (by simp) (by simp) (by simp only []; omega) (by simp)]
    simp only [List.singleton_append, List.cons.injEq, and_true]
    exact hc _ (by omega)

/-- Decoding the UTF-8 bytes of a character list gives the list back. -/
theorem utf8DecodeFrom_encode (l : List Char) :
    Buffer.utf8DecodeFrom {} ((l.map Buffer.utf8EncodeChar).flatten) = l := by
  induction l with
  | nil => rfl
  | cons c l ih =>
    rw [List.map_cons, List.flatten_cons, utf8DecodeFrom_encodeChar, ih]

/-- The string read from the UTF-8 bytes of a string is that string. -/
theorem utf8Decode_utf8Encode (s : String) : Buffer.utf8Decode (Buffer.utf8Encode s) = s := by
  unfold Buffer.utf8Decode Buffer.utf8Encode
  rw [utf8DecodeFrom_encode]

/-- Every UTF-8 byte of a character is below 256. -/
theorem utf8EncodeChar_lt (c : Char) : ∀ b ∈ Buffer.utf8EncodeChar c, b < 256 := by
  have hv := char_scalar c
  intro b hb
  unfold Buffer.utf8EncodeChar at hb
  split_ifs at hb <;> simp only [List.mem_cons, List.mem_singleton, List.not_mem_nil, or_false] at hb <;>
    omega

/-- Every UTF-8 byte of a string is below 256. -/
theorem utf8Encode_lt (s : String) : ∀ b ∈ Buffer.utf8Encode s, b < 256 := by
  intro b hb
  unfold Buffer.utf8Encode at hb
  rw [List.mem_flatten] at hb
  obtain ⟨l, hl, hbl⟩ := hb
  rw [List.mem_map] at hl
  obtain ⟨c, -, rfl⟩ := hl
  exact utf8EncodeChar_lt c b hbl

/-- A 6-bit value is read back from its base64 character, which is not `=`. -/
theorem base64Value_base64Char (n : Nat) (h : n < 64) :
    Buffer.base64Value (Buffer.base64Char n) = some n ∧ (Buffer.base64Char n != '=') = true := by
  interval_cases n <;> exact ⟨rfl, rfl⟩

/-- The 6-bit values of bytes below 256 are below 64, and grouping them back
gives the bytes. -/
theorem unsextets_sextets (bytes : List Nat) (h : ∀ b ∈ bytes, b < 256) :
    (∀ s ∈ Buffer.sextets bytes, s < 64) ∧ Buffer.unsextets (Buffer.sextets bytes) = bytes := by
  induction bytes using Buffer.sextets.induct with
  | case1 a b c rest ih =>
    have ha := h a (by simp)
    have hb := h b (by simp)
    have hc := h c (by simp)
    obtain ⟨ih1, ih2⟩ := ih (fun x hx => h x (by simp [hx]))
    refine ⟨?_, ?_⟩
    · intro s hs
      simp only [Buffer.sextets, List.mem_cons] at hs
      rcases hs with rfl | rfl | rfl | rfl | hs
      · omega
      · omega
      · omega
      · omega
      · exact ih1 s hs
    · simp only [Buffer.sextets, Buffer.unsextets, ih2, List.cons.injEq, and_true]
      refine ⟨by omega, by omega, by omega⟩
  | case2 a b =>
    have ha := h a (by simp)
    have hb := h b (by simp)
    refine ⟨?_, ?_⟩
    · intro s hs
      simp only [Buffer.sextets, List.mem_cons, List.mem_singleton, List.not_mem_nil,
        or_false] at hs
      rcases hs with rfl | rfl | rfl <;> omega
    · simp only [Buffer.sextets, Buffer.unsextets, List.cons.injEq, and_true]
      refine ⟨by omega, by omega⟩
  | case3 a =>
    have ha := h a (by simp)
    refine ⟨?_, ?_⟩
    · intro s hs
      simp only [Buffer.sextets, List.mem_cons, List.mem_singleton, List.not_mem_nil,
        or_false] at hs
      rcases hs with rfl | rfl <;> omega
    · simp only [Buffer.sextets, Buffer.unsextets, List.cons.injEq, and_true]
      omega
  | case4 => exact ⟨by simp [Buffer.sextets], rfl⟩

/-- Reading the characters of 6-bit values, followed by padding, gives the
values. -/
theorem filterMap_takeWhile_base64 (l : List Nat) (h : ∀ s ∈ l, s < 64) (k : Nat) :
    ((l.map Buffer.base64Char ++ List.replicate k '=').takeWhile (fun c => c != '=')).filterMap
      Buffer.base64Value = l := by
  induction l with
  | nil =>
    cases k with
    | zero => rfl
    | succ k => simp [List.replicate_succ]
  | cons s l ih =>
    obtain ⟨h1, h2⟩ := base64Value_base64Char s (h s (by simp))
    rw [List.map_cons, List.cons_append, List.takeWhile_cons, if_pos h2, List.filterMap_cons, h1]
    simp only [List.cons.injEq, true_and]
    exact ih (fun x hx => h x (by simp [hx]))

/-- Decoding the base64 form of bytes below 256 gives the bytes. -/
theorem fromBase64_toBase64 (bytes : List Nat) (h : ∀ b ∈ bytes, b < 256) :
    Buffer.fromBase64 (Buffer.toBase64 bytes) = bytes := by
  obtain ⟨h1, h2⟩ := unsextets_sextets bytes h
  unfold Buffer.fromBase64 Buffer.toBase64
  rw [filterMap_takeWhile_base64 _ h1, h2]

/-- The name is read back from the id of a file. -/
theorem decodeFilename_fileId (filename : String) :
    Download.decodeFilename (ListFiles.fileId filename) = some filename := by
  unfold Download.decodeFilename ListFiles.fileId
  rw [fromBase64_toBase64 _ (utf8Encode_lt filename), utf8Decode_utf8Encode]

/-! ## Claims on file names and file identifiers -/

/-- C18, evaluated: the identifier `Li4vc2VjcmV0LnR4dA==` decodes to the name
`../secret.txt`, which isSafeFilename accepts because its extension is `.txt`
(the value normalizedPath, `secret.txt`, is computed and not read); the path
joined with the downloads directory is `/var/task/secret.txt`, outside the
directory, and the download handler answers 200 with the bytes of that file. -/
theorem isSafeFilename_traversal :
    Download.decodeFilename "Li4vc2VjcmV0LnR4dA==" = some "../secret.txt" ∧
    Download.normalizedPath "../secret.txt" = "secret.txt" ∧
    Download.isSafeFilename "../secret.txt" = true ∧
    Path.join sampleDownloadsDir "../secret.txt" = "/var/task/secret.txt" ∧
    Path.inside sampleDownloadsDir (Path.join sampleDownloadsDir "../secret.txt") = false ∧
    Download.handler sampleWorld sampleConfig sampleFileSystem sampleDownloadsDir 0
        (sampleDownloadEvent "Li4vc2VjcmV0LnR4dA==") =
      { statusCode := 200, body := .file [107, 101, 121, 115] } := by
  set_option maxRecDepth 200000 in decide

/-- C19: isSafeFilename returns true exactly when the lower-cased extension of the
name is one of the 18 allow-listed extensions; a name without extension is
rejected. -/
theorem isSafeFilename_iff (filename : String) :
    (Download.isSafeFilename filename = true ↔
      toLowerCase (Path.extname filename) ∈
        [".pdf", ".zip", ".rar", ".7z", ".doc", ".docx", ".xls", ".xlsx", ".ppt", ".pptx",
          ".jpg", ".jpeg", ".png", ".gif", ".mp4", ".mp3", ".txt", ".md"]) ∧
    Download.allowedExtensions.length = 18 ∧
    (Path.extname filename = "" → Download.isSafeFilename filename = false) := by
  have key : Download.isSafeFilename filename = true ↔
      toLowerCase (Path.extname filename) ∈ Download.allowedExtensions := by
    unfold Download.isSafeFilename
    simp
  refine ⟨key, rfl, ?_⟩
  intro h
  cases hs : Download.isSafeFilename filename with
  | false => rfl
  | true =>
    have hm := key.mp hs
    rw [h] at hm
    exact absurd hm (by decide)

/-- Instance of C19: `Report.PDF` is accepted, `setup.exe` and `README` are
rejected, and `README` has no extension. -/
theorem isSafeFilename_iff_witness :
    Download.isSafeFilename "Report.PDF" = true ∧ Download.isSafeFilename "setup.exe" = false ∧
    Path.extname "README" = "" ∧ Download.isSafeFilename "README" = false :=
  ⟨by decide, by decide, by decide, (isSafeFilename_iff "README").2.2 (by decide)⟩

/-- The entries built for a list of names carry the ids and the names of the
list. -/
theorem fileEntries_spec (fs : FileSystem) (downloadsDir : String) :
    ∀ (files : List String) (entries : List ListFiles.FileEntry),
      ListFiles.fileEntries fs downloadsDir files = some entries →
      ∀ entry ∈ entries, entry.name ∈ files ∧ entry.id = ListFiles.fileId entry.name := by
  intro files
  induction files with
  | nil =>
    intro entries h entry he
    simp only [ListFiles.fileEntries, Option.some.injEq] at h
    rw [← h] at he
    exact absurd he (List.not_mem_nil _)
  | cons filename rest ih =>
    intro entries h entry he
    simp only [ListFiles.fileEntries] at h
    cases h1 : ListFiles.fileEntry fs downloadsDir filename with
    | none => simp [h1] at h
    | some e =>
      cases h2 : ListFiles.fileEntries fs downloadsDir rest with
      | none => simp [h1, h2] at h
      | some es =>
        simp only [h1, h2, Option.some.injEq] at h
        rw [← h] at he
        rcases List.mem_cons.mp he with rfl | he
        · unfold ListFiles.fileEntry at h1
          cases hst : fs.statSync (Path.join downloadsDir filename) with
          | none => simp [hst] at h1
          | some stats =>
            simp only [hst, Option.some.injEq] at h1
            rw [← h1]
            exact ⟨List.mem_cons_self _ _, rfl⟩
        · obtain ⟨h3, h4⟩ := ih es h2 entry he
          exact ⟨List.mem_cons_of_mem _ h3, h4⟩

/-- C20: the file identifier is reversible. For every name, decodeFilename of the
base64 of the name is the name; every entry of getFileList carries a name of
the directory listing and the base64 of that name as id, so decodeFilename of
the entry's id is the entry's name. -/
theorem file_id_reversible (fs : FileSystem) (downloadsDir : String) :
    (∀ filename : String,
      Download.decodeFilename (ListFiles.fileId filename) = some filename) ∧
    (∀ entry ∈ ListFiles.getFileList fs downloadsDir,
      (∃ files, fs.readdirSync downloadsDir = some files ∧ entry.name ∈ files) ∧
      entry.id = ListFiles.fileId entry.name ∧
      Download.decodeFilename entry.id = some entry.name) := by
  refine ⟨decodeFilename_fileId, ?_⟩
  intro entry he
  unfold ListFiles.getFileList at he
  split_ifs at he with hex
  · exact absurd he (List.not_mem_nil _)
  · cases hr : fs.readdirSync downloadsDir with
    | none => simp [hr] at he
    | some files =>
      cases hfe : ListFiles.fileEntries fs downloadsDir files with
      | none => simp [hr, hfe] at he
      | some entries =>
        simp only [hr, hfe, List.mem_insertionSort] at he
        obtain ⟨h1, h2⟩ := fileEntries_spec fs downloadsDir files entries hfe entry he
        refine ⟨⟨files, rfl, h1⟩, h2, ?_⟩
        rw [h2]
        exact decodeFilename_fileId _

/-- Instance of C20: the listing of the sample directory holds the entry of
`report.pdf` with the id `cmVwb3J0LnBkZg==`, and the id decodes to the name. -/
theorem file_id_reversible_witness :
    (ListFiles.getFileList sampleFileSystem sampleDownloadsDir).map (fun e => (e.id, e.name)) =
      [("bm90ZXMudHh0", "notes.txt"), ("cmVwb3J0LnBkZg==", "report.pdf")] ∧
    Download.decodeFilename "cmVwb3J0LnBkZg==" = some "report.pdf" :=
  ⟨by set_option maxRecDepth 200000 in decide,
    ((file_id_reversible sampleFileSystem sampleDownloadsDir).2
      { id := "cmVwb3J0LnBkZg==", name := "report.pdf", size := 3, lastModified := 1000,
        downloadUrl := "/api/download?file=cmVwb3J0LnBkZg==" }
      (by set_option maxRecDepth 200000 in decide)).2.2⟩

/-! ## Claims on the responses of the verify handler -/

/-- C22: the verify handler returns a response for every event. For a POST event
the response is structured (a status among 200, 400, 401, 429, 500 and a
success field); a body that does not parse, like every error caught by the
handler, gives status 500 with success=false and the generic message, and the
details field is present only when NODE_ENV is 'development'. -/
theorem handler_never_throws (w : World) (cfg : Config) (now : Nat) (s : Verify.State)
    (event : Verify.Event) :
    (event.httpMethod = "POST" →
      (Verify.handler w cfg now s event).1.statusCode ∈ [200, 400, 401, 429, 500] ∧
      (Verify.handler w cfg now s event).1.body.success ≠ none) ∧
    (event.httpMethod = "POST" → ∀ message, event.body = .error message →
      (Verify.handler w cfg now s event).1 = Verify.internalError cfg message) ∧
    ((Verify.handler w cfg now s event).1.statusCode = 500 →
      (Verify.handler w cfg now s event).1.body.success = some false ∧
      (Verify.handler w cfg now s event).1.body.error = some "服务器内部错误" ∧
      (Verify.handler w cfg now s event).1.body.token = none ∧
      (cfg.NODE_ENV ≠ some "development" →
        (Verify.handler w cfg now s event).1.body.details = none)) := by
  refine ⟨?_, ?_, ?_⟩
  · intro hm
    cases hb : event.body with
    | error m =>
      have e : Verify.handler w cfg now s event = (Verify.internalError cfg m, s) := by
        simp [Verify.handler, hm, hb]
      rw [e]
      simp [Verify.internalError]
    | ok b =>
      rw [handler_post w cfg now s event b hm hb]
      rcases handlePost_cases w cfg now s event b with
        ⟨-, e⟩ | ⟨-, -, e⟩ | ⟨r, m, -, -, -, e⟩ | ⟨r, m, -, -, -, -, e⟩ |
        ⟨r, m, message, -, -, -, -, -, e⟩ | ⟨r, m, token, -, -, -, -, -, e⟩ <;>
      rw [e] <;>
      simp [Verify.rateLimitedResponse, Verify.unsupportedResponse,
        Verify.proofFailedResponse, Verify.keyMismatchResponse, Verify.internalError,
        Verify.successResponse]
  · intro hm message hb
    simp [Verify.handler, hm, hb]
  · rcases handler_cases w cfg now s event with e | e | ⟨message, e⟩ | ⟨body, -, -, e⟩
    · rw [e]; simp
    · rw [e]; simp
    · rw [e]
      intro _
      refine ⟨rfl, rfl, rfl, fun h => ?_⟩
      simp [Verify.internalError, h]
    · rw [e]
      rcases handlePost_cases w cfg now s event body with
        ⟨-, e⟩ | ⟨-, -, e⟩ | ⟨r, m, -, -, -, e⟩ | ⟨r, m, -, -, -, -, e⟩ |
        ⟨r, m, message, -, -, -, -, -, e⟩ | ⟨r, m, token, -, -, -, -, -, e⟩
      · rw [e]; simp [Verify.rateLimitedResponse]
      · rw [e]; simp [Verify.unsupportedResponse]
      · rw [e]; simp [Verify.proofFailedResponse]
      · rw [e]; simp [Verify.keyMismatchResponse]
      · rw [e]
        intro _
        refine ⟨rfl, rfl, rfl, fun h => ?_⟩
        simp [Verify.internalError, h]
      · rw [e]; simp [Verify.successResponse]

/-- Instance of C22: a POST request whose body is not valid JSON is answered 500
with success=false and no details in production. -/
theorem handler_never_throws_witness :
    (Verify.handler sampleWorld sampleConfig 0 Verify.State.init
        { httpMethod := "POST", body := .error "Unexpected token", clientIp := none,
          xForwardedFor := none }).1 =
      { statusCode := 500
        body := { success := some false, error := some "服务器内部错误",
                  fallbackRecommended := some true } } ∧
    (Verify.handler sampleWorld sampleConfig 0 Verify.State.init
        { httpMethod := "POST", body := .error "Unexpected token", clientIp := none,
          xForwardedFor := none }).1.body.details = none :=
  ⟨by decide,
    ((handler_never_throws sampleWorld sampleConfig 0 Verify.State.init
      { httpMethod := "POST", body := .error "Unexpected token", clientIp := none,
        xForwardedFor := none }).2.2 (by decide)).2.2.2 (by decide)⟩

/-- C23: when the outbound call to the hCaptcha service throws, verifyHCaptcha
returns success=false with fallbackRecommended=true and the verify handler
answers 400 with success=false, fallbackRecommended=true and no token; when the
service answers with a rejection, the handler answers 400 with
fallbackRecommended=false. -/
theorem hcaptcha_failure_response (w : World) (cfg : Config) (now : Nat) (s : Verify.State)
    (event : Verify.Event) (body : Verify.Body) (token : String)
    (hm : event.httpMethod = "POST") (hb : event.body = .ok body)
    (hty : body.captchaType.getD "hcaptcha" = "hcaptcha")
    (htok : body.captchaToken = some token) (hne : token ≠ "")
    (hph : token ≠ "simple_captcha_placeholder")
    (hdev : ¬ (cfg.NODE_ENV = some "development" ∧ token = "test_bypass"))
    (hadm : (Lib.consume s.rateLimiter now (Verify.clientIP event)).2 = .ok ()) :
    (w.siteverify cfg.HCAPTCHA_SECRET token (Verify.clientIP event) = none →
      Verify.verifyHCaptcha w cfg (some token) (Verify.clientIP event) =
        { success := false, error := some "hCaptcha 服务暂时不可用",
          fallbackRecommended := some true } ∧
      (Verify.handler w cfg now s event).1.statusCode = 400 ∧
      (Verify.handler w cfg now s event).1.body.success = some false ∧
      (Verify.handler w cfg now s event).1.body.fallbackRecommended = some true ∧
      (Verify.handler w cfg now s event).1.body.token = none) ∧
    (w.siteverify cfg.HCAPTCHA_SECRET token (Verify.clientIP event) = some false →
      Verify.verifyHCaptcha w cfg (some token) (Verify.clientIP event) = { success := false } ∧
      (Verify.handler w cfg now s event).1.statusCode = 400 ∧
      (Verify.handler w cfg now s event).1.body.success = some false ∧
      (Verify.handler w cfg now s event).1.body.fallbackRecommended = some false ∧
      (Verify.handler w cfg now s event).1.body.token = none) := by
  have hl := (checkRateLimit_allowed_iff now s.rateLimiter (Verify.clientIP event)).mpr hadm
  have hv : ∀ o, w.siteverify cfg.HCAPTCHA_SECRET token (Verify.clientIP event) = o →
      Verify.verifyHCaptcha w cfg (some token) (Verify.clientIP event) =
        match o with
        | some ok => { success := ok }
        | none => { success := false, error := some "hCaptcha 服务暂时不可用",
                    fallbackRecommended := some true } := by
    intro o ho
    unfold Verify.verifyHCaptcha
    have h1 : ¬ (cfg.NODE_ENV = some "development" ∧ some token = some "test_bypass") := by
      simpa using hdev
    rw [if_neg h1]
    have h2 : ¬ ((!truthy (some token) || decide (some token = some "simple_captcha_placeholder"))
        = true) := by
      simp [truthy, hne, hph]
    rw [if_neg h2]
    simp only [Option.getD_some, ho]
  constructor
  · intro hnone
    have hr := hv none hnone
    simp only at hr
    have hd : Verify.dispatchCaptcha w cfg now (body.captchaType.getD "hcaptcha")
        body.captchaToken (Verify.clientIP event) =
        some ({ success := false, error := some "hCaptcha 服务暂时不可用",
                fallbackRecommended := some true }, "fallback_recommended") := by
      simp [Verify.dispatchCaptcha, hty, htok, hr]
    rw [handler_post w cfg now s event body hm hb,
      handlePost_proofFailed w cfg now s event body _ _ hl hd rfl]
    exact ⟨hr, rfl, rfl, rfl, rfl⟩
  · intro hrej
    have hr := hv (some false) hrej
    simp only at hr
    have hd : Verify.dispatchCaptcha w cfg now (body.captchaType.getD "hcaptcha")
        body.captchaToken (Verify.clientIP event) =
        some ({ success := false }, "hcaptcha") := by
      simp [Verify.dispatchCaptcha, hty, htok, hr]
    rw [handler_post w cfg now s event body hm hb,
      handlePost_proofFailed w cfg now s event body _ _ hl hd rfl]
    exact ⟨hr, rfl, rfl, rfl, rfl⟩

/-- Instance of C23: the sample hCaptcha endpoint is unreachable for the token
`down`, and the request is answered 400 with fallbackRecommended=true. -/
theorem hcaptcha_failure_response_witness :
    sampleWorld.siteverify sampleConfig.HCAPTCHA_SECRET "down" "1.1.1.1" = none ∧
    (Verify.handler sampleWorld sampleConfig 0 Verify.State.init
        (sampleEvent "secret123" "down")).1.statusCode = 400 ∧
    (Verify.handler sampleWorld sampleConfig 0 Verify.State.init
        (sampleEvent "secret123" "down")).1.body.fallbackRecommended = some true :=
  ⟨rfl,
    ((hcaptcha_failure_response sampleWorld sampleConfig 0 Verify.State.init
      (sampleEvent "secret123" "down")
      { accessKey := some "secret123", captchaToken := some "down", captchaType := some "hcaptcha" }
      "down" rfl rfl rfl rfl (by decide) (by decide) (by decide) rfl).1 rfl).2.1,
    ((hcaptcha_failure_response sampleWorld sampleConfig 0 Verify.State.init
      (sampleEvent "secret123" "down")
      { accessKey := some "secret123", captchaToken := some "down", captchaType := some "hcaptcha" }
      "down" rfl rfl rfl rfl (by decide) (by decide) (by decide) rfl).1 rfl).2.2.2.1⟩

/-- C25, evaluated: on a server whose ACCESS_KEY_SECRET is not set, a request
whose body holds no accessKey and an accepted proof is answered 200 with a
session token; so is a request with the empty accessKey on a server whose
secret is the empty string. On a server whose secret is a string that is not
empty, a request with a missing or empty accessKey gets no token. -/
theorem missing_key_accepted_when_unset :
    unsetKeyConfig.ACCESS_KEY_SECRET = none ∧
    ((Verify.handler sampleWorld unsetKeyConfig 0 Verify.State.init keylessEvent).1.statusCode,
      (Verify.handler sampleWorld unsetKeyConfig 0 Verify.State.init
        keylessEvent).1.body.token.isSome) = (200, true) ∧
    ((Verify.handler sampleWorld { sampleConfig with ACCESS_KEY_SECRET := some "" } 0
        Verify.State.init (sampleEvent "" "ok")).1.statusCode,
      (Verify.handler sampleWorld { sampleConfig with ACCESS_KEY_SECRET := some "" } 0
        Verify.State.init (sampleEvent "" "ok")).1.body.token.isSome) = (200, true) ∧
    (∀ (w : World) (cfg : Config) (now : Nat) (s : Verify.State) (event : Verify.Event)
        (body : Verify.Body),
      event.body = .ok body → body.accessKey = none ∨ body.accessKey = some "" →
      (∃ k, cfg.ACCESS_KEY_SECRET = some k ∧ k ≠ "") →
      (Verify.handler w cfg now s event).1.body.token = none) := by
  refine ⟨rfl, by decide, by decide, ?_⟩
  intro w cfg now s event body hb hk ⟨k, hsec, hne⟩
  have hkey : Verify.verifyAccessKey cfg body.accessKey = false := by
    unfold Verify.verifyAccessKey
    rw [hsec]
    rcases hk with h | h <;> rw [h]
    · rfl
    · simp [Ne.symm hne]
  cases ht : (Verify.handler w cfg now s event).1.body.token with
  | none => rfl
  | some tok =>
    exfalso
    rcases handler_cases w cfg now s event with e | e | ⟨message, e⟩ | ⟨body2, -, hb2, e⟩
    · rw [e] at ht; simp at ht
    · rw [e] at ht; simp at ht
    · rw [e] at ht; simp [Verify.internalError] at ht
    · rw [hb] at hb2
      injection hb2 with hb2
      subst hb2
      rw [e] at ht
      rcases handlePost_cases w cfg now s event body with
        ⟨-, e⟩ | ⟨-, -, e⟩ | ⟨r, m, -, -, -, e⟩ | ⟨r, m, -, -, -, -, e⟩ |
        ⟨r, m, message, -, -, -, -, -, e⟩ | ⟨r, m, token, -, -, -, hk2, -, e⟩
      · rw [e] at ht; simp [Verify.rateLimitedResponse] at ht
      · rw [e] at ht; simp [Verify.unsupportedResponse] at ht
      · rw [e] at ht; simp [Verify.proofFailedResponse] at ht
      · rw [e] at ht; simp [Verify.keyMismatchResponse] at ht
      · rw [e] at ht; simp [Verify.internalError] at ht
      · rw [hkey] at hk2
        exact Bool.noConfusion hk2

/-- C28: in a 401 response of the verify handler, with n the failure count of the
client identity after this failure, n is at least 1, attemptStore holds n,
attemptsRemaining is 5 - n, and retryAfter is 300 when n is at least 5 and
null otherwise. -/
theorem key_mismatch_fields (w : World) (cfg : Config) (now : Nat) (s : Verify.State)
    (event : Verify.Event)
    (h : (Verify.handler w cfg now s event).1.statusCode = 401) :
    ∃ n : Nat, 1 ≤ n ∧ n = (s.attemptStore (Verify.clientIP event)).getD 0 + 1 ∧
      (Verify.handler w cfg now s event).2.attemptStore (Verify.clientIP event) = some n ∧
      (Verify.handler w cfg now s event).1.body.attemptsRemaining = some (5 - (n : Int)) ∧
      (Verify.handler w cfg now s event).1.body.retryAfter =
        some (if 5 ≤ n then some 300 else none) := by
  refine ⟨(s.attemptStore (Verify.clientIP event)).getD 0 + 1, by omega, rfl, ?_⟩
  rcases handler_cases w cfg now s event with e | e | ⟨message, e⟩ | ⟨body, -, -, e⟩
  · rw [e] at h; simp at h
  · rw [e] at h; simp at h
  · rw [e] at h; simp [Verify.internalError] at h
  · rw [e] at h ⊢
    rcases handlePost_cases w cfg now s event body with
      ⟨-, e⟩ | ⟨-, -, e⟩ | ⟨r, m, -, -, -, e⟩ | ⟨r, m, -, -, -, -, e⟩ |
      ⟨r, m, message, -, -, -, -, -, e⟩ | ⟨r, m, token, -, -, -, -, -, e⟩
    · rw [e] at h; simp [Verify.rateLimitedResponse] at h
    · rw [e] at h; simp [Verify.unsupportedResponse] at h
    · rw [e] at h; simp [Verify.proofFailedResponse] at h
    · rw [e]
      refine ⟨by simp, ?_, ?_⟩
      · simp [Verify.keyMismatchResponse, MAX_ATTEMPTS]
      · simp [Verify.keyMismatchResponse, MAX_ATTEMPTS, COOLDOWN_TIME, ceilSeconds]
    · rw [e] at h; simp [Verify.internalError] at h
    · rw [e] at h; simp [Verify.successResponse] at h

/-- Instance of C28: six wrong keys from `1.1.1.1`, each admitted by the limiter,
are answered with attemptsRemaining 4, 3, 2, 1, 0, -1 and with retryAfter null
four times and then 300 twice. -/
theorem key_mismatch_fields_witness :
    (Verify.serve sampleWorld sampleConfig Verify.State.init sixFailures).1.map
        (fun r => (r.statusCode, r.body.attemptsRemaining, r.body.retryAfter)) =
      [(401, some 4, some none), (401, some 3, some none), (401, some 2, some none),
       (401, some 1, some none), (401, some 0, some (some 300)),
       (401, some (-1), some (some 300))] ∧
    ∃ n : Nat, 1 ≤ n ∧ n = (Verify.State.init.attemptStore "1.1.1.1").getD 0 + 1 ∧
      (Verify.handler sampleWorld sampleConfig 0 Verify.State.init
        (sampleEvent "wrong" "ok")).2.attemptStore "1.1.1.1" = some n ∧
      (Verify.handler sampleWorld sampleConfig 0 Verify.State.init
        (sampleEvent "wrong" "ok")).1.body.attemptsRemaining = some (5 - (n : Int)) ∧
      (Verify.handler sampleWorld sampleConfig 0 Verify.State.init
        (sampleEvent "wrong" "ok")).1.body.retryAfter = some (if 5 ≤ n then some 300 else none) :=
  ⟨by decide,
    key_mismatch_fields sampleWorld sampleConfig 0 Verify.State.init (sampleEvent "wrong" "ok")
      (by decide)⟩

/-! ## Claims on the puzzle-token hash and the token's age -/

/-- One round of the loop of `createSignature` is `h ← 31·h + c` wrapped to 32
bits. -/
theorem hash_round (h : Int) (c : Nat) :
    toInt32 (toInt32 (h * 32) - h + c) = toInt32 (31 * h + c) := by
  unfold toInt32
  omega

/-- The hash of the loop is the fold `h ← 31·h + c` wrapped to 32 bits. -/
theorem hashCode_eq_hash31 (str : String) : Verify.hashCode str = Verify.hash31 (charCodes str) := by
  unfold Verify.hashCode Verify.hash31
  congr 1
  funext h c
  exact hash_round h c

/-- The fold stays a signed 32-bit value. -/
theorem hash31_range (codes : List Nat) :
    -2147483648 ≤ Verify.hash31 codes ∧ Verify.hash31 codes < 2147483648 := by
  have key : ∀ (l : List Nat) (init : Int), -2147483648 ≤ init ∧ init < 2147483648 →
      -2147483648 ≤ l.foldl (fun (h : Int) (c : Nat) => toInt32 (31 * h + c)) init ∧
        l.foldl (fun (h : Int) (c : Nat) => toInt32 (31 * h + c)) init < 2147483648 := by
    intro l
    induction l with
    | nil => intro init h; exact h
    | cons c l ih =>
      intro init _
      rw [List.foldl_cons]
      apply ih
      unfold toInt32
      omega
  exact key codes 0 (by omega)

/-- Core printing in base 16 produces lower-case hexadecimal digits. -/
theorem toDigitsCore_lowerHex (fuel : Nat) :
    ∀ (n : Nat) (ds : List Char), (∀ c ∈ ds, c ∈ Verify.lowerHexDigits) →
      ∀ c ∈ Nat.toDigitsCore 16 fuel n ds, c ∈ Verify.lowerHexDigits := by
  induction fuel with
  | zero => intro n ds h; simpa [Nat.toDigitsCore] using h
  | succ fuel ih =>
    intro n ds h
    have hd : Nat.digitChar (n % 16) ∈ Verify.lowerHexDigits := by
      have hlt : n % 16 < 16 := Nat.mod_lt _ (by omega)
      generalize n % 16 = d at hlt
      interval_cases d <;> decide
    have hds : ∀ c ∈ Nat.digitChar (n % 16) :: ds, c ∈ Verify.lowerHexDigits := by
      intro c hc
      rcases List.mem_cons.mp hc with rfl | hc
      · exact hd
      · exact h c hc
    simp only [Nat.toDigitsCore]
    split_ifs
    · exact hds
    · exact ih _ _ hds

/-- The hexadecimal form is made of lower-case hexadecimal digits and reads back
as the number. -/
theorem toHex_spec (n : Nat) :
    (∀ c ∈ (toHex n).data, c ∈ Verify.lowerHexDigits) ∧ digitsToNat 16 (toHex n).data = n :=
  ⟨toDigitsCore_lowerHex (n + 1) n [] (fun _ h => absurd h (List.not_mem_nil _)),
    (toDigits_spec 16 (by omega) (by omega) n).2.2⟩

/-- The hexadecimal form of a number below 16^8 has at most 8 digits. -/
theorem toHex_length (n : Nat) (h : n < 4294967296) : (toHex n).length ≤ 8 := by
  have := Nat.toDigitsCore_length 16 (by omega) (n + 1) n 8 (by norm_num; exact h) (by omega)
  simpa [toHex, Nat.toDigits] using this

/-- C29: createSignature returns the lower-case hexadecimal form of |H|, where H
is the signed 32-bit value of the fold h ← 31·h + c, wrapped to 32 bits, over
the UTF-16 code units of the string problemId-answer-timestamp-type; the
signature has at most 8 hexadecimal digits; the client computes the same
signature; payloads whose hashes are H and -H share one signature, and so do
payloads whose joined strings coincide. -/
theorem createSignature_spec (problemId : String) (answer timestamp : Int) (type : String) :
    Verify.payloadString problemId answer timestamp type =
      problemId ++ "-" ++ toString answer ++ "-" ++ toString timestamp ++ "-" ++ type ∧
    -2147483648 ≤ Verify.hash31 (charCodes (Verify.payloadString problemId answer timestamp type)) ∧
    Verify.hash31 (charCodes (Verify.payloadString problemId answer timestamp type)) <
      2147483648 ∧
    Verify.createSignature problemId answer timestamp type =
      toHex (Verify.hash31
        (charCodes (Verify.payloadString problemId answer timestamp type))).natAbs ∧
    (∀ c ∈ (Verify.createSignature problemId answer timestamp type).data,
      c ∈ Verify.lowerHexDigits) ∧
    digitsToNat 16 (Verify.createSignature problemId answer timestamp type).data =
      (Verify.hash31
        (charCodes (Verify.payloadString problemId answer timestamp type))).natAbs ∧
    (Verify.createSignature problemId answer timestamp type).length ≤ 8 ∧
    FallbackCaptcha.createSignature
        { problemId := problemId, answer := answer, timestamp := timestamp, type := type } =
      Verify.createSignature problemId answer timestamp type ∧
    (∀ (problemId2 : String) (answer2 timestamp2 : Int) (type2 : String),
      Verify.hash31 (charCodes (Verify.payloadString problemId2 answer2 timestamp2 type2)) =
          -Verify.hash31 (charCodes (Verify.payloadString problemId answer timestamp type)) →
      Verify.createSignature problemId2 answer2 timestamp2 type2 =
        Verify.createSignature problemId answer timestamp type) ∧
    (∀ (problemId2 : String) (answer2 timestamp2 : Int) (type2 : String),
      Verify.payloadString problemId2 answer2 timestamp2 type2 =
          Verify.payloadString problemId answer timestamp type →
      Verify.createSignature problemId2 answer2 timestamp2 type2 =
        Verify.createSignature problemId answer timestamp type) := by
  have hrange := hash31_range (charCodes (Verify.payloadString problemId answer timestamp type))
  have hsig : ∀ (p : String) (a t : Int) (ty : String),
      Verify.createSignature p a t ty =
        toHex (Verify.hash31 (charCodes (Verify.payloadString p a t ty))).natAbs := by
    intro p a t ty
    rw [createSignature_eq, hashCode_eq_hash31]
  refine ⟨rfl, hrange.1, hrange.2, hsig _ _ _ _, ?_, ?_, ?_, rfl, ?_, ?_⟩
  · rw [hsig]
    exact (toHex_spec _).1
  · rw [hsig]
    exact (toHex_spec _).2
  · rw [hsig]
    apply toHex_length
    omega
  · intro p a t ty h
    rw [hsig, hsig, h, Int.natAbs_neg]
  · intro p a t ty h
    rw [hsig, hsig, h]

/-- Instance of C29: the answers 38781 and 27990527 give the hashes -97785746 and
97785746 and the one signature `5d41792`; the payloads (`a-1`, 2, 3, `x`) and
(`a`, 1, 2, `3-x`) are joined to the one string `a-1-2-3-x` and share the
signature `1fcbd0c5`. -/
theorem createSignature_spec_witness :
    Verify.hash31 (charCodes (Verify.payloadString "p1" 38781 0 "math_captcha")) = -97785746 ∧
    Verify.hash31 (charCodes (Verify.payloadString "p1" 27990527 0 "math_captcha")) = 97785746 ∧
    Verify.createSignature "p1" 27990527 0 "math_captcha" = "5d41792" ∧
    Verify.createSignature "p1" 38781 0 "math_captcha" =
      Verify.createSignature "p1" 27990527 0 "math_captcha" ∧
    Verify.payloadString "a" 1 2 "3-x" = "a-1-2-3-x" ∧
    Verify.createSignature "a-1" 2 3 "x" = "1fcbd0c5" ∧
    Verify.createSignature "a" 1 2 "3-x" = Verify.createSignature "a-1" 2 3 "x" :=
  ⟨by set_option maxRecDepth 200000 in decide,
    by set_option maxRecDepth 200000 in decide,
    by set_option maxRecDepth 200000 in decide,
    (createSignature_spec "p1" 27990527 0 "math_captcha").2.2.2.2.2.2.2.2.1 "p1" 38781 0
      "math_captcha" (by set_option maxRecDepth 200000 in decide),
    by set_option maxRecDepth 200000 in decide,
    by set_option maxRecDepth 200000 in decide,
    (createSignature_spec "a-1" 2 3 "x").2.2.2.2.2.2.2.2.2 "a" 1 2 "3-x"
      (by set_option maxRecDepth 200000 in decide)⟩

/-- C30, as the claim states it, fails: a token of type 'math_captcha' with the
matching signature and the timestamp 8640000000000001, later than the current
time 0, is rejected, because `new Date(timestamp).toISOString()` throws. -/
theorem future_token_out_of_range_counterexample :
    farWorld.decode "far" = some farPuzzle ∧
    farPuzzle.type = "math_captcha" ∧
    farPuzzle.sig =
      Verify.createSignature farPuzzle.problemId farPuzzle.answer farPuzzle.timestamp
        farPuzzle.type ∧
    ((0 : Nat) : Int) < farPuzzle.timestamp ∧
    Verify.verifyFallbackCaptcha farWorld 0 (some "far") =
      { success := false, error := some "备用验证失败", fallbackRecommended := some false } := by
  refine ⟨rfl, rfl, rfl, by decide, ?_⟩
  set_option maxRecDepth 200000 in decide

/-- C30, amended: verifyFallbackCaptcha puts no lower bound on the age of a token.
A token of type 'math_captcha' with the matching signature and a timestamp later
than the current time and no later than the largest time value
(8640000000000000) is accepted, and it is accepted at every time up to 300000 ms
after its timestamp; with a timestamp beyond the largest time value it is
rejected at every time. -/
theorem future_token_accepted (w : World) (now : Nat) (token : String) (d : MathToken)
    (hd : w.decode token = some d) (hty : d.type = "math_captcha")
    (hsig : d.sig = Verify.createSignature d.problemId d.answer d.timestamp d.type)
    (hfut : (now : Int) < d.timestamp) :
    (d.timestamp ≤ 8640000000000000 →
      Verify.verifyFallbackCaptcha w now (some token) = { success := true } ∧
      ∀ now2 : Nat, (now2 : Int) ≤ d.timestamp + 300000 →
        Verify.verifyFallbackCaptcha w now2 (some token) = { success := true }) ∧
    (8640000000000000 < d.timestamp →
      ∀ now2 : Nat, (Verify.verifyFallbackCaptcha w now2 (some token)).success = false) := by
  constructor
  · intro hrange
    have key : ∀ n : Nat, (n : Int) - d.timestamp ≤ 300000 →
        Verify.verifyFallbackCaptcha w n (some token) = { success := true } := by
      intro n hn
      apply verifyFallbackCaptcha_success_eq
      exact (verifyFallbackCaptcha_success_iff w n (some token)).mpr
        ⟨d, by simpa using hd, hty, hn, hsig, hrange⟩
    exact ⟨key now (by omega), fun now2 h => key now2 (by omega)⟩
  · intro hfar now2
    cases hs : (Verify.verifyFallbackCaptcha w now2 (some token)).success with
    | false => rfl
    | true =>
      obtain ⟨d2, h1, -, -, -, h5⟩ := (verifyFallbackCaptcha_success_iff w now2 (some token)).mp hs
      simp only [Option.some_bind, hd, Option.some.injEq] at h1
      rw [← h1] at h5
      omega

/-- Instance of C30 amended: a token stamped with the year 2100 is accepted at
time 0. -/
theorem future_token_accepted_witness :
    futureWorld.decode "future" = some futurePuzzle ∧
    ((0 : Nat) : Int) < futurePuzzle.timestamp ∧
    Verify.verifyFallbackCaptcha futureWorld 0 (some "future") = { success := true } :=
  ⟨rfl, by decide,
    ((future_token_accepted futureWorld 0 "future" futurePuzzle rfl rfl rfl (by decide)).1
      (by decide)).1⟩

/-! ## Claims on the download handler -/

/-- C21, as the claim states it, fails: a request without a file parameter and
without an Authorization header is answered 400, not 401; so is a request
without a file parameter that carries a valid token. -/
theorem download_missing_file_counterexample :
    Download.handler sampleWorld sampleConfig sampleFileSystem sampleDownloadsDir 0
        { clientIp := some "1.1.1.1", xForwardedFor := none, authorization := none,
          file := none } =
      { statusCode := 400, body := .text "请指定文件参数" } ∧
    Download.handler sampleWorld sampleConfig sampleFileSystem sampleDownloadsDir 0
        { clientIp := some "1.1.1.1", xForwardedFor := none, authorization := none,
          file := some "" } =
      { statusCode := 400, body := .text "请指定文件参数" } := by
  decide

/-- C21, amended: the download handler answers 200 with file bytes only if the
request names a file, carries a Bearer token that verifyToken accepts for the
caller's identity at the time of the request, and the decoded file name passes
isSafeFilename, exists and is read. A request without a file parameter is
answered 400 before the header is read; otherwise a missing or non-Bearer
header or a rejected token is answered 401; otherwise an empty or disallowed
decoded name is answered 400; otherwise a file that does not exist is answered
404. -/
theorem download_handler_statuses (w : World) (cfg : Config) (fs : FileSystem)
    (downloadsDir : String) (now : Nat) (event : Download.Event) :
    ((Download.handler w cfg fs downloadsDir now event).statusCode = 200 →
      ∃ token encoded filename bytes,
        event.authorization = some (.bearer token) ∧
        (Download.verifyToken w cfg now token (Download.clientIP event)).valid = true ∧
        event.file = some encoded ∧ Download.decodeFilename encoded = some filename ∧
        Download.isSafeFilename filename = true ∧
        fs.existsSync (Path.join downloadsDir filename) = true ∧
        fs.readFileSync (Path.join downloadsDir filename) = some bytes ∧
        (Download.handler w cfg fs downloadsDir now event).body = .file bytes) ∧
    (event.file = none ∨ event.file = some "" →
      (Download.handler w cfg fs downloadsDir now event).statusCode = 400) ∧
    (∀ encoded, event.file = some encoded → encoded ≠ "" →
      (event.authorization = none ∨ (∃ raw, event.authorization = some (.other raw)) →
        (Download.handler w cfg fs downloadsDir now event).statusCode = 401) ∧
      (∀ token, event.authorization = some (.bearer token) →
        ((Download.verifyToken w cfg now token (Download.clientIP event)).valid = false →
          (Download.handler w cfg fs downloadsDir now event).statusCode = 401) ∧
        ((Download.verifyToken w cfg now token (Download.clientIP event)).valid = true →
          ∀ filename, Download.decodeFilename encoded = some filename →
            (filename = "" ∨ Download.isSafeFilename filename = false →
              (Download.handler w cfg fs downloadsDir now event).statusCode = 400) ∧
            (filename ≠ "" → Download.isSafeFilename filename = true →
              fs.existsSync (Path.join downloadsDir filename) = false →
              (Download.handler w cfg fs downloadsDir now event).statusCode = 404)))) := by
  refine ⟨?_, ?_, ?_⟩
  · intro h
    unfold Download.handler at h ⊢
    simp only at h ⊢
    cases hf : event.file with
    | none => simp [hf] at h
    | some encoded =>
      simp only [hf] at h ⊢
      split_ifs at h ⊢ with he
      · simp at h
      · cases ha : event.authorization with
        | none => simp [ha] at h
        | some a =>
          cases a with
          | other raw => simp [ha] at h
          | bearer token =>
            simp only [ha] at h ⊢
            split_ifs at h ⊢ with hv
            · simp at h
            · cases hdec : Download.decodeFilename encoded with
              | none => simp [hdec] at h
              | some filename =>
                simp only [hdec] at h ⊢
                split_ifs at h ⊢ with hs hex
                · simp at h
                · simp at h
                · cases hr : fs.readFileSync (Path.join downloadsDir filename) with
                  | none => simp [hr] at h
                  | some bytes =>
                    cases hst : fs.statSync (Path.join downloadsDir filename) with
                    | none => simp [hr, hst] at h
                    | some st =>
                      have hs2 : ¬filename = "" ∧ Download.isSafeFilename filename = true := by
                        simpa using hs
                      refine ⟨token, encoded, filename, bytes, rfl, ?_, rfl, hdec, hs2.2, ?_,
                        hr, ?_⟩
                      · simpa [Download.clientIP] using hv
                      · simpa using hex
                      · simp [hr, hst]
  · intro hf
    unfold Download.handler
    rcases hf with hf | hf <;> simp [hf]
  · intro encoded hf hne
    refine ⟨?_, ?_⟩
    · intro ha
      unfold Download.handler
      rcases ha with ha | ⟨raw, ha⟩ <;> simp [hf, hne, ha]
    · intro token ha
      refine ⟨?_, ?_⟩
      · intro hv
        unfold Download.handler
        simp only [Download.clientIP] at hv
        simp [hf, hne, ha, hv]
      · intro hv filename hdec
        simp only [Download.clientIP] at hv
        refine ⟨?_, ?_⟩
        · intro hbad
          unfold Download.handler
          rcases hbad with hbad | hbad <;> simp [hf, hne, ha, hv, hdec, hbad]
        · intro hfn hs hex
          unfold Download.handler
          simp [hf, hne, ha, hv, hdec, hfn, hs, hex]

/-- Instance of C21 amended: the sample token from `1.1.1.1` and the identifier of
`report.pdf` are answered 200 with the bytes of the file at time 0, and the
same request is answered 401 once the token has expired. -/
theorem download_handler_statuses_witness :
    Download.handler sampleWorld sampleConfig sampleFileSystem sampleDownloadsDir 0
        (sampleDownloadEvent "cmVwb3J0LnBkZg==") =
      { statusCode := 200, body := .file [37, 80, 68] } ∧
    Download.handler sampleWorld sampleConfig sampleFileSystem sampleDownloadsDir 1800000
        (sampleDownloadEvent "cmVwb3J0LnBkZg==") =
      { statusCode := 401, body := .refusal "验证失败" (some "jwt expired") } ∧
    ∃ token encoded filename bytes,
      (sampleDownloadEvent "cmVwb3J0LnBkZg==").authorization = some (.bearer token) ∧
      (Download.verifyToken sampleWorld sampleConfig 0 token
        (Download.clientIP (sampleDownloadEvent "cmVwb3J0LnBkZg=="))).valid = true ∧
      (sampleDownloadEvent "cmVwb3J0LnBkZg==").file = some encoded ∧
      Download.decodeFilename encoded = some filename ∧
      Download.isSafeFilename filename = true ∧
      sampleFileSystem.existsSync (Path.join sampleDownloadsDir filename) = true ∧
      sampleFileSystem.readFileSync (Path.join sampleDownloadsDir filename) = some bytes ∧
      (Download.handler sampleWorld sampleConfig sampleFileSystem sampleDownloadsDir 0
        (sampleDownloadEvent "cmVwb3J0LnBkZg==")).body = .file bytes :=
  ⟨by set_option maxRecDepth 200000 in decide,
    by set_option maxRecDepth 200000 in decide,
    (download_handler_statuses sampleWorld sampleConfig sampleFileSystem sampleDownloadsDir 0
      (sampleDownloadEvent "cmVwb3J0LnBkZg==")).1 (by set_option maxRecDepth 200000 in decide)⟩

/-! ## Claims on the client (verification.js) -/

/-- The decimal numeral of an integer is a truthy string. -/
theorem truthy_toString_int (n : Int) : truthy (some (toString n)) = true := by
  have h := toString_int_ne_nil n
  have : toString n ≠ "" := fun e => h (by rw [e])
  simp [truthy, this]

/-- Calls of `recordFailedAttempt` add their number to a count that is a number
and leave the limits alone. -/
theorem recordAll_attempts (times : List Nat) :
    ∀ (self : Verification.Client) (a : Int), self.verificationState.attempts = some a →
      (Verification.recordAll self times).verificationState.attempts =
          some (a + times.length) ∧
        (Verification.recordAll self times).verificationState.maxAttempts =
          self.verificationState.maxAttempts ∧
        (Verification.recordAll self times).verificationState.cooldownTime =
          self.verificationState.cooldownTime := by
  induction times with
  | nil => intro self a h; simp [Verification.recordAll, h]
  | cons t times ih =>
    intro self a h
    have h1 : (Verification.recordFailedAttempt t self).verificationState.attempts =
        some (a + 1) := by
      simp [Verification.recordFailedAttempt, h]
    obtain ⟨e1, e2, e3⟩ := ih (Verification.recordFailedAttempt t self) (a + 1) h1
    have e : Verification.recordAll self (t :: times) =
        Verification.recordAll (Verification.recordFailedAttempt t self) times := rfl
    rw [e, e1, e2, e3]
    refine ⟨?_, rfl, rfl⟩
    simp only [List.length_cons, Nat.cast_add, Nat.cast_one, Option.some.injEq]
    omega

/-- The client after a last call of `recordFailedAttempt` at time `t`: the count
and the time are in `verificationState` and, as numerals, in `localStorage`. -/
theorem recordAll_snoc (self : Verification.Client) (a : Int) (times : List Nat) (t : Nat)
    (h : self.verificationState.attempts = some a) :
    Verification.recordAll self (times ++ [t]) =
      { verificationState :=
          { (Verification.recordAll self times).verificationState with
            attempts := some (a + times.length + 1), lastAttempt := some (t : Int) }
        localStorage :=
          { (Verification.recordAll self times).localStorage with
            verification_attempts := some (toString (a + times.length + 1))
            last_attempt := some (toString (t : Int)) } } := by
  have e : Verification.recordAll self (times ++ [t]) =
      Verification.recordFailedAttempt t (Verification.recordAll self times) := by
    simp [Verification.recordAll, List.foldl_append]
  rw [e]
  unfold Verification.recordFailedAttempt
  rw [(recordAll_attempts times self a h).1]
  rfl

/-- The check on a client whose stored numerals are those of its count `n` and
its last time `t`, with the limits 5 and 300000. -/
theorem checkRateLimit_consistent (now : Nat) (self : Verification.Client) (n t : Int)
    (ha : self.verificationState.attempts = some n)
    (hl : self.verificationState.lastAttempt = some t)
    (hm : self.verificationState.maxAttempts = 5)
    (hc : self.verificationState.cooldownTime = 300000)
    (hsa : self.localStorage.verification_attempts = some (toString n))
    (hsl : self.localStorage.last_attempt = some (toString t)) :
    Verification.checkRateLimit now self =
      if 5 ≤ n then
        if (now : Int) - t < 300000 then (false, self) else (true, Verification.resetAttempts self)
      else (true, self) := by
  obtain ⟨⟨v1, v2, v3, v4, v5, v6, v7, v8⟩, ⟨s1, s2, s3, s4⟩⟩ := self
  simp only at ha hl hm hc hsa hsl
  subst ha hl hm hc hsa hsl
  unfold Verification.checkRateLimit
  simp only [truthy_toString_int, and_self, if_true, Option.getD_some,
    parseInt_toString, Option.map_some', Verification.numGe, Verification.numLt]
  by_cases h5 : 5 ≤ n
  · by_cases hw : (now : Int) - t < 300000
    · simp [h5, hw]
    · simp [h5, hw]
  · simp [h5]

/-- C26: starting from zero, after 5 calls of recordFailedAttempt (the last at time
t) checkRateLimit at time now returns false exactly while now - t < 300000 and
then leaves the client as it is; once now - t ≥ 300000 it returns true, sets
attempts and lastAttempt to 0 and removes the stored values; after 1 to 4
calls, and after none, it returns true and leaves the count unchanged. -/
theorem client_lockout (times : List Nat) (t now : Nat) :
    (times.length = 4 →
      ((Verification.checkRateLimit now
          (Verification.recordAll Verification.Client.init (times ++ [t]))).1 = false ↔
        (now : Int) - t < 300000) ∧
      ((now : Int) - t < 300000 →
        (Verification.checkRateLimit now
          (Verification.recordAll Verification.Client.init (times ++ [t]))).2 =
          Verification.recordAll Verification.Client.init (times ++ [t])) ∧
      (300000 ≤ (now : Int) - t →
        (Verification.checkRateLimit now
          (Verification.recordAll Verification.Client.init (times ++ [t]))).1 = true ∧
        (Verification.checkRateLimit now
          (Verification.recordAll Verification.Client.init
            (times ++ [t]))).2.verificationState.attempts = some 0 ∧
        (Verification.checkRateLimit now
          (Verification.recordAll Verification.Client.init
            (times ++ [t]))).2.verificationState.lastAttempt = some 0 ∧
        (Verification.checkRateLimit now
          (Verification.recordAll Verification.Client.init
            (times ++ [t]))).2.localStorage.verification_attempts = none ∧
        (Verification.checkRateLimit now
          (Verification.recordAll Verification.Client.init
            (times ++ [t]))).2.localStorage.last_attempt = none)) ∧
    (times.length < 4 →
      Verification.checkRateLimit now
          (Verification.recordAll Verification.Client.init (times ++ [t])) =
        (true, Verification.recordAll Verification.Client.init (times ++ [t])) ∧
      (Verification.recordAll Verification.Client.init
        (times ++ [t])).verificationState.attempts = some ((times.length : Int) + 1)) ∧
    Verification.checkRateLimit now Verification.Client.init =
      (true, Verification.Client.init) := by
  have hsn := recordAll_snoc Verification.Client.init 0 times t rfl
  obtain ⟨-, hmax, hcool⟩ := recordAll_attempts times Verification.Client.init 0 rfl
  have hchk := checkRateLimit_consistent now
    (Verification.recordAll Verification.Client.init (times ++ [t]))
    ((times.length : Int) + 1) t
    (by rw [hsn]; simp) (by rw [hsn]) (by rw [hsn]; exact hmax) (by rw [hsn]; exact hcool)
    (by rw [hsn]; simp) (by rw [hsn])
  refine ⟨?_, ?_, rfl⟩
  · intro hlen
    have h5 : (5 : Int) ≤ (times.length : Int) + 1 := by omega
    rw [hchk, if_pos h5]
    refine ⟨?_, ?_, ?_⟩
    · by_cases hw : (now : Int) - t < 300000
      · simp [hw]
      · simp [hw]
    · intro hw
      rw [if_pos hw]
    · intro hw
      rw [if_neg (by omega)]
      exact ⟨rfl, rfl, rfl, rfl, rfl⟩
  · intro hlen
    have h5 : ¬ (5 : Int) ≤ (times.length : Int) + 1 := by omega
    rw [hchk, if_neg h5]
    refine ⟨rfl, ?_⟩
    rw [hsn]
    simp

/-- Instance of C26: after failures at times 1 to 5 the check is blocked at time
300004 and open again, with a cleared count, at time 300005; after failures at
times 1 to 4 it is open. -/
theorem client_lockout_witness :
    ((Verification.checkRateLimit 300004
        (Verification.recordAll Verification.Client.init ([1, 2, 3, 4] ++ [5]))).1 = false ↔
      ((300004 : Nat) : Int) - (5 : Nat) < 300000) ∧
    (Verification.checkRateLimit 300005
        (Verification.recordAll Verification.Client.init ([1, 2, 3, 4] ++ [5]))).1 = true ∧
    Verification.checkRateLimit 9
        (Verification.recordAll Verification.Client.init ([1, 2, 3] ++ [4])) =
      (true, Verification.recordAll Verification.Client.init ([1, 2, 3] ++ [4])) :=
  ⟨((client_lockout [1, 2, 3, 4] 5 300004).1 rfl).1,
    (((client_lockout [1, 2, 3, 4] 5 300005).1 rfl).2.2 (by decide)).1,
    ((client_lockout [1, 2, 3] 4 9).2.1 (by decide)).1⟩

/-- C24: in the client's verifyAccessKey, when no verification is running and the
trimmed access key is empty or getCurrentCaptchaToken returns null, no request
is sent, isVerifying stays false, the count of failed attempts and its stored
value are unchanged; the client as a whole is unchanged. -/
theorem verifyAccessKey_local_reject (now : Nat) (self : Verification.Client)
    (accessKeyInput : String) (fallbackToken : Option String)
    (hidle : self.verificationState.isVerifying = false)
    (h : String.mk (trim accessKeyInput.data) = "" ∨
      Verification.getCurrentCaptchaToken self fallbackToken = none) :
    (Verification.verifyAccessKey now self accessKeyInput fallbackToken).2 = none ∧
    (Verification.verifyAccessKey now self accessKeyInput
      fallbackToken).1.verificationState.isVerifying = false ∧
    (Verification.verifyAccessKey now self accessKeyInput
      fallbackToken).1.verificationState.attempts = self.verificationState.attempts ∧
    (Verification.verifyAccessKey now self accessKeyInput
      fallbackToken).1.localStorage.verification_attempts =
        self.localStorage.verification_attempts ∧
    (Verification.verifyAccessKey now self accessKeyInput fallbackToken).1 = self := by
  have e : Verification.verifyAccessKey now self accessKeyInput fallbackToken = (self, none) := by
    unfold Verification.verifyAccessKey
    rcases h with h | h
    · simp [h]
    · simp [h]
  rw [e]
  exact ⟨rfl, hidle, rfl, rfl, rfl⟩

/-- Instance of C24: a fresh client sends nothing for a key of two blanks, and
nothing for the key secret123 while no proof has been obtained. -/
theorem verifyAccessKey_local_reject_witness :
    String.mk (trim "  ".data) = "" ∧
    Verification.verifyAccessKey 7 Verification.Client.init "  " (some "handle") =
      (Verification.Client.init, none) ∧
    Verification.getCurrentCaptchaToken Verification.Client.init none = none ∧
    (Verification.verifyAccessKey 7 Verification.Client.init "secret123" none).2 = none :=
  ⟨by decide,
    Prod.ext
      (verifyAccessKey_local_reject 7 Verification.Client.init "  " (some "handle") rfl
        (Or.inl (by decide))).2.2.2.2
      (verifyAccessKey_local_reject 7 Verification.Client.init "  " (some "handle") rfl
        (Or.inl (by decide))).1,
    rfl,
    (verifyAccessKey_local_reject 7 Verification.Client.init "secret123" none rfl
      (Or.inr rfl)).1⟩

/-- C27, evaluated: the server answers a request whose proof hCaptcha rejects with
400 and the sixth request of a burst with 429, neither a key mismatch, and its
own count of failures for the caller stays absent; a fresh client that handles
either response body has its count raised from 0 to 1 and stores the numeral 1,
and after five rejected proofs the client's checkRateLimit blocks the next
attempt. For every response whose success is not true the client raises its
count by one, sets lastAttempt to the clock and stores the new count; a
response whose success is true sets both to 0 and removes the stored count. -/
theorem client_counts_proof_failure :
    (Verify.handler sampleWorld sampleConfig 0 Verify.State.init
      (sampleEvent "secret123" "bad")).1.statusCode = 400 ∧
    (Verify.handler sampleWorld sampleConfig 0 Verify.State.init
      (sampleEvent "secret123" "bad")).2.attemptStore "1.1.1.1" = none ∧
    ((Verify.serve sampleWorld sampleConfig Verify.State.init sampleBurst).1.map
      (fun r => r.statusCode)) = [200, 200, 200, 200, 200, 429] ∧
    Verification.Client.init.verificationState.attempts = some 0 ∧
    Verification.Client.init.localStorage.verification_attempts = none ∧
    (Verification.handleVerificationResponse 7 Verification.Client.init
      (Verify.handler sampleWorld sampleConfig 0 Verify.State.init
        (sampleEvent "secret123" "bad")).1.body).verificationState.attempts = some 1 ∧
    (Verification.handleVerificationResponse 7 Verification.Client.init
      (Verify.handler sampleWorld sampleConfig 0 Verify.State.init
        (sampleEvent "secret123" "bad")).1.body).localStorage.verification_attempts =
          some "1" ∧
    ((Verify.serve sampleWorld sampleConfig Verify.State.init sampleBurst).1.map
      (fun r => (Verification.handleVerificationResponse 7 Verification.Client.init
        r.body).verificationState.attempts)).getLast? = some (some 1) ∧
    ((Verify.serve sampleWorld sampleConfig Verify.State.init sampleBurst).1.map
      (fun r => (Verification.handleVerificationResponse 7 Verification.Client.init
        r.body).localStorage.verification_attempts)).getLast? = some (some "1") ∧
    (Verification.checkRateLimit 6
      ([1, 2, 3, 4, 5].foldl
        (fun client now => Verification.handleVerificationResponse now client
          (Verify.handler sampleWorld sampleConfig 0 Verify.State.init
            (sampleEvent "secret123" "bad")).1.body)
        Verification.Client.init)).1 = false ∧
    (∀ (now : Nat) (self : Verification.Client) (data : Verify.ResponseBody),
      data.success ≠ some true →
      (Verification.handleVerificationResponse now self data).verificationState.attempts =
        self.verificationState.attempts.map (fun a => a + 1) ∧
      (Verification.handleVerificationResponse now self data).verificationState.lastAttempt =
        some (now : Int) ∧
      (Verification.handleVerificationResponse now self
        data).localStorage.verification_attempts =
        some (Verification.numToString
          (self.verificationState.attempts.map (fun a => a + 1)))) ∧
    (∀ (now : Nat) (self : Verification.Client) (data : Verify.ResponseBody),
      data.success = some true →
      (Verification.handleVerificationResponse now self data).verificationState.attempts =
        some 0 ∧
      (Verification.handleVerificationResponse now self data).verificationState.lastAttempt =
        some 0 ∧
      (Verification.handleVerificationResponse now self
        data).localStorage.verification_attempts = none) := by
  refine ⟨by decide, by decide, by decide, rfl, rfl,
    by set_option maxRecDepth 200000 in decide, by set_option maxRecDepth 200000 in decide,
    by set_option maxRecDepth 200000 in decide, by set_option maxRecDepth 200000 in decide,
    by set_option maxRecDepth 200000 in decide, ?_, ?_⟩
  · intro now self data h
    unfold Verification.handleVerificationResponse
    rw [if_neg h]
    unfold Verification.handleErrorResponse Verification.resetCaptcha
    split <;> exact ⟨rfl, rfl, rfl⟩
  · intro now self data h
    unfold Verification.handleVerificationResponse
    rw [if_pos h]
    exact ⟨rfl, rfl, rfl⟩

/-! ## The puzzle token between the client and the server -/

/-- The UTF-8 bytes of a list of ASCII characters are their codes. -/
theorem utf8Encode_ascii (l : List Char) (h : ∀ c ∈ l, c.toNat < 128) :
    Buffer.utf8Encode (String.mk l) = l.map Char.toNat := by
  unfold Buffer.utf8Encode
  induction l with
  | nil => rfl
  | cons a t ih =>
    have ha := h a (List.mem_cons_self a t)
    have iht := ih (fun c hc => h c (List.mem_cons_of_mem a hc))
    simp only [List.map_cons, List.flatten_cons] at iht ⊢
    rw [iht]
    simp [Buffer.utf8EncodeChar, ha]

/-- The call `btoa` on ASCII text does not throw, and the server's
`Buffer.from(..., 'base64').toString()` reads the text back. -/
theorem base64_ascii (l : List Char) (h : ∀ c ∈ l, c.toNat < 128) :
    btoa l = some (Buffer.toBase64 (l.map Char.toNat)) ∧
    Buffer.utf8Decode (Buffer.fromBase64 (Buffer.toBase64 (l.map Char.toNat))) = String.mk l := by
  constructor
  · unfold btoa
    rw [if_pos]
    rw [List.all_eq_true]
    intro c hc
    have := h c hc
    simp only [decide_eq_true_eq]
    omega
  · rw [fromBase64_toBase64, ← utf8Encode_ascii l h, utf8Decode_utf8Encode]
    rw [← utf8Encode_ascii l h]
    exact utf8Encode_lt _

/-- The digits of a base up to 16 are ASCII characters. -/
theorem digitChar_ascii (d : Nat) (h : d < 16) : (Nat.digitChar d).toNat < 128 := by
  interval_cases d <;> decide

/-- A digit of a radix is an ASCII character. -/
theorem isRadixDigit_ascii (radix : Nat) (c : Char) (h : isRadixDigit radix c = true) :
    c.toNat < 128 := by
  unfold isRadixDigit digitValue at h
  split_ifs at h with h1 h2 h3
  · omega
  · omega
  · omega

/-- The text written for an ASCII character is ASCII. -/
theorem quoteChar_ascii (c : Char) (h : c.toNat < 128) : ∀ x ∈ Json.quoteChar c, x.toNat < 128 := by
  intro x hx
  unfold Json.quoteChar at hx
  split_ifs at hx with h1 h2 h3 h4 h5 h6 h7 h8
  all_goals simp only [List.mem_cons, List.mem_singleton, List.not_mem_nil, or_false] at hx
  · rcases hx with rfl | rfl <;> decide
  · rcases hx with rfl | rfl <;> decide
  · rcases hx with rfl | rfl <;> decide
  · rcases hx with rfl | rfl <;> decide
  · rcases hx with rfl | rfl <;> decide
  · rcases hx with rfl | rfl <;> decide
  · rcases hx with rfl | rfl <;> decide
  · rcases hx with rfl | rfl | rfl | rfl | rfl | rfl
    · decide
    · decide
    · decide
    · decide
    · exact digitChar_ascii _ (by omega)
    · exact digitChar_ascii _ (by omega)
  · rw [hx]; exact h

/-- The text written for an ASCII string is ASCII. -/
theorem quote_ascii (s : String) (h : ∀ c ∈ s.data, c.toNat < 128) :
    ∀ x ∈ Json.quote s, x.toNat < 128 := by
  intro x hx
  unfold Json.quote at hx
  simp only [List.mem_cons, List.mem_append, List.mem_flatten, List.mem_map, List.mem_singleton,
    List.not_mem_nil, or_false] at hx
  rcases hx with rfl | ⟨l, ⟨c, hc, rfl⟩, hxl⟩ | rfl
  · decide
  · exact quoteChar_ascii c (h c hc) x hxl
  · decide

/-- The decimal numeral of an integer is ASCII. -/
theorem numeral_ascii (n : Int) : ∀ x ∈ Json.numeral n, x.toNat < 128 := by
  intro x hx
  unfold Json.numeral at hx
  rw [toString_int_data] at hx
  cases n with
  | ofNat m =>
    exact isRadixDigit_ascii 10 x ((toDigits_spec 10 (by omega) (by omega) m).1 x hx)
  | negSucc m =>
    simp only [List.mem_cons] at hx
    rcases hx with rfl | hx
    · decide
    · exact isRadixDigit_ascii 10 x ((toDigits_spec 10 (by omega) (by omega) (m + 1)).1 x hx)

/-- The hexadecimal digits of a code below 32 read back as the code. -/
theorem hexValue_digitChar (d : Nat) (h : d < 16) : Json.hexValue (Nat.digitChar d) = some d := by
  unfold Json.hexValue
  rw [digitValue_digitChar d h]
  simp [h]

/-- Reading the text written for one ASCII character gives its code unit. -/
theorem readUnits_quoteChar (c : Char) (hc : c.toNat < 128) (fuel : Nat) (tail : List Char) :
    Json.readUnits (fuel + 1) (Json.quoteChar c ++ tail) =
      match Json.readUnits fuel tail with
      | some (us, rest) => some (c.toNat :: us, rest)
      | none => none := by
  unfold Json.quoteChar
  split_ifs with h1 h2 h3 h4 h5 h6 h7 h8
  · simp [Json.readUnits, Json.readEscape, h1]
  · simp [Json.readUnits, Json.readEscape, h2]
  · simp [Json.readUnits, Json.readEscape, h3]
  · simp [Json.readUnits, Json.readEscape, h4]
  · simp [Json.readUnits, Json.readEscape, h5]
  · simp [Json.readUnits, Json.readEscape, h6]
  · simp [Json.readUnits, Json.readEscape, h7]
  · have e0 : Json.hexValue '0' = some 0 := by decide
    have e1 := hexValue_digitChar (c.toNat / 16) (by omega)
    have e2 := hexValue_digitChar (c.toNat % 16) (by omega)
    have e3 : c.toNat / 16 * 16 + c.toNat % 16 = c.toNat := by omega
    simp [Json.readUnits, Json.readEscape, e0, e1, e2, e3]
  · have e : utf16 c = [c.toNat] := by
      unfold utf16
      rw [if_pos (by omega)]
    simp [Json.readUnits, h1, h2, h8, e]

/-- Reading the text written for an ASCII string, after the opening quote, gives
its code units and stops after the closing quote. -/
theorem readUnits_quote (s : List Char) (hs : ∀ c ∈ s, c.toNat < 128) :
    ∀ (fuel : Nat) (rest : List Char), s.length + 1 ≤ fuel →
      Json.readUnits fuel ((s.map Json.quoteChar).flatten ++ '"' :: rest) =
        some (s.map Char.toNat, rest) := by
  induction s with
  | nil =>
    intro fuel rest hf
    obtain ⟨f, rfl⟩ : ∃ f, fuel = f + 1 := ⟨fuel - 1, by simp at hf; omega⟩
    simp [Json.readUnits]
  | cons a t ih =>
    intro fuel rest hf
    obtain ⟨f, rfl⟩ : ∃ f, fuel = f + 1 := ⟨fuel - 1, by simp at hf; omega⟩
    simp only [List.map_cons, List.flatten_cons, List.append_assoc]
    rw [readUnits_quoteChar a (hs a (List.mem_cons_self a t)),
      ih (fun c hc => hs c (List.mem_cons_of_mem a hc)) f rest (by simp at hf; omega)]

/-- The code units of an ASCII string are the string. -/
theorem fromUnits_ascii (s : List Char) (hs : ∀ c ∈ s, c.toNat < 128) :
    Json.fromUnits (s.map Char.toNat) = some s := by
  induction s with
  | nil => rfl
  | cons a t ih =>
    have ha := hs a (List.mem_cons_self a t)
    have iht := ih (fun c hc => hs c (List.mem_cons_of_mem a hc))
    cases t with
    | nil =>
      simp only [List.map_cons, List.map_nil, Json.fromUnits]
      rw [if_neg (by omega), Char.ofNat_toNat]
    | cons b u =>
      simp only [List.map_cons] at iht ⊢
      unfold Json.fromUnits
      rw [if_neg (by omega), if_neg (by omega), iht, Char.ofNat_toNat]

/-- Reading the text written for an ASCII string gives the string. -/
theorem readString_quote (s : List Char) (hs : ∀ c ∈ s, c.toNat < 128) (fuel : Nat)
    (rest : List Char) (hf : s.length + 1 ≤ fuel) :
    Json.readString fuel ((s.map Json.quoteChar).flatten ++ '"' :: rest) =
      some (String.mk s, rest) := by
  unfold Json.readString
  rw [readUnits_quote s hs fuel rest hf]
  simp only
  rw [fromUnits_ascii s hs]

/-- A non-zero digit is not the character `0`. -/
theorem digitChar_ne_zero (d : Nat) (h0 : d ≠ 0) (h : d < 10) : Nat.digitChar d ≠ '0' := by
  interval_cases d <;> first | exact absurd rfl h0 | decide

/-- Core printing of a number that is not 0 does not start with the digit `0`. -/
theorem toDigitsCore_head (fuel : Nat) :
    ∀ (n : Nat) (ds : List Char), n ≠ 0 → n < fuel →
      (Nat.toDigitsCore 10 fuel n ds).head? ≠ some '0' := by
  induction fuel with
  | zero => intro n ds _ h; omega
  | succ fuel ih =>
    intro n ds h0 hf
    unfold Nat.toDigitsCore
    by_cases hq : n / 10 = 0
    · simp only [hq, if_true, List.head?_cons, ne_eq, Option.some.injEq]
      have hn : n % 10 = n := Nat.mod_eq_of_lt (by omega)
      rw [hn]
      exact digitChar_ne_zero n h0 (by omega)
    · simp only [hq, if_false]
      exact ih (n / 10) _ hq (by omega)

/-- The decimal numeral of a natural number has no digit after a first `0`. -/
theorem toDigits_no_leading_zero (m : Nat) :
    ¬ ((Nat.toDigits 10 m).head? = some '0' ∧ 1 < (Nat.toDigits 10 m).length) := by
  by_cases h0 : m = 0
  · subst h0
    decide
  · intro h
    exact toDigitsCore_head (m + 1) m [] h0 (Nat.lt_succ_self m) h.1

/-- A number literal that is the decimal numeral of a natural number, followed by
a comma or a closing brace, reads as that number. -/
theorem readUnsigned_toDigits (m : Nat) (sep : Char) (rest : List Char)
    (hsep : sep.toNat = 44 ∨ sep.toNat = 125) :
    Json.readUnsigned (Nat.toDigits 10 m ++ sep :: rest) = some (m, 0, sep :: rest) := by
  obtain ⟨h1, h2, h3⟩ := toDigits_spec 10 (by omega) (by omega) m
  have hd : isRadixDigit 10 sep = false := by
    unfold isRadixDigit digitValue
    rcases hsep with h | h <;> simp [h]
  have ht : (Nat.toDigits 10 m ++ sep :: rest).takeWhile (isRadixDigit 10) = Nat.toDigits 10 m := by
    rw [List.takeWhile_append_of_pos h1]
    simp [List.takeWhile_cons, hd]
  have hdr : (Nat.toDigits 10 m ++ sep :: rest).dropWhile (isRadixDigit 10) = sep :: rest := by
    rw [List.dropWhile_append_of_pos h1]
    simp [List.dropWhile_cons, hd]
  have hdot : sep ≠ '.' := by
    rintro rfl
    rcases hsep with h | h <;> exact absurd h (by decide)
  have he : ¬ (sep = 'e' ∨ sep = 'E') := by
    rintro (rfl | rfl) <;> rcases hsep with h | h <;> exact absurd h (by decide)
  unfold Json.readUnsigned
  simp only [ht, hdr, h2, if_false, toDigits_no_leading_zero m, Json.readFraction, hdot,
    Json.readExponent, he, h3]
  simp

/-- A number literal that is the decimal numeral of an integer, followed by a
comma or a closing brace, reads as that integer with exponent 0. -/
theorem readNumber_numeral (n : Int) (sep : Char) (rest : List Char)
    (hsep : sep.toNat = 44 ∨ sep.toNat = 125) :
    Json.readNumber (Json.numeral n ++ sep :: rest) = some (.num n 0, sep :: rest) := by
  unfold Json.numeral
  rw [toString_int_data]
  cases n with
  | ofNat m =>
    obtain ⟨h1, h2, -⟩ := toDigits_spec 10 (by omega) (by omega) m
    obtain ⟨a, t, hat⟩ : ∃ a t, Nat.toDigits 10 m = a :: t := by
      cases h : Nat.toDigits 10 m with
      | nil => exact absurd h h2
      | cons a t => exact ⟨a, t, rfl⟩
    have ha : a ≠ '-' := by
      rintro rfl
      have := h1 '-' (by rw [hat]; exact List.mem_cons_self _ _)
      exact absurd this (by decide)
    have hr := readUnsigned_toDigits m sep rest hsep
    simp only [hat, List.cons_append] at hr ⊢
    unfold Json.readNumber
    simp only [ha, if_false, hr]
    rfl
  | negSucc m =>
    have hr := readUnsigned_toDigits (m + 1) sep rest hsep
    simp only [List.cons_append]
    unfold Json.readNumber
    simp only [if_true, hr]
    rfl

/-- The first character of the decimal numeral of an integer is a digit or the
minus sign. -/
theorem numeral_head (n : Int) :
    ∃ a t, Json.numeral n = a :: t ∧ (a.toNat = 45 ∨ (48 ≤ a.toNat ∧ a.toNat ≤ 57)) := by
  unfold Json.numeral
  rw [toString_int_data]
  cases n with
  | ofNat m =>
    obtain ⟨h1, h2, -⟩ := toDigits_spec 10 (by omega) (by omega) m
    cases h : Nat.toDigits 10 m with
    | nil => exact absurd h h2
    | cons a t =>
      refine ⟨a, t, h, Or.inr ?_⟩
      exact isRadixDigit_ten a (h1 a (by rw [h]; exact List.mem_cons_self _ _))
  | negSucc m => exact ⟨'-', _, rfl, Or.inl rfl⟩

/-- A character that is a comma, a colon, a quote, a brace, a digit or a minus
sign is not white space. -/
theorem isSpace_false (c : Char)
    (h : c.toNat = 34 ∨ c.toNat = 44 ∨ c.toNat = 45 ∨ c.toNat = 58 ∨ c.toNat = 123 ∨
      c.toNat = 125 ∨ (48 ≤ c.toNat ∧ c.toNat ≤ 57)) :
    Json.isSpace c = false := by
  unfold Json.isSpace
  simp only [Bool.or_eq_false_iff, decide_eq_false_iff_not]
  omega

/-- The reader on the text of an ASCII string followed by more input. -/
theorem read_value_quote (s : List Char) (hs : ∀ c ∈ s, c.toNat < 128) (fuel : Nat)
    (rest : List Char) (hf : s.length + 1 ≤ fuel) :
    Json.read (fuel + 1) .value (Json.quote (String.mk s) ++ rest) =
      some (.str (String.mk s), rest) := by
  unfold Json.quote Json.read
  simp only [List.cons_append, List.append_assoc, List.singleton_append, List.nil_append]
  rw [List.dropWhile_cons_of_neg (by decide)]
  simp only [show ('"' : Char).toNat = 34 from rfl, show ¬ (34 : Nat) = 123 from by decide,
    show ¬ (34 : Nat) = 91 from by decide, if_false, if_true]
  rw [readString_quote s hs fuel rest hf]

/-- The reader on the decimal numeral of an integer followed by a comma or a
closing brace. -/
theorem read_value_numeral (n : Int) (fuel : Nat) (sep : Char) (rest : List Char)
    (hsep : sep.toNat = 44 ∨ sep.toNat = 125) :
    Json.read (fuel + 1) .value (Json.numeral n ++ sep :: rest) =
      some (.num n 0, sep :: rest) := by
  have hr := readNumber_numeral n sep rest hsep
  obtain ⟨a, t, hat, ha⟩ := numeral_head n
  rw [hat] at hr ⊢
  simp only [List.cons_append] at hr ⊢
  have hsp : Json.isSpace a = false := isSpace_false a (by omega)
  have ht : a ≠ 't' := by rintro rfl; revert ha; decide
  have hf : a ≠ 'f' := by rintro rfl; revert ha; decide
  have hn : a ≠ 'n' := by rintro rfl; revert ha; decide
  unfold Json.read
  rw [List.dropWhile_cons_of_neg (by simp [hsp])]
  simp only [show ¬ a.toNat = 123 from by omega, show ¬ a.toNat = 91 from by omega,
    show ¬ a.toNat = 34 from by omega, ht, hf, hn, if_false]
  exact hr

/-- One member of an object: its key, a colon, a value that the reader reads
up to a comma or a closing brace, and then that character. After a comma the
reader goes on with the next member, after a brace the object is complete. -/
theorem read_member (fuel : Nat) (members : List (String × Json.Value)) (k : List Char)
    (hk : ∀ c ∈ k, c.toNat < 128) (vtext : List Char) (v : Json.Value) (sep : Char)
    (rest : List Char) (hf : k.length + 1 ≤ fuel)
    (hv : Json.read fuel .value (vtext ++ sep :: rest) = some (v, sep :: rest))
    (hsep : sep.toNat = 44 ∨ sep.toNat = 125) :
    Json.read (fuel + 1) (.members members)
        (Json.quote (String.mk k) ++ ':' :: (vtext ++ sep :: rest)) =
      if sep.toNat = 44 then Json.read fuel (.members (members ++ [(String.mk k, v)])) rest
      else some (.obj (members ++ [(String.mk k, v)]), rest) := by
  have hsp : Json.isSpace sep = false := isSpace_false sep (by omega)
  unfold Json.quote
  simp only [List.cons_append, List.append_assoc, List.singleton_append, List.nil_append]
  rw [Json.read]
  rw [List.dropWhile_cons_of_neg (by decide)]
  simp only [show ('"' : Char).toNat = 34 from rfl, if_true]
  rw [readString_quote k hk fuel _ hf]
  simp only
  rw [List.dropWhile_cons_of_neg (by decide)]
  simp only [show (':' : Char).toNat = 58 from rfl, if_true, hv]
  rw [List.dropWhile_cons_of_neg (by simp [hsp])]
  rcases hsep with h | h
  · simp [h]
  · simp [h]

/-- An opening brace followed by a quote opens an object with members. -/
theorem read_object_open (fuel : Nat) (t : List Char) :
    Json.read (fuel + 1) .value (Char.ofNat 123 :: '"' :: t) =
      Json.read fuel (.members []) ('"' :: t) := by
  rw [Json.read]
  rw [List.dropWhile_cons_of_neg (by decide)]
  simp only [show (Char.ofNat 123).toNat = 123 from rfl, if_true]
  rw [List.dropWhile_cons_of_neg (by decide)]
  simp only [show ('"' : Char).toNat = 34 from rfl, show ¬ (34 : Nat) = 125 from by decide,
    if_false]

/-- The reader reads the text written for a token with ASCII strings as the
object of its five fields, given fuel beyond the lengths of the strings. -/
theorem read_tokenJson (d : MathToken) (h1 : ∀ c ∈ d.problemId.data, c.toNat < 128)
    (h2 : ∀ c ∈ d.type.data, c.toNat < 128) (h3 : ∀ c ∈ d.sig.data, c.toNat < 128)
    (f : Nat) (hf : 7 ≤ f) (hp : d.problemId.data.length + 1 ≤ f)
    (ht : d.type.data.length + 1 ≤ f) (hs : d.sig.data.length + 1 ≤ f) :
    Json.read (f + 7) .value (FallbackCaptcha.tokenJson d) =
      some (.obj [("problemId", .str d.problemId), ("answer", .num d.answer 0),
        ("timestamp", .num d.timestamp 0), ("type", .str d.type), ("sig", .str d.sig)], []) := by
  have m5 := (read_member (f + 1)
    [("problemId", .str d.problemId), ("answer", .num d.answer 0),
      ("timestamp", .num d.timestamp 0), ("type", .str d.type)]
    "sig".data (by decide) (Json.quote d.sig) (.str d.sig) (Char.ofNat 125) []
    (by simp; omega) (read_value_quote d.sig.data h3 f _ hs) (Or.inr rfl)).trans
    (if_neg (by decide))
  have m4 := (read_member (f + 2)
    [("problemId", .str d.problemId), ("answer", .num d.answer 0),
      ("timestamp", .num d.timestamp 0)]
    "type".data (by decide) (Json.quote d.type) (.str d.type) ','
    (Json.quote "sig" ++ ':' :: (Json.quote d.sig ++ [Char.ofNat 125]))
    (by simp; omega) (read_value_quote d.type.data h2 (f + 1) _ (by omega)) (Or.inl rfl)).trans
    ((if_pos rfl).trans m5)
  have m3 := (read_member (f + 3)
    [("problemId", .str d.problemId), ("answer", .num d.answer 0)]
    "timestamp".data (by decide) (Json.numeral d.timestamp) (.num d.timestamp 0) ','
    (Json.quote "type" ++ ':' :: (Json.quote d.type ++ ',' ::
      (Json.quote "sig" ++ ':' :: (Json.quote d.sig ++ [Char.ofNat 125]))))
    (by simp; omega) (read_value_numeral d.timestamp (f + 2) ',' _ (Or.inl rfl)) (Or.inl rfl)).trans
    ((if_pos rfl).trans m4)
  have m2 := (read_member (f + 4)
    [("problemId", .str d.problemId)]
    "answer".data (by decide) (Json.numeral d.answer) (.num d.answer 0) ','
    (Json.quote "timestamp" ++ ':' :: (Json.numeral d.timestamp ++ ',' ::
      (Json.quote "type" ++ ':' :: (Json.quote d.type ++ ',' ::
      (Json.quote "sig" ++ ':' :: (Json.quote d.sig ++ [Char.ofNat 125]))))))
    (by simp; omega) (read_value_numeral d.answer (f + 3) ',' _ (Or.inl rfl)) (Or.inl rfl)).trans
    ((if_pos rfl).trans m3)
  have m1 := (read_member (f + 5) []
    "problemId".data (by decide) (Json.quote d.problemId) (.str d.problemId) ','
    (Json.quote "answer" ++ ':' :: (Json.numeral d.answer ++ ',' ::
      (Json.quote "timestamp" ++ ':' :: (Json.numeral d.timestamp ++ ',' ::
      (Json.quote "type" ++ ':' :: (Json.quote d.type ++ ',' ::
      (Json.quote "sig" ++ ':' :: (Json.quote d.sig ++ [Char.ofNat 125]))))))))
    (by simp; omega) (read_value_quote d.problemId.data h1 (f + 4) _ (by omega)) (Or.inl rfl)).trans
    ((if_pos rfl).trans m2)
  exact (read_object_open (f + 6) _).trans m1

/-- The text written for a string is at least as long as the string. -/
theorem quote_length (s : String) : s.data.length ≤ (Json.quote s).length := by
  unfold Json.quote
  have h : ∀ l : List Char, l.length ≤ ((l.map Json.quoteChar).flatten).length := by
    intro l
    induction l with
    | nil => simp
    | cons a t ih =>
      have ha : 1 ≤ (Json.quoteChar a).length := by
        unfold Json.quoteChar
        split_ifs <;> simp
      simp only [List.map_cons, List.flatten_cons, List.length_append, List.length_cons]
      omega
  have := h s.data
  simp only [List.length_cons, List.length_append, List.length_singleton]
  omega

/-- The call `JSON.parse` reads the text written for a token with ASCII strings as
the object of its five fields. -/
theorem parse_tokenJson (d : MathToken) (h1 : ∀ c ∈ d.problemId.data, c.toNat < 128)
    (h2 : ∀ c ∈ d.type.data, c.toNat < 128) (h3 : ∀ c ∈ d.sig.data, c.toNat < 128) :
    Json.parse (String.mk (FallbackCaptcha.tokenJson d)) =
      some (.obj [("problemId", .str d.problemId), ("answer", .num d.answer 0),
        ("timestamp", .num d.timestamp 0), ("type", .str d.type), ("sig", .str d.sig)]) := by
  have hl : d.problemId.data.length + d.type.data.length + d.sig.data.length + 7 ≤
      (FallbackCaptcha.tokenJson d).length := by
    have q1 := quote_length d.problemId
    have q2 := quote_length d.type
    have q3 := quote_length d.sig
    unfold FallbackCaptcha.tokenJson
    simp only [List.length_cons, List.length_append, List.length_singleton]
    omega
  obtain ⟨f, hf⟩ : ∃ f, 2 * (FallbackCaptcha.tokenJson d).length + 2 = f + 7 :=
    ⟨2 * (FallbackCaptcha.tokenJson d).length - 5, by omega⟩
  unfold Json.parse
  simp only []
  rw [hf, read_tokenJson d h1 h2 h3 f (by omega) (by omega) (by omega) (by omega)]
  rfl

/-- The text written for a token with ASCII strings is ASCII. -/
theorem tokenJson_ascii (d : MathToken) (h1 : ∀ c ∈ d.problemId.data, c.toNat < 128)
    (h2 : ∀ c ∈ d.type.data, c.toNat < 128) (h3 : ∀ c ∈ d.sig.data, c.toNat < 128) :
    ∀ c ∈ FallbackCaptcha.tokenJson d, c.toNat < 128 := by
  have k1 := quote_ascii "problemId" (by decide)
  have k2 := quote_ascii "answer" (by decide)
  have k3 := quote_ascii "timestamp" (by decide)
  have k4 := quote_ascii "type" (by decide)
  have k5 := quote_ascii "sig" (by decide)
  have v1 := quote_ascii d.problemId h1
  have v2 := numeral_ascii d.answer
  have v3 := numeral_ascii d.timestamp
  have v4 := quote_ascii d.type h2
  have v5 := quote_ascii d.sig h3
  intro c hc
  unfold FallbackCaptcha.tokenJson at hc
  simp only [List.mem_cons, List.mem_append, List.mem_singleton, List.not_mem_nil, or_false] at hc
  rcases hc with rfl | h | rfl | h | rfl | h | rfl | h | rfl | h | rfl | h | rfl | h | rfl | h |
    rfl | h | rfl | h | rfl
  · decide
  · exact k1 c h
  · decide
  · exact v1 c h
  · decide
  · exact k2 c h
  · decide
  · exact v2 c h
  · decide
  · exact k3 c h
  · decide
  · exact v3 c h
  · decide
  · exact k4 c h
  · decide
  · exact v4 c h
  · decide
  · exact k5 c h
  · decide
  · exact v5 c h
  · decide

/-- A token with ASCII strings goes through `btoa(JSON.stringify(...))` on the
client and `JSON.parse(Buffer.from(..., 'base64').toString())` on the server
unchanged. -/
theorem decodeToken_encodeToken (d : MathToken) (h1 : ∀ c ∈ d.problemId.data, c.toNat < 128)
    (h2 : ∀ c ∈ d.type.data, c.toNat < 128) (h3 : ∀ c ∈ d.sig.data, c.toNat < 128) :
    ∃ token, FallbackCaptcha.encodeToken d = some token ∧ Verify.decodeToken token = some d := by
  obtain ⟨e1, e2⟩ := base64_ascii (FallbackCaptcha.tokenJson d) (tokenJson_ascii d h1 h2 h3)
  refine ⟨String.mk (Buffer.toBase64 ((FallbackCaptcha.tokenJson d).map Char.toNat)), ?_, ?_⟩
  · unfold FallbackCaptcha.encodeToken
    rw [e1]
    rfl
  · unfold Verify.decodeToken
    simp only []
    rw [e2, parse_tokenJson d h1 h2 h3]
    simp [Json.Value.get, Json.integer]

/-- The signature `createSignature` returns is made of ASCII characters. -/
theorem createSignature_ascii (problemId : String) (answer timestamp : Int) (type : String) :
    ∀ c ∈ (Verify.createSignature problemId answer timestamp type).data, c.toNat < 128 := by
  intro c hc
  rw [createSignature_eq] at hc
  exact isRadixDigit_ascii 16 c ((toDigits_spec 16 (by omega) (by omega) _).1 c hc)

/-- C14, as the claim states it, fails: for the problem id `é` (U+00E9) the
client's token holds the byte E9, which the server's UTF-8 decoding reads as
U+FFFD, so the server recomputes another signature and rejects the token at its
creation time; and a token created at time 8640000000000001 is rejected at
that time, because `new Date(timestamp).toISOString()` throws. -/
theorem client_token_rejected_counterexample :
    latinSystem.problemId = "é" ∧
    FallbackCaptcha.generateVerificationToken wireBtoaJson 0 latinSystem =
      "eyJwcm9ibGVtSWQiOiLpIiwiYW5zd2VyIjoxMiwidGltZXN0YW1wIjowLCJ0eXBlIjoibWF0aF9jYXB0Y2hhIiwic2lnIjoiNjUzOTJiZjgifQ==" ∧
    wireWorld.decode (FallbackCaptcha.generateVerificationToken wireBtoaJson 0 latinSystem) =
      some { problemId := "�", answer := 12, timestamp := 0, type := "math_captcha",
             sig := "65392bf8" } ∧
    Verify.createSignature "�" 12 0 "math_captcha" = "6375b61c" ∧
    Verify.verifyFallbackCaptcha wireWorld 0
        (some (FallbackCaptcha.generateVerificationToken wireBtoaJson 0 latinSystem)) =
      { success := false, error := some "验证签名无效" } ∧
    Verify.verifyFallbackCaptcha wireWorld 8640000000000001
        (some (FallbackCaptcha.generateVerificationToken wireBtoaJson 8640000000000001
          sampleSystem)) =
      { success := false, error := some "备用验证失败", fallbackRecommended := some false } := by
  refine ⟨rfl, ?_, ?_, ?_, ?_, ?_⟩ <;> set_option maxRecDepth 1000000 in decide

/-- C14, amended: when `btoaJson` is `btoa(JSON.stringify(...))` and the world's
decoder is `JSON.parse(Buffer.from(..., 'base64').toString())`, for every
problem id of ASCII characters, every integer correctAnswer and every creation
time t up to the largest time value, the token the client's
generateVerificationToken builds at time t is accepted by the server's
verifyFallbackCaptcha at every time now with now - t ≤ 300000 ms; the client's
createSignature equals the server's on the same fields. -/
theorem client_token_accepted (w : World) (btoaJson : MathToken → String)
    (self : FallbackCaptcha.System) (t now : Nat)
    (hbtoa : ∀ d token, FallbackCaptcha.encodeToken d = some token → btoaJson d = token)
    (hdecode : ∀ token d, Verify.decodeToken token = some d → w.decode token = some d)
    (hid : ∀ c ∈ self.problemId.data, c.toNat < 128)
    (ht : t ≤ 8640000000000000)
    (hwin : (now : Int) - t ≤ 300000) :
    Verify.verifyFallbackCaptcha w now
        (some (FallbackCaptcha.generateVerificationToken btoaJson t self)) = { success := true } ∧
    ∀ data : FallbackCaptcha.TokenData,
      FallbackCaptcha.createSignature data =
        Verify.createSignature data.problemId data.answer data.timestamp data.type := by
  refine ⟨?_, fun data => rfl⟩
  obtain ⟨token, he, hd⟩ := decodeToken_encodeToken
    { problemId := self.problemId
      answer := self.correctAnswer
      timestamp := t
      type := "math_captcha"
      sig := Verify.createSignature self.problemId self.correctAnswer t "math_captcha" }
    hid (show ∀ c ∈ "math_captcha".data, c.toNat < 128 from by decide)
    (createSignature_ascii _ _ _ _)
  have hg : FallbackCaptcha.generateVerificationToken btoaJson t self = token := hbtoa _ token he
  rw [hg]
  apply verifyFallbackCaptcha_success_eq
  refine (verifyFallbackCaptcha_success_iff w now _).mpr
    ⟨_, by simpa using hdecode token _ hd, rfl, hwin, rfl, ?_⟩
  show (t : Int) ≤ 8640000000000000
  omega

/-- Instance of C14 amended: the token the sample client builds at time 0 for the
puzzle `7 + 5`, encoded with `btoa` and JSON, is accepted at time 300000 by the
server that decodes base64 and JSON. -/
theorem client_token_accepted_witness :
    sampleSystem.currentProblem.problem = "7 + 5 = ?" ∧ sampleSystem.correctAnswer = 12 ∧
    sampleSystem.problemId = "p1" ∧
    Verify.verifyFallbackCaptcha wireWorld 300000
        (some (FallbackCaptcha.generateVerificationToken wireBtoaJson 0 sampleSystem)) =
      { success := true } :=
  ⟨by decide, by decide, rfl,
    (client_token_accepted wireWorld wireBtoaJson sampleSystem 0 300000
      (fun d token h => by simp [wireBtoaJson, h]) (fun _ _ h => h) (by decide) (by decide)
      (by decide)).1⟩

end Blog
